import Mathlib

/-!
# Serial LTE modem: the single-session socket command engine

A shallow embedding of `applications/serial_lte_modem/src/slm_at_tcpip.c`, and
of the function `util_check_for_ipv4` of
`samples/nrf9160/eureka_lwm2m_proxy/src/elp_util.c`.

The C file keeps one global `sock` record, reads the global `errno`, calls the
socket API of the operating system and writes its answers with `rsp_send`.
Here the global state is an explicit value `St`; every call of an external
function takes its outcome from an infinite stream `env` carried in the state
and is logged, with the call's arguments and result, in `trace`; every
`rsp_send` is logged in `trace` as well.  A property quantified over `env`
therefore holds for every behaviour of the operating system.
-/

namespace Slm

/-! ## Constants -/

/-- Modelled from the spec: `INVALID_SOCKET` (declared in `slm_util.h`, which is
not part of the source tree) is the sentinel for "no descriptor"; the code
compares descriptors with `< 0`, and no descriptor is `-1`. -/
def INVALID_SOCKET : Int := -1

/-- Modelled from the spec: `INVALID_SEC_TAG` (declared in `slm_util.h`) is the
sentinel for "no security tag". -/
def INVALID_SEC_TAG : Int := -1

/-- Socket operations: `enum slm_socket_operation`. -/
def AT_SOCKET_CLOSE : Int := 0
/-- Socket operations: `enum slm_socket_operation`. -/
def AT_SOCKET_OPEN_IPV4 : Int := 1
/-- Socket operations: `enum slm_socket_operation`. -/
def AT_SOCKET_OPEN_IPV6 : Int := 2

/-- Socketopt operations: `enum slm_socketopt_operation`. -/
def AT_SOCKETOPT_GET : Int := 0
/-- Socketopt operations: `enum slm_socketopt_operation`. -/
def AT_SOCKETOPT_SET : Int := 1

/-- Socket roles: `enum slm_socket_role`. -/
def AT_SOCKET_ROLE_CLIENT : Int := 0
/-- Socket roles: `enum slm_socket_role`. -/
def AT_SOCKET_ROLE_SERVER : Int := 1

/-! Values of the operating system headers (`net/socket.h`, `errno.h`). -/

def AF_UNSPEC : Int := 0
def AF_INET : Int := 1
def AF_INET6 : Int := 2
def SOCK_STREAM : Int := 1
def SOCK_DGRAM : Int := 2
def IPPROTO_TCP : Int := 6
def IPPROTO_UDP : Int := 17
def IPPROTO_TLS_1_2 : Int := 258
def IPPROTO_DTLS_1_2 : Int := 273
def SOL_SOCKET : Int := 1
def SOL_TLS : Int := 282
def TLS_SEC_TAG_LIST : Int := 1
def TLS_HOSTNAME : Int := 2
def TLS_PEER_VERIFY : Int := 5
def TLS_PEER_VERIFY_NONE : Int := 0
def TLS_PEER_VERIFY_REQUIRED : Int := 2

def SO_REUSEADDR : Int := 2
def SO_TYPE : Int := 3
def SO_ERROR : Int := 4
def SO_PRIORITY : Int := 12
def SO_RCVTIMEO : Int := 20
def SO_SNDTIMEO : Int := 21
def SO_BINDTODEVICE : Int := 25
def SO_SILENCE_ALL : Int := 30
def SO_IP_ECHO_REPLY : Int := 31
def SO_IPV6_ECHO_REPLY : Int := 32
def SO_TIMESTAMPING : Int := 37
def SO_PROTOCOL : Int := 38
def SO_RAI_LAST : Int := 50
def SO_RAI_NO_DATA : Int := 51
def SO_RAI_ONE_RESP : Int := 52
def SO_RAI_ONGOING : Int := 53
def SO_RAI_WAIT_MORE : Int := 54
def SO_TCP_SRV_SESSTIMEO : Int := 55

def ENOENT : Int := 2
def EBADF : Int := 9
def EAGAIN : Int := 11
def ENOMEM : Int := 12
def EINVAL : Int := 22
def ETIMEDOUT : Int := 116
def ENOTSUP : Int := 134

/-- Sizes of the local buffers (`slm_at_tcpip.h`, `net/net_ip.h`, `net/if.h`). -/
def TCPIP_MAX_URL : Nat := 128
def NET_IPV4_MTU : Nat := 576
def IFNAMSIZ : Nat := 16
def DATATYPE_PLAINTEXT : Int := 1

/-- Build options of the application (Kconfig), not fixed by the source file. -/
structure Config where
  /-- Tells whether `CONFIG_SLM_NATIVE_TLS` is defined. -/
  CONFIG_SLM_NATIVE_TLS : Bool
  /-- Size of `rx_data`. -/
  CONFIG_SLM_SOCKET_RX_MAX : Nat
deriving DecidableEq, Repr

/-! ## Data model -/

/-- The global `sock` record. -/
structure Sock where
  type : Int
  role : Int
  sec_tag : Int
  hostname_verify : Int
  family : Int
  fd : Int
  fd_peer : Int
deriving DecidableEq, Repr

/-- A value of `errno` stored by a failed call: strictly positive. -/
structure Errno where
  val : Nat
  pos : 0 < val
deriving DecidableEq, Repr

/-- Result of an external call: success with a value (a descriptor, a byte
count, or nothing), or failure with an error number. -/
inductive Ret where
  | ok (v : Nat)
  | err (e : Errno)
deriving DecidableEq, Repr

/-- The C return value of a call that returns a value on success and `-1` on
failure (`socket`, `accept`, `send`, `recv`, ...). -/
def Ret.value : Ret → Int
  | .ok v => (v : Int)
  | .err _ => -1

/-- The C return value of a call that returns `0` on success and `-1` on
failure (`close`, `bind`, `connect`, `listen`, `setsockopt`, `getsockopt`). -/
def Ret.status : Ret → Int
  | .ok _ => 0
  | .err _ => -1

/-- The C return value of a function that returns `0` on success and a
negative error code on failure (`slm_tls_loadcrdl`, `slm_tls_unloadcrdl`,
`getaddrinfo` with the resolver's negative `DNS_EAI_*` codes). -/
def Ret.code : Ret → Int
  | .ok _ => 0
  | .err e => -(e.val : Int)

/-- A socket address (`struct sockaddr_in` / `struct sockaddr_in6`).  The
binary address is identified with its presentation form, so that `inet_ntop`
is the projection `addr`; `port` is the 16-bit field as stored, in network
byte order. -/
structure sockaddr where
  sa_family : Int
  addr : List Char
  port : Int
deriving DecidableEq, Repr, Inhabited

/-- One element of a `getaddrinfo` result list. -/
structure addrinfo where
  ai_family : Int
  ai_addr : sockaddr
deriving DecidableEq, Repr, Inhabited

/-- What the environment answers to one external call.  Each call reads the
fields that it returns through pointers. -/
structure Outcome where
  ret : Ret
  /-- Bytes written to the buffer of `recv`/`recvfrom`, text of `util_get_ip_addr`. -/
  data : List Char
  /-- Address filled in by `accept`/`recvfrom`. -/
  addr : sockaddr
  /-- Result list of `getaddrinfo`. -/
  addrs : List addrinfo
  /-- Option value returned by `getsockopt`. -/
  optval : Int
  /-- Text that `inet_ntop(AF_INET, ...)` yields for the bytes of the first
  address of a `getaddrinfo` result that is not an `AF_INET` address. -/
  as_inet : List Char := []
  /-- Text that `inet_ntop(AF_INET6, ...)` yields for the bytes of the first
  address of a `getaddrinfo` result that is not an `AF_INET6` address. -/
  as_inet6 : List Char := []
deriving DecidableEq, Repr

/-- The `optval` argument of `setsockopt`. -/
inductive OptVal where
  | int (v : Int)
  | timeval (tv_sec : Int)
  | str (s : List Char)
  | sec_tag_list (tags : List Int)
  | null
deriving DecidableEq, Repr

/-- An external call with its arguments. -/
inductive Call where
  | socket (family type proto : Int)
  | close (fd : Int)
  | setsockopt (fd level optname : Int) (optval : OptVal)
  | getsockopt (fd level optname : Int)
  | bind (fd : Int) (addr : sockaddr)
  | connect (fd : Int) (addr : sockaddr)
  | listen (fd backlog : Int)
  | accept (fd : Int)
  | send (fd : Int) (buf : List Char) (len : Nat)
  | recv (fd : Int) (len : Int)
  | sendto (fd : Int) (buf : List Char) (len : Nat) (dest : sockaddr)
  | recvfrom (fd : Int) (len : Int)
  | getaddrinfo (host : List Char)
  | freeaddrinfo
  | slm_tls_loadcrdl (sec_tag : Int)
  | slm_tls_unloadcrdl (sec_tag : Int)
  | util_get_ip_addr (family : Int)
  | inet_pton (family : Int) (src : List Char)
deriving DecidableEq, Repr

/-- A response line: one constructor for each `sprintf` format of the file,
with the arguments of the format. -/
inductive Rsp where
  /-- Format `\r\n#XSOCKET: %d,%d,%d,%d\r\n`. -/
  | xsocket_open (fd type role proto : Int)
  /-- Format `\r\n#XSSOCKET: %d,%d,%d,%d\r\n`. -/
  | xssocket_open (fd type role proto : Int)
  /-- Format `\r\n#XSOCKET: %d,"closed"\r\n`. -/
  | xsocket_closed (error : Int)
  /-- Format `\r\n#XSOCKET: %d\r\n` with an error code. -/
  | xsocket_error (error : Int)
  /-- Format `\r\n#XSOCKETOPT: "not supported"\r\n`. -/
  | xsocketopt_not_supported
  /-- Format `\r\n#XSOCKETOPT: %d\r\n`. -/
  | xsocketopt_int (value : Int)
  /-- Format `\r\n#XSOCKETOPT: "%d sec"\r\n`. -/
  | xsocketopt_sec (tv_sec : Int)
  /-- Format `\r\n#XCONNECT: 1\r\n`. -/
  | xconnect
  /-- Format `\r\n#XACCEPT: "connected with %s"\r\n`. -/
  | xaccept_connected (peer_addr : List Char)
  /-- Format `\r\n#XACCEPT: %d\r\n`. -/
  | xaccept (fd_peer : Int)
  /-- Format `\r\n#XSEND: %d\r\n`. -/
  | xsend (offset : Int)
  /-- Format `\r\n#XRECV: %d,%d\r\n`. -/
  | xrecv (datatype ret : Int)
  /-- Format `\r\n#XSENDTO: %d\r\n`. -/
  | xsendto (offset : Int)
  /-- Format `\r\n#XRECVFROM: %d,"%s:%d"\r\n`. -/
  | xrecvfrom (ret : Int) (peer_addr : List Char) (port : Int)
  /-- Format `\r\n#XSOCKET: %d,%d,%d\r\n` of the read command. -/
  | xsocket_read (fd family role : Int)
  /-- Format `\r\n#XSOCKET: 0\r\n` of the read command. -/
  | xsocket_read_none
  /-- Format `\r\n#XSSOCKET: %d,%d,%d\r\n` of the read command. -/
  | xssocket_read (fd family role : Int)
  /-- Format `\r\n#XSSOCKET: 0\r\n` of the read command. -/
  | xssocket_read_none
  /-- Format `\r\n#XSOCKET: (%d,%d,%d),(%d,%d),(%d,%d)` of the test command. -/
  | xsocket_test
  /-- The line `\r\n,<sec-tag>\r\n`. -/
  | xsocket_test_params
  /-- Format `\r\n#XSSOCKET: (%d,%d,%d),(%d,%d),(%d,%d)` of the test command. -/
  | xssocket_test
  /-- The line `\r\n,<sec-tag>,<peer_verify>,<hostname_verify>\r\n`. -/
  | xssocket_test_params
  /-- Format `\r\n#XSOCKETOPT: (%d,%d),<name>,<value>\r\n`. -/
  | xsocketopt_test
  /-- Format `\r\n#XTCPACCEPT: %d\r\n`. -/
  | xtcpaccept (fd_peer : Int)
  /-- Format `\r\n#XTCPACCEPT: 0\r\n`. -/
  | xtcpaccept_none
  /-- Format `\r\n#XGETADDRINFO: "%s"\r\n` with the resolver's error code. -/
  | xgetaddrinfo_error (code : Int)
  /-- Format `\r\n#XGETADDRINFO: "not found"\r\n`. -/
  | xgetaddrinfo_not_found
  /-- The line `\r\n#XGETADDRINFO: "` followed by the text built with `strcat`. -/
  | xgetaddrinfo (text : List Char)
deriving DecidableEq, Repr

/-- An observable step: an external call with its result, a response line, or a
block of payload bytes handed to `rsp_send`. -/
inductive Event where
  | call (c : Call) (r : Ret)
  | rsp (line : Rsp)
  | data (bytes : List Char)
deriving DecidableEq, Repr

/-- The whole state of the module and of its environment. -/
structure St where
  sock : Sock
  errno : Int
  /-- Outcomes of the external calls still to come, in call order. -/
  env : Nat → Outcome
  /-- Calls made and responses sent so far, oldest first. -/
  trace : List Event

/-- A call of an external function that stores `errno` when it fails. -/
def St.sys (st : St) (c : Call) : St × Outcome :=
  ({ st with
      env := fun n => st.env (n + 1)
      trace := st.trace ++ [Event.call c (st.env 0).ret]
      errno := match (st.env 0).ret with
        | .ok _ => st.errno
        | .err e => (e.val : Int) },
   st.env 0)

/-- A call of an external function that reports failure through its return
value only. -/
def St.ext (st : St) (c : Call) : St × Outcome :=
  ({ st with
      env := fun n => st.env (n + 1)
      trace := st.trace ++ [Event.call c (st.env 0).ret] },
   st.env 0)

/-- The function `rsp_send` applied to a formatted line. -/
def St.rsp_send (st : St) (line : Rsp) : St :=
  { st with trace := st.trace ++ [Event.rsp line] }

/-- The function `rsp_send` applied to raw payload bytes. -/
def St.rsp_send_data (st : St) (bytes : List Char) : St :=
  { st with trace := st.trace ++ [Event.data bytes] }

/-- Assignment to a field of `sock`. -/
def St.setSock (st : St) (f : Sock → Sock) : St :=
  { st with sock := f st.sock }

/-- The function `slm_at_tcpip_init`, on the `sock` record. -/
def slm_at_tcpip_init (s : Sock) : Sock :=
  { s with
      family := AF_UNSPEC
      sec_tag := INVALID_SEC_TAG
      role := AT_SOCKET_ROLE_CLIENT
      fd := INVALID_SOCKET
      fd_peer := INVALID_SOCKET }

/-- The assignment `sock.fd = socket(family, type, proto)`. -/
def St.socket (st : St) (family type proto : Int) : St :=
  let c := st.sys (Call.socket family type proto)
  c.1.setSock (fun s => { s with fd := c.2.ret.value })

/-- The function `do_socket_open`, after the call of `socket`. -/
def do_socket_open_created (st : St) (proto : Int) : St × Int :=
  if st.sock.fd < 0 then (st, -st.errno)
  else (st.rsp_send (Rsp.xsocket_open st.sock.fd st.sock.type st.sock.role proto), 0)

/-- The function `do_socket_open`. -/
def do_socket_open (st : St) : St × Int :=
  if st.sock.fd ≠ INVALID_SOCKET then (st, -EINVAL)
  else if st.sock.type = SOCK_STREAM then
    do_socket_open_created (st.socket st.sock.family SOCK_STREAM IPPROTO_TCP) IPPROTO_TCP
  else if st.sock.type = SOCK_DGRAM then
    do_socket_open_created (st.socket st.sock.family SOCK_DGRAM IPPROTO_UDP) IPPROTO_UDP
  else (st, -ENOTSUP)

/-- The label `error_exit` of `do_secure_socket_open`. -/
def secure_error_exit (st : St) (ret : Int) : St × Int :=
  (((st.sys (Call.close st.sock.fd)).1).setSock slm_at_tcpip_init, ret)

/-- The function `do_secure_socket_open`, from `setsockopt(TLS_SEC_TAG_LIST)` on. -/
def do_secure_socket_attach (st : St) (peer_verify proto : Int) : St × Int :=
  let a := st.sys (Call.setsockopt st.sock.fd SOL_TLS TLS_SEC_TAG_LIST
             (OptVal.sec_tag_list [st.sock.sec_tag]))
  if a.2.ret.status ≠ 0 then secure_error_exit a.1 (-a.1.errno)
  else
    let b := a.1.sys (Call.setsockopt a.1.sock.fd SOL_TLS TLS_PEER_VERIFY (OptVal.int peer_verify))
    if b.2.ret.status ≠ 0 then secure_error_exit b.1 (-b.1.errno)
    else (b.1.rsp_send (Rsp.xssocket_open b.1.sock.fd b.1.sock.type b.1.sock.role proto), 0)

/-- The function `do_secure_socket_open`, after the call of `socket`. -/
def do_secure_socket_created (cfg : Config) (st : St) (peer_verify proto : Int) : St × Int :=
  if st.sock.fd < 0 then (st, -st.errno)
  else if cfg.CONFIG_SLM_NATIVE_TLS then
    let l := st.ext (Call.slm_tls_loadcrdl st.sock.sec_tag)
    if l.2.ret.code < 0 then secure_error_exit l.1 (-EAGAIN)
    else do_secure_socket_attach l.1 peer_verify proto
  else do_secure_socket_attach st peer_verify proto

/-- The function `do_secure_socket_open`. -/
def do_secure_socket_open (cfg : Config) (st : St) (peer_verify : Int) : St × Int :=
  if st.sock.fd ≠ INVALID_SOCKET then (st, -EINVAL)
  else if st.sock.type = SOCK_STREAM then
    do_secure_socket_created cfg (st.socket st.sock.family SOCK_STREAM IPPROTO_TLS_1_2)
      peer_verify IPPROTO_TLS_1_2
  else if st.sock.type = SOCK_DGRAM then
    do_secure_socket_created cfg (st.socket st.sock.family SOCK_DGRAM IPPROTO_DTLS_1_2)
      peer_verify IPPROTO_DTLS_1_2
  else (st, -ENOTSUP)

/-- The function `do_socket_close`, from the closing of the peer on. -/
def do_socket_close_fds (st : St) (error : Int) : St × Int :=
  let p := if st.sock.fd_peer ≠ INVALID_SOCKET then (st.sys (Call.close st.sock.fd_peer)).1 else st
  let c := p.sys (Call.close p.sock.fd)
  let ret := if c.2.ret.status ≠ 0 then -c.1.errno else c.2.ret.status
  ((c.1.setSock slm_at_tcpip_init).rsp_send (Rsp.xsocket_closed error), ret)

/-- The function `do_socket_close`. -/
def do_socket_close (cfg : Config) (st : St) (error : Int) : St × Int :=
  if st.sock.fd = INVALID_SOCKET then (st, 0)
  else if cfg.CONFIG_SLM_NATIVE_TLS ∧ st.sock.sec_tag ≠ INVALID_SEC_TAG then
    let u := st.ext (Call.slm_tls_unloadcrdl st.sock.sec_tag)
    if u.2.ret.code < 0 then (u.1, u.2.ret.code)
    else do_socket_close_fds u.1 error
  else do_socket_close_fds st error

/-- The function `do_socketopt_set_str`. -/
def do_socketopt_set_str (st : St) (option : Int) (value : List Char) : St × Int :=
  if option = SO_BINDTODEVICE then
    let c := st.sys (Call.setsockopt st.sock.fd SOL_SOCKET option (OptVal.str value))
    (c.1, c.2.ret.status)
  else (st, -ENOTSUP)

/-- The function `do_socketopt_set_int`. -/
def do_socketopt_set_int (st : St) (option value : Int) : St × Int :=
  if option = SO_REUSEADDR then
    let c := st.sys (Call.setsockopt st.sock.fd SOL_SOCKET option (OptVal.int value))
    (c.1, c.2.ret.status)
  else if option = SO_RCVTIMEO ∨ option = SO_SNDTIMEO then
    let c := st.sys (Call.setsockopt st.sock.fd SOL_SOCKET option (OptVal.timeval value))
    (c.1, c.2.ret.status)
  else if option = SO_SILENCE_ALL ∨ option = SO_IP_ECHO_REPLY ∨ option = SO_IPV6_ECHO_REPLY
      ∨ option = SO_TCP_SRV_SESSTIMEO then
    let c := st.sys (Call.setsockopt st.sock.fd SOL_SOCKET option (OptVal.int value))
    (c.1, c.2.ret.status)
  else if option = SO_RAI_LAST ∨ option = SO_RAI_NO_DATA ∨ option = SO_RAI_ONE_RESP
      ∨ option = SO_RAI_ONGOING ∨ option = SO_RAI_WAIT_MORE then
    let c := st.sys (Call.setsockopt st.sock.fd SOL_SOCKET option OptVal.null)
    (c.1, c.2.ret.status)
  else if option = SO_PRIORITY ∨ option = SO_TIMESTAMPING then
    (st.rsp_send Rsp.xsocketopt_not_supported, -ENOTSUP)
  else (st, -ENOTSUP)

/-- The function `do_socketopt_get`. -/
def do_socketopt_get (st : St) (option : Int) : St × Int :=
  if option = SO_SILENCE_ALL ∨ option = SO_IP_ECHO_REPLY ∨ option = SO_IPV6_ECHO_REPLY
      ∨ option = SO_TCP_SRV_SESSTIMEO ∨ option = SO_ERROR then
    let c := st.sys (Call.getsockopt st.sock.fd SOL_SOCKET option)
    if c.2.ret.status ≠ 0 then (c.1, c.2.ret.status)
    else (c.1.rsp_send (Rsp.xsocketopt_int c.2.optval), c.2.ret.status)
  else if option = SO_RCVTIMEO ∨ option = SO_SNDTIMEO then
    let c := st.sys (Call.getsockopt st.sock.fd SOL_SOCKET option)
    if c.2.ret.status ≠ 0 then (c.1, c.2.ret.status)
    else (c.1.rsp_send (Rsp.xsocketopt_sec c.2.optval), c.2.ret.status)
  else if option = SO_TYPE ∨ option = SO_PRIORITY ∨ option = SO_PROTOCOL then
    (st.rsp_send Rsp.xsocketopt_not_supported, 0)
  else (st, 0)

/-- The macro `htons` on the little-endian target: swaps the two bytes. -/
def htons (port : Int) : Int := (port % 256) * 256 + (port / 256) % 256

/-- The statements `do_socket_close(-errno); return -errno;`. -/
def close_and_fail (cfg : Config) (st : St) : St × Int :=
  let c := do_socket_close cfg st (-st.errno)
  (c.1, -c.1.errno)

/-- One family branch of `do_bind`. -/
def do_bind_family (cfg : Config) (st : St) (port family : Int) : St × Int :=
  let g := st.ext (Call.util_get_ip_addr family)
  if g.2.data.length = 0 then (g.1, -EINVAL)
  else
    let p := g.1.sys (Call.inet_pton family g.2.data)
    if p.2.ret.value ≠ 1 then (p.1, -EAGAIN)
    else
      let b := p.1.sys (Call.bind p.1.sock.fd (sockaddr.mk family g.2.data (htons port)))
      if b.2.ret.status ≠ 0 then close_and_fail cfg b.1
      else (b.1, 0)

/-- The function `do_bind`. -/
def do_bind (cfg : Config) (st : St) (port : Int) : St × Int :=
  if st.sock.family = AF_INET then do_bind_family cfg st port AF_INET
  else if st.sock.family = AF_INET6 then do_bind_family cfg st port AF_INET6
  else (st, -EINVAL)

/-- The test `Address family mismatch` of `do_connect` and `do_sendto`. -/
def family_mismatch (s : Sock) (res : addrinfo) : Prop :=
  (s.family = AF_INET ∧ res.ai_family ≠ AF_INET) ∨
  (s.family = AF_INET6 ∧ res.ai_family ≠ AF_INET6)

instance (s : Sock) (res : addrinfo) : Decidable (family_mismatch s res) := by
  unfold family_mismatch; infer_instance

/-- The block `if (sock.sec_tag != INVALID_SEC_TAG)` of `do_connect` and
`do_sendto`; the second component is the value returned early, if any.
`SOCKET_FUTURE_FEATURE` is defined (as `0`), so the branch under
`#ifdef SOCKET_FUTURE_FEATURE` is compiled. -/
def set_tls_hostname (cfg : Config) (st : St) (url : List Char) : St × Option Int :=
  if st.sock.sec_tag ≠ INVALID_SEC_TAG then
    if st.sock.hostname_verify ≠ 0 then
      let h := st.sys (Call.setsockopt st.sock.fd SOL_TLS TLS_HOSTNAME (OptVal.str url))
      if h.2.ret.status < 0 then ((close_and_fail cfg h.1).1, some (close_and_fail cfg h.1).2)
      else (h.1, none)
    else
      let h := st.sys (Call.setsockopt st.sock.fd SOL_TLS TLS_HOSTNAME OptVal.null)
      if h.2.ret.status < 0 then ((close_and_fail cfg h.1).1, some (close_and_fail cfg h.1).2)
      else (h.1, none)
  else (st, none)

/-- The target of `connect`/`sendto`: the resolved address with
`sin_port = htons(port)` (resp. `sin6_port`). -/
def target (res : addrinfo) (port : Int) : sockaddr :=
  { res.ai_addr with port := htons port }

/-- An external call that returns nothing (`freeaddrinfo`). -/
def St.void (st : St) (c : Call) : St :=
  { st with trace := st.trace ++ [Event.call c (Ret.ok 0)] }

/-- The function `do_connect`, from the block on the security tag on.  `res`
is the first element of the list returned by `getaddrinfo`. -/
def do_connect_resolved (cfg : Config) (st : St) (url : List Char) (port : Int)
    (res : addrinfo) : St × Int :=
  let h := set_tls_hostname cfg st url
  match h.2 with
  | some ret => (h.1, ret)
  | none =>
    let k := h.1.sys (Call.connect h.1.sock.fd (target res port))
    if k.2.ret.status ≠ 0 then close_and_fail cfg k.1
    else ((k.1.rsp_send Rsp.xconnect).void Call.freeaddrinfo, k.2.ret.status)

/-- The function `do_connect`.  A successful `getaddrinfo` returns a non-empty
list; `res` is its first element. -/
def do_connect (cfg : Config) (st : St) (url : List Char) (port : Int) : St × Int :=
  let g := st.ext (Call.getaddrinfo url)
  if g.2.ret.code ≠ 0 then (g.1, -EAGAIN)
  else if family_mismatch g.1.sock (g.2.addrs.headD default) then (g.1.void Call.freeaddrinfo, -EINVAL)
  else do_connect_resolved cfg g.1 url port (g.2.addrs.headD default)

/-- The function `do_listen`. -/
def do_listen (cfg : Config) (st : St) : St × Int :=
  let l := st.sys (Call.listen st.sock.fd 1)
  if l.2.ret.status < 0 then close_and_fail cfg l.1
  else (l.1, 0)

/-- One family branch of `do_accept`, with the two `rsp_send` that follow. -/
def do_accept_family (cfg : Config) (st : St) : St × Int :=
  let a := st.sys (Call.accept st.sock.fd)
  let st1 := a.1.setSock (fun s => { s with fd_peer := a.2.ret.value })
  if st1.sock.fd_peer = -1 then
    close_and_fail cfg (st1.setSock (fun s => { s with fd_peer := INVALID_SOCKET }))
  else
    ((st1.rsp_send (Rsp.xaccept_connected a.2.addr.addr)).rsp_send
      (Rsp.xaccept st1.sock.fd_peer), 0)

/-- The function `do_accept`. -/
def do_accept (cfg : Config) (st : St) : St × Int :=
  if st.sock.family = AF_INET then do_accept_family cfg st
  else if st.sock.family = AF_INET6 then do_accept_family cfg st
  else (st, -EINVAL)

/-- The error branch of the transfer functions: close on a hard error, report
`#XSOCKET: <-errno>` on `EAGAIN` and `ETIMEDOUT`. -/
def transfer_error (cfg : Config) (st : St) : St :=
  if st.errno ≠ EAGAIN ∧ st.errno ≠ ETIMEDOUT then (do_socket_close cfg st (-st.errno)).1
  else st.rsp_send (Rsp.xsocket_error (-st.errno))

/-- The value printed by `%d` for a `uint32_t`. -/
def int_of_uint32 (n : Nat) : Int :=
  if n < 2 ^ 31 then (n : Int) else (n : Int) - 2 ^ 32

/-- The loop of `do_send`.  `fuel` bounds the number of evaluations of the loop
condition; the result is `none` when the loop is still running after them,
and the pair `(ret, offset)` at the loop exit otherwise. -/
def send_loop (cfg : Config) (sockfd : Int) (data : List Char) :
    Nat → St → Int → Nat → St × Option (Int × Nat)
  | 0, st, _, _ => (st, none)
  | fuel + 1, st, ret, offset =>
    if offset < data.length then
      let s := st.sys (Call.send sockfd (data.drop offset) (data.length - offset))
      if s.2.ret.value < 0 then
        (transfer_error cfg s.1, some (-(transfer_error cfg s.1).errno, offset))
      else
        send_loop cfg sockfd data fuel s.1 s.2.ret.value
          ((offset + s.2.ret.value.toNat) % 2 ^ 32)
    else (st, some (ret, offset))

/-- The function `do_send`, from the loop on. -/
def do_send_on (cfg : Config) (fuel : Nat) (st : St) (sockfd : Int) (data : List Char) :
    St × Option Int :=
  let l := send_loop cfg sockfd data fuel st 0 0
  match l.2 with
  | none => (l.1, none)
  | some (ret, offset) =>
    ((l.1).rsp_send (Rsp.xsend (int_of_uint32 offset)), some (if ret ≥ 0 then 0 else ret))

/-- The function `do_send`; `datalen` is the length of `data`. -/
def do_send (cfg : Config) (fuel : Nat) (st : St) (data : List Char) : St × Option Int :=
  if st.sock.type = SOCK_STREAM ∧ st.sock.role = AT_SOCKET_ROLE_SERVER then
    if st.sock.fd_peer ≠ INVALID_SOCKET then do_send_on cfg fuel st st.sock.fd_peer data
    else (st, some (-EINVAL))
  else do_send_on cfg fuel st st.sock.fd data

/-- The function `do_recv`, from the call of `recv` on. -/
def do_recv_on (cfg : Config) (st : St) (sockfd length : Int) : St × Int :=
  let r := st.sys (Call.recv sockfd length)
  if r.2.ret.value < 0 then
    (transfer_error cfg r.1, -(transfer_error cfg r.1).errno)
  else if r.2.ret.value = 0 then (r.1, r.2.ret.value)
  else
    (((r.1).rsp_send_data (r.2.data.take r.2.ret.value.toNat)).rsp_send
      (Rsp.xrecv DATATYPE_PLAINTEXT r.2.ret.value), 0)

/-- The function `do_recv`. -/
def do_recv (cfg : Config) (st : St) (length : Int) : St × Int :=
  if st.sock.type = SOCK_STREAM ∧ st.sock.role = AT_SOCKET_ROLE_SERVER then
    if st.sock.fd_peer ≠ INVALID_SOCKET then do_recv_on cfg st st.sock.fd_peer length
    else (st, -EINVAL)
  else do_recv_on cfg st st.sock.fd length

/-- The loop of `do_sendto`; `fuel` as for `send_loop`. -/
def sendto_loop (cfg : Config) (data : List Char) (dest : sockaddr) :
    Nat → St → Int → Nat → St × Option (Int × Nat)
  | 0, st, _, _ => (st, none)
  | fuel + 1, st, ret, offset =>
    if offset < data.length then
      let s := st.sys (Call.sendto st.sock.fd (data.drop offset) (data.length - offset) dest)
      if s.2.ret.value ≤ 0 then
        (transfer_error cfg s.1, some (-(transfer_error cfg s.1).errno, offset))
      else
        sendto_loop cfg data dest fuel s.1 s.2.ret.value
          ((offset + s.2.ret.value.toNat) % 2 ^ 32)
    else (st, some (ret, offset))

/-- The function `do_sendto`, from the block on the security tag on.  `res`
is the first element of the list returned by `getaddrinfo`. -/
def do_sendto_resolved (cfg : Config) (fuel : Nat) (st : St) (url : List Char) (port : Int)
    (data : List Char) (res : addrinfo) : St × Option Int :=
  let h := set_tls_hostname cfg st url
  match h.2 with
  | some ret => (h.1, some ret)
  | none =>
    let l := sendto_loop cfg data (target res port) fuel h.1 0 0
    match l.2 with
    | none => (l.1, none)
    | some (ret, offset) =>
      ((l.1).rsp_send (Rsp.xsendto (int_of_uint32 offset)), some (if ret ≥ 0 then 0 else ret))

/-- The function `do_sendto`; `datalen` is the length of `data`. -/
def do_sendto (cfg : Config) (fuel : Nat) (st : St) (url : List Char) (port : Int)
    (data : List Char) : St × Option Int :=
  let g := st.ext (Call.getaddrinfo url)
  if g.2.ret.code ≠ 0 then (g.1, some (-EAGAIN))
  else if family_mismatch g.1.sock (g.2.addrs.headD default) then
    (g.1.void Call.freeaddrinfo, some (-EINVAL))
  else do_sendto_resolved cfg fuel g.1 url port data (g.2.addrs.headD default)

/-- The function `do_recvfrom`. -/
def do_recvfrom (cfg : Config) (st : St) (length : Int) : St × Int :=
  let r := st.sys (Call.recvfrom st.sock.fd length)
  if r.2.ret.value < 0 then
    (transfer_error cfg r.1, -(transfer_error cfg r.1).errno)
  else if r.2.ret.value = 0 then (r.1, 0)
  else
    let peer_addr := if r.2.addr.sa_family = AF_INET ∨ r.2.addr.sa_family = AF_INET6
      then r.2.addr.addr else []
    let port := if r.2.addr.sa_family = AF_INET ∨ r.2.addr.sa_family = AF_INET6
      then r.2.addr.port else 0
    (((r.1).rsp_send_data (r.2.data.take r.2.ret.value.toNat)).rsp_send
      (Rsp.xrecvfrom r.2.ret.value peer_addr port), 0)

/-! ## The command parameters -/

/-- Modelled from the spec: the command dispatcher hands over positional typed
parameters (library `at_cmd_parser`, not part of the source tree).  Index `0`
holds the command name. -/
inductive at_param where
  | num_int (v : Int)
  | string (s : List Char)
  | array (a : List Int)
  | empty
deriving DecidableEq, Repr

/-- Modelled from the spec: the global `at_param_list`. -/
abbrev at_param_list := List at_param

/-- The enumeration `enum at_cmd_type` of the parser library. -/
inductive at_cmd_type where
  | AT_CMD_TYPE_UNKNOWN
  | AT_CMD_TYPE_SET_COMMAND
  | AT_CMD_TYPE_READ_COMMAND
  | AT_CMD_TYPE_TEST_COMMAND
deriving DecidableEq, Repr

/-- The enumeration `enum at_param_type` of the parser library. -/
inductive at_param_type where
  | AT_PARAM_TYPE_INVALID
  | AT_PARAM_TYPE_NUM_INT
  | AT_PARAM_TYPE_STRING
  | AT_PARAM_TYPE_ARRAY
  | AT_PARAM_TYPE_EMPTY
deriving DecidableEq, Repr

/-- Modelled from the spec: `at_params_unsigned_short_get` of the parser library
yields the parameter at `index` when it is an integer in the range of
`uint16_t`; a bad parameter is the validation error `-EINVAL` and nothing is
stored. -/
def at_params_unsigned_short_get (list : at_param_list) (index : Nat) : Except Int Int :=
  match list.get? index with
  | some (at_param.num_int v) => if v < 0 ∨ v > 65535 then .error (-EINVAL) else .ok v
  | _ => .error (-EINVAL)

/-- Modelled from the spec: `at_params_unsigned_int_get` of the parser library,
as `at_params_unsigned_short_get` with the range of `uint32_t`. -/
def at_params_unsigned_int_get (list : at_param_list) (index : Nat) : Except Int Int :=
  match list.get? index with
  | some (at_param.num_int v) => if v < 0 ∨ v > 4294967295 then .error (-EINVAL) else .ok v
  | _ => .error (-EINVAL)

/-- Modelled from the spec: `at_params_int_get` of the parser library, as
`at_params_unsigned_short_get` with the range of `int32_t`. -/
def at_params_int_get (list : at_param_list) (index : Nat) : Except Int Int :=
  match list.get? index with
  | some (at_param.num_int v) =>
    if v < -2147483648 ∨ v > 2147483647 then .error (-EINVAL) else .ok v
  | _ => .error (-EINVAL)

/-- Modelled from the spec: `at_params_valid_count_get` of the parser library,
the number of parameters, the command name included. -/
def at_params_valid_count_get (list : at_param_list) : Nat := list.length

/-- Modelled from the spec: `at_params_type_get` of the parser library. -/
def at_params_type_get (list : at_param_list) (index : Nat) : at_param_type :=
  match list.get? index with
  | some (at_param.num_int _) => .AT_PARAM_TYPE_NUM_INT
  | some (at_param.string _) => .AT_PARAM_TYPE_STRING
  | some (at_param.array _) => .AT_PARAM_TYPE_ARRAY
  | some at_param.empty => .AT_PARAM_TYPE_EMPTY
  | none => .AT_PARAM_TYPE_INVALID

/-- Modelled from the spec: `util_string_get` of `slm_util.c` yields the string
at `index` when it fits, with its terminator, in a buffer of `size` bytes
(`-ENOMEM` when it does not, `-EINVAL` for a bad parameter). -/
def util_string_get (list : at_param_list) (index size : Nat) : Except Int (List Char) :=
  match list.get? index with
  | some (at_param.string s) => if s.length < size then .ok s else .error (-ENOMEM)
  | _ => .error (-EINVAL)

/-- The value of a `uint32_t` stored through a pointer to `sec_tag_t` (`int`). -/
def int_of_uint32_store (v : Int) : Int :=
  if v < 2147483648 then v else v - 4294967296

/-- The value of an `int` constant stored in a 16-bit `length`. -/
def uint16_of (n : Nat) : Int := ((n % 65536 : Nat) : Int)

/-! ## The command handlers -/

/-- The function `handle_at_socket`. -/
def handle_at_socket (cfg : Config) (cmd_type : at_cmd_type) (list : at_param_list)
    (st : St) : St × Int :=
  match cmd_type with
  | .AT_CMD_TYPE_SET_COMMAND =>
    match at_params_unsigned_short_get list 1 with
    | .error err => (st, err)
    | .ok op =>
      if op = AT_SOCKET_OPEN_IPV4 ∨ op = AT_SOCKET_OPEN_IPV6 then
        match at_params_unsigned_short_get list 2 with
        | .error err => (st, err)
        | .ok type =>
          match at_params_unsigned_short_get list 3 with
          | .error err => (st.setSock (fun s => { s with type := type }), err)
          | .ok role =>
            let st2 := st.setSock (fun s => { s with type := type, role := role })
            if st2.sock.fd > 0 then (st2, -EINVAL)
            else
              do_socket_open (st2.setSock (fun s =>
                { s with family := if op = AT_SOCKET_OPEN_IPV4 then AF_INET else AF_INET6 }))
      else if op = AT_SOCKET_CLOSE then
        if st.sock.fd < 0 then (st, -EINVAL)
        else do_socket_close cfg st 0
      else (st, 0)
  | .AT_CMD_TYPE_READ_COMMAND =>
    if st.sock.fd ≠ INVALID_SOCKET then
      (st.rsp_send (Rsp.xsocket_read st.sock.fd st.sock.family st.sock.role), 0)
    else (st.rsp_send Rsp.xsocket_read_none, 0)
  | .AT_CMD_TYPE_TEST_COMMAND =>
    ((st.rsp_send Rsp.xsocket_test).rsp_send Rsp.xsocket_test_params, 0)
  | .AT_CMD_TYPE_UNKNOWN => (st, -EINVAL)

/-- The pattern `if (at_params_valid_count_get(&at_param_list) > count)`
followed by the read of the parameter at `index`: the optional parameter, or
`dflt` when it is absent. -/
def optional_unsigned_short (list : at_param_list) (count index : Nat) (dflt : Int) :
    Except Int Int :=
  if at_params_valid_count_get list > count then at_params_unsigned_short_get list index
  else .ok dflt

/-- The function `handle_at_secure_socket`, after `<op>`, `<type>`, `<role>`
have been read and the default of `peer_verify` chosen. -/
def handle_at_secure_socket_open (cfg : Config) (list : at_param_list) (st : St)
    (op peer_verify : Int) : St × Int :=
  match at_params_unsigned_int_get list 4 with
  | .error err => (st, err)
  | .ok sec_tag =>
    match optional_unsigned_short list 5 5 peer_verify with
    | .error err => (st.setSock (fun s => { s with sec_tag := int_of_uint32_store sec_tag }), err)
    | .ok peer_verify =>
      match optional_unsigned_short list 6 6 0 with
      | .error err =>
        (st.setSock (fun s =>
          { s with sec_tag := int_of_uint32_store sec_tag, hostname_verify := 0 }), err)
      | .ok hostname_verify =>
        do_secure_socket_open cfg
          (st.setSock (fun s =>
            { s with
                sec_tag := int_of_uint32_store sec_tag
                hostname_verify := hostname_verify
                family := if op = AT_SOCKET_OPEN_IPV4 then AF_INET else AF_INET6 }))
          peer_verify

/-- The function `handle_at_secure_socket`. -/
def handle_at_secure_socket (cfg : Config) (cmd_type : at_cmd_type) (list : at_param_list)
    (st : St) : St × Int :=
  match cmd_type with
  | .AT_CMD_TYPE_SET_COMMAND =>
    match at_params_unsigned_short_get list 1 with
    | .error err => (st, err)
    | .ok op =>
      if op = AT_SOCKET_OPEN_IPV4 ∨ op = AT_SOCKET_OPEN_IPV6 then
        match at_params_unsigned_short_get list 2 with
        | .error err => (st, err)
        | .ok type =>
          match at_params_unsigned_short_get list 3 with
          | .error err => (st.setSock (fun s => { s with type := type }), err)
          | .ok role =>
            let st2 := st.setSock (fun s => { s with type := type, role := role })
            if st2.sock.role = AT_SOCKET_ROLE_SERVER then
              handle_at_secure_socket_open cfg list st2 op TLS_PEER_VERIFY_NONE
            else if st2.sock.role = AT_SOCKET_ROLE_CLIENT then
              handle_at_secure_socket_open cfg list st2 op TLS_PEER_VERIFY_REQUIRED
            else (st2, -EINVAL)
      else if op = AT_SOCKET_CLOSE then
        if st.sock.fd < 0 then (st, -EINVAL)
        else do_socket_close cfg st 0
      else (st, 0)
  | .AT_CMD_TYPE_READ_COMMAND =>
    if st.sock.fd ≠ INVALID_SOCKET then
      (st.rsp_send (Rsp.xssocket_read st.sock.fd st.sock.family st.sock.role), 0)
    else (st.rsp_send Rsp.xssocket_read_none, 0)
  | .AT_CMD_TYPE_TEST_COMMAND =>
    ((st.rsp_send Rsp.xssocket_test).rsp_send Rsp.xssocket_test_params, 0)
  | .AT_CMD_TYPE_UNKNOWN => (st, -EINVAL)

/-- The branch `op == AT_SOCKETOPT_SET` of `handle_at_socketopt`. -/
def handle_at_socketopt_set (list : at_param_list) (st : St) (name : Int) : St × Int :=
  if at_params_valid_count_get list > 3 then
    match at_params_type_get list 3 with
    | .AT_PARAM_TYPE_NUM_INT =>
      match at_params_int_get list 3 with
      | .error err => (st, err)
      | .ok value_int => do_socketopt_set_int st name value_int
    | .AT_PARAM_TYPE_STRING =>
      match util_string_get list 3 IFNAMSIZ with
      | .error err => (st, err)
      | .ok value_str => do_socketopt_set_str st name value_str
    | _ => (st, -EINVAL)
  else do_socketopt_set_int st name 0

/-- The function `handle_at_socketopt`. -/
def handle_at_socketopt (cmd_type : at_cmd_type) (list : at_param_list) (st : St) : St × Int :=
  match cmd_type with
  | .AT_CMD_TYPE_SET_COMMAND =>
    if st.sock.fd < 0 then (st, -EINVAL)
    else
      match at_params_unsigned_short_get list 1 with
      | .error err => (st, err)
      | .ok op =>
        match at_params_unsigned_short_get list 2 with
        | .error err => (st, err)
        | .ok name =>
          if op = AT_SOCKETOPT_SET then handle_at_socketopt_set list st name
          else if op = AT_SOCKETOPT_GET then do_socketopt_get st name
          else (st, 0)
  | .AT_CMD_TYPE_TEST_COMMAND => (st.rsp_send Rsp.xsocketopt_test, 0)
  | _ => (st, -EINVAL)

/-- The function `handle_at_bind`.  The C code tests `err < 0`; the getter has
no positive result, and the `else` of that test stands for the fall-through
with `port` unset. -/
def handle_at_bind (cfg : Config) (cmd_type : at_cmd_type) (list : at_param_list)
    (st : St) : St × Int :=
  if st.sock.fd < 0 then (st, -EINVAL)
  else
    match cmd_type with
    | .AT_CMD_TYPE_SET_COMMAND =>
      match at_params_unsigned_short_get list 1 with
      | .error err => if err < 0 then (st, err) else do_bind cfg st 0
      | .ok port => do_bind cfg st port
    | _ => (st, -EINVAL)

/-- The function `handle_at_connect`. -/
def handle_at_connect (cfg : Config) (cmd_type : at_cmd_type) (list : at_param_list)
    (st : St) : St × Int :=
  if st.sock.fd < 0 then (st, -EINVAL)
  else if st.sock.role ≠ AT_SOCKET_ROLE_CLIENT then (st, -EINVAL)
  else
    match cmd_type with
    | .AT_CMD_TYPE_SET_COMMAND =>
      match util_string_get list 1 TCPIP_MAX_URL with
      | .error err => (st, err)
      | .ok url =>
        match at_params_unsigned_short_get list 2 with
        | .error err => (st, err)
        | .ok port => do_connect cfg st url port
    | _ => (st, -EINVAL)

/-- The function `handle_at_listen`. -/
def handle_at_listen (cfg : Config) (cmd_type : at_cmd_type) (st : St) : St × Int :=
  if st.sock.fd < 0 then (st, -EINVAL)
  else if st.sock.role ≠ AT_SOCKET_ROLE_SERVER then (st, -EINVAL)
  else
    match cmd_type with
    | .AT_CMD_TYPE_SET_COMMAND => do_listen cfg st
    | _ => (st, -EINVAL)

/-- The function `handle_at_accept`. -/
def handle_at_accept (cfg : Config) (cmd_type : at_cmd_type) (st : St) : St × Int :=
  if st.sock.fd < 0 then (st, -EINVAL)
  else if st.sock.role ≠ AT_SOCKET_ROLE_SERVER then (st, -EINVAL)
  else
    match cmd_type with
    | .AT_CMD_TYPE_SET_COMMAND => do_accept cfg st
    | .AT_CMD_TYPE_READ_COMMAND =>
      if st.sock.fd_peer ≠ INVALID_SOCKET then
        (st.rsp_send (Rsp.xtcpaccept st.sock.fd_peer), 0)
      else (st.rsp_send Rsp.xtcpaccept_none, 0)
    | _ => (st, -EINVAL)

/-- The function `handle_at_send`. -/
def handle_at_send (cfg : Config) (fuel : Nat) (cmd_type : at_cmd_type) (list : at_param_list)
    (st : St) : St × Option Int :=
  match cmd_type with
  | .AT_CMD_TYPE_SET_COMMAND =>
    match util_string_get list 1 NET_IPV4_MTU with
    | .error err => (st, some err)
    | .ok data => do_send cfg fuel st data
  | _ => (st, some (-EINVAL))

/-- The function `handle_at_recv`. -/
def handle_at_recv (cfg : Config) (cmd_type : at_cmd_type) (list : at_param_list)
    (st : St) : St × Int :=
  match cmd_type with
  | .AT_CMD_TYPE_SET_COMMAND =>
    match at_params_unsigned_short_get list 1 with
    | .error _ => do_recv cfg st (uint16_of cfg.CONFIG_SLM_SOCKET_RX_MAX)
    | .ok length => do_recv cfg st length
  | _ => (st, -EINVAL)

/-- The function `handle_at_sendto`. -/
def handle_at_sendto (cfg : Config) (fuel : Nat) (cmd_type : at_cmd_type)
    (list : at_param_list) (st : St) : St × Option Int :=
  if st.sock.fd < 0 then (st, some (-EINVAL))
  else
    match cmd_type with
    | .AT_CMD_TYPE_SET_COMMAND =>
      match util_string_get list 1 TCPIP_MAX_URL with
      | .error err => (st, some err)
      | .ok url =>
        match at_params_unsigned_short_get list 2 with
        | .error err => (st, some err)
        | .ok port =>
          match util_string_get list 3 NET_IPV4_MTU with
          | .error err => (st, some err)
          | .ok data => do_sendto cfg fuel st url port data
    | _ => (st, some (-EINVAL))

/-- The function `handle_at_recvfrom`. -/
def handle_at_recvfrom (cfg : Config) (cmd_type : at_cmd_type) (list : at_param_list)
    (st : St) : St × Int :=
  if st.sock.fd < 0 then (st, -EINVAL)
  else
    match cmd_type with
    | .AT_CMD_TYPE_SET_COMMAND =>
      match at_params_unsigned_short_get list 1 with
      | .error _ => do_recvfrom cfg st (uint16_of cfg.CONFIG_SLM_SOCKET_RX_MAX)
      | .ok length => do_recvfrom cfg st length
    | _ => (st, -EINVAL)

/-- The text appended to `rsp_buf` by the loop of `handle_at_getaddrinfo`:
every element `res` runs `inet_ntop` for the family of `res` on the address of
`result`, the head of the list.  When the head is an address of that family
the text is its presentation form; when it is not, its bytes are read as an
address of the other family and the text is `as_inet` resp. `as_inet6`. -/
def getaddrinfo_text (result : addrinfo) (as_inet as_inet6 : List Char) :
    List addrinfo → List Char
  | [] => []
  | res :: ai_next =>
    if res.ai_family = AF_INET then
      (if result.ai_addr.sa_family = AF_INET then result.ai_addr.addr else as_inet) ++
        (if ai_next ≠ [] then [' '] else []) ++
        getaddrinfo_text result as_inet as_inet6 ai_next
    else if res.ai_family = AF_INET6 then
      (if result.ai_addr.sa_family = AF_INET6 then result.ai_addr.addr else as_inet6) ++
        (if ai_next ≠ [] then [' '] else []) ++
        getaddrinfo_text result as_inet as_inet6 ai_next
    else getaddrinfo_text result as_inet as_inet6 ai_next

/-- The function `handle_at_getaddrinfo`. -/
def handle_at_getaddrinfo (cmd_type : at_cmd_type) (list : at_param_list) (st : St) :
    St × Int :=
  match cmd_type with
  | .AT_CMD_TYPE_SET_COMMAND =>
    match util_string_get list 1 TCPIP_MAX_URL with
    | .error err => (st, err)
    | .ok host =>
      let g := st.ext (Call.getaddrinfo host)
      if g.2.ret.code ≠ 0 then (g.1.rsp_send (Rsp.xgetaddrinfo_error g.2.ret.code), g.2.ret.code)
      else
        match g.2.addrs with
        | [] => (g.1.rsp_send Rsp.xgetaddrinfo_not_found, -ENOENT)
        | result :: ai_next =>
          (((g.1).rsp_send (Rsp.xgetaddrinfo
              (getaddrinfo_text result g.2.as_inet g.2.as_inet6 (result :: ai_next)))).void
            Call.freeaddrinfo, g.2.ret.code)
  | _ => (st, -EINVAL)

/-- The function `slm_at_tcpip_uninit`. -/
def slm_at_tcpip_uninit (cfg : Config) (st : St) : St × Int :=
  do_socket_close cfg st 0

/-! ## Command sequences -/

/-- The commands served by this file. -/
inductive AtCmd where
  | XSOCKET | XSSOCKET | XSOCKETOPT | XBIND | XCONNECT | XLISTEN | XACCEPT
  | XSEND | XRECV | XSENDTO | XRECVFROM | XGETADDRINFO
deriving DecidableEq, Repr

/-- A parsed command: the handler it is dispatched to, its type and its
parameters. -/
structure Command where
  name : AtCmd
  cmd_type : at_cmd_type
  list : at_param_list
deriving DecidableEq, Repr

/-- The dispatch of one command to its handler.  The result is `none` when the
handler is still running after `fuel` loop steps. -/
def exec (cfg : Config) (fuel : Nat) (c : Command) (st : St) : St × Option Int :=
  match c.name with
  | .XSOCKET => ((handle_at_socket cfg c.cmd_type c.list st).1,
      some (handle_at_socket cfg c.cmd_type c.list st).2)
  | .XSSOCKET => ((handle_at_secure_socket cfg c.cmd_type c.list st).1,
      some (handle_at_secure_socket cfg c.cmd_type c.list st).2)
  | .XSOCKETOPT => ((handle_at_socketopt c.cmd_type c.list st).1,
      some (handle_at_socketopt c.cmd_type c.list st).2)
  | .XBIND => ((handle_at_bind cfg c.cmd_type c.list st).1,
      some (handle_at_bind cfg c.cmd_type c.list st).2)
  | .XCONNECT => ((handle_at_connect cfg c.cmd_type c.list st).1,
      some (handle_at_connect cfg c.cmd_type c.list st).2)
  | .XLISTEN => ((handle_at_listen cfg c.cmd_type st).1,
      some (handle_at_listen cfg c.cmd_type st).2)
  | .XACCEPT => ((handle_at_accept cfg c.cmd_type st).1,
      some (handle_at_accept cfg c.cmd_type st).2)
  | .XSEND => handle_at_send cfg fuel c.cmd_type c.list st
  | .XRECV => ((handle_at_recv cfg c.cmd_type c.list st).1,
      some (handle_at_recv cfg c.cmd_type c.list st).2)
  | .XSENDTO => handle_at_sendto cfg fuel c.cmd_type c.list st
  | .XRECVFROM => ((handle_at_recvfrom cfg c.cmd_type c.list st).1,
      some (handle_at_recvfrom cfg c.cmd_type c.list st).2)
  | .XGETADDRINFO => ((handle_at_getaddrinfo c.cmd_type c.list st).1,
      some (handle_at_getaddrinfo c.cmd_type c.list st).2)

/-- A sequence of commands, one after the other; a command that does not
return ends the sequence. -/
def run (cfg : Config) (fuel : Nat) : List Command → St → St
  | [], st => st
  | c :: cs, st =>
    match (exec cfg fuel c st).2 with
    | none => (exec cfg fuel c st).1
    | some _ => run cfg fuel cs (exec cfg fuel c st).1

/-- The state after start-up: `slm_at_tcpip_init` applied to the zeroed static
`sock`, no call made yet. -/
def St.initial (env : Nat → Outcome) : St :=
  { sock := slm_at_tcpip_init ⟨0, 0, 0, 0, 0, 0, 0⟩, errno := 0, env := env, trace := [] }

/-- The state in which an operation starts with the session `s`: its trace
records what the operation does. -/
def St.start (s : Sock) (errno : Int) (env : Nat → Outcome) : St :=
  { sock := s, errno := errno, env := env, trace := [] }

/-! ## Observations on a trace -/

/-- The external calls of a trace, in order. -/
def calls (t : List Event) : List Call :=
  t.filterMap (fun ev => match ev with
    | Event.call c _ => some c
    | _ => none)

/-- The response lines of a trace, in order. -/
def responses (t : List Event) : List Rsp :=
  t.filterMap (fun ev => match ev with
    | Event.rsp line => some line
    | _ => none)

/-- The reasons of the closure notifications `#XSOCKET: <reason>,"closed"` of a
trace, in order. -/
def closures (t : List Event) : List Int :=
  t.filterMap (fun ev => match ev with
    | Event.rsp (Rsp.xsocket_closed error) => some error
    | _ => none)

/-- The CLOSED value of the session, as set by `slm_at_tcpip_init`. -/
def Sock.closed (s : Sock) : Prop :=
  s.family = AF_UNSPEC ∧ s.sec_tag = INVALID_SEC_TAG ∧ s.role = AT_SOCKET_ROLE_CLIENT ∧
  s.fd = INVALID_SOCKET ∧ s.fd_peer = INVALID_SOCKET

instance (s : Sock) : Decidable s.closed := by
  unfold Sock.closed; infer_instance

/-- A session and a payload used in the examples: a plain TCP client on
descriptor 3. -/
def tcp_client : Sock :=
  { type := SOCK_STREAM, role := AT_SOCKET_ROLE_CLIENT, sec_tag := INVALID_SEC_TAG,
    hostname_verify := 0, family := AF_INET, fd := 3, fd_peer := INVALID_SOCKET }

/-- A TLS client on descriptor 3 with security tag 7. -/
def tls_client : Sock :=
  { type := SOCK_STREAM, role := AT_SOCKET_ROLE_CLIENT, sec_tag := 7,
    hostname_verify := 0, family := AF_INET, fd := 3, fd_peer := INVALID_SOCKET }

/-- An outcome that carries a result only. -/
def Outcome.of (r : Ret) : Outcome :=
  { ret := r, data := [], addr := default, addrs := [], optval := 0 }

/-- The environment in which every call succeeds with value `v`. -/
def env_ok (v : Nat) : Nat → Outcome := fun _ => Outcome.of (Ret.ok v)

/-- The environment in which the first call fails with `e` and every later call
succeeds with value `0`. -/
def env_fail_first (e : Errno) : Nat → Outcome := fun n =>
  if n = 0 then Outcome.of (Ret.err e) else Outcome.of (Ret.ok 0)

/-- The environment that answers the calls with the results `l`, in order, and
every later call with `dflt`. -/
def env_of (l : List Ret) (dflt : Ret) : Nat → Outcome := fun n => Outcome.of (l.getD n dflt)

/-- The error number `EIO`. -/
def errno_EIO : Errno := ⟨5, by decide⟩

/-- The error number `EBADF`. -/
def errno_EBADF : Errno := ⟨9, by decide⟩

/-- The error number `ENOMEM`. -/
def errno_ENOMEM : Errno := ⟨12, by decide⟩

/-- The error number `ECONNRESET`. -/
def errno_ECONNRESET : Errno := ⟨104, by decide⟩

/-- Build options with the native TLS stack. -/
def cfg_native_tls : Config := { CONFIG_SLM_NATIVE_TLS := true, CONFIG_SLM_SOCKET_RX_MAX := 576 }

/-- Build options with the modem TLS stack. -/
def cfg_modem_tls : Config := { CONFIG_SLM_NATIVE_TLS := false, CONFIG_SLM_SOCKET_RX_MAX := 576 }

/-- The error number of a failed call, if it failed. -/
def Ret.errno? : Ret → Option Errno
  | .ok _ => none
  | .err e => some e

/-- The transport calls: `bind`, `connect`, `listen`, `accept`, `send`, `recv`,
`sendto`, `recvfrom`. -/
def Call.transport : Call → Bool
  | .bind _ _ => true
  | .connect _ _ => true
  | .listen _ _ => true
  | .accept _ => true
  | .send _ _ _ => true
  | .recv _ _ => true
  | .sendto _ _ _ _ => true
  | .recvfrom _ _ => true
  | _ => false

/-- The error number of a failed transport call. -/
def Event.transport_failure : Event → Option Errno
  | .call c r => if c.transport then r.errno? else none
  | _ => none

/-- The error numbers of the failed transport calls of a trace, in order. -/
def transport_failures (t : List Event) : List Errno :=
  t.filterMap Event.transport_failure

/-- Tells whether the event is a failed `slm_tls_unloadcrdl`. -/
def Event.unload_failure : Event → Bool
  | .call (.slm_tls_unloadcrdl _) r => r.errno?.isSome
  | _ => false

/-- Tells whether a credential unload fails in the trace. -/
def unload_failed (t : List Event) : Bool := t.any Event.unload_failure

/-- The operations that work on an open session. -/
inductive Op where
  | bind (port : Int)
  | connect (url : List Char) (port : Int)
  | listen
  | accept
  | send (data : List Char)
  | recv (length : Int)
  | sendto (url : List Char) (port : Int) (data : List Char)
  | recvfrom (length : Int)
deriving DecidableEq, Repr

/-- The function that carries out an operation; the result is `none` when a
send loop is still running after `fuel` steps. -/
def Op.run (cfg : Config) (fuel : Nat) (st : St) : Op → St × Option Int
  | .bind port => ((do_bind cfg st port).1, some (do_bind cfg st port).2)
  | .connect url port => ((do_connect cfg st url port).1, some (do_connect cfg st url port).2)
  | .listen => ((do_listen cfg st).1, some (do_listen cfg st).2)
  | .accept => ((do_accept cfg st).1, some (do_accept cfg st).2)
  | .send data => do_send cfg fuel st data
  | .recv length => ((do_recv cfg st length).1, some (do_recv cfg st length).2)
  | .sendto url port data => do_sendto cfg fuel st url port data
  | .recvfrom length => ((do_recvfrom cfg st length).1, some (do_recvfrom cfg st length).2)

/-- The error numbers `EAGAIN` and `ETIMEDOUT` are the transient ones; every
other error number is hard. -/
def Errno.hard (e : Errno) : Prop := (e.val : Int) ≠ EAGAIN ∧ (e.val : Int) ≠ ETIMEDOUT

instance (e : Errno) : Decidable e.hard := by
  unfold Errno.hard; infer_instance

/-- The shape of a run that closes the session on a hard transport failure.
`tf` and `cl` are the transport failures and the closure notifications before
the run, `st` is the state after it and `neg` says that the run returned a
negative code.  Either no transport call failed, or exactly one did, and if its
error is hard then a credential unload failed or the session has the CLOSED
value, one closure notification with the negated error was sent, and `neg`. -/
def closes_on_failure (tf : List Errno) (cl : List Int) (st : St) (neg : Prop) : Prop :=
  transport_failures st.trace = tf ∨
  ∃ e, transport_failures st.trace = tf ++ [e] ∧
    (e.hard → unload_failed st.trace = true ∨
      (st.sock.closed ∧ closures st.trace = cl ++ [-(e.val : Int)] ∧ neg))

/-- The outcome of a failed `socket` call: the negated error number is
returned, `socket` is the only call, nothing is sent, and `fd` is `INVALID_SOCKET`. -/
def socket_failed (st0 : St) (r : St × Int) (family type proto : Int) (e : Errno) : Prop :=
  r.2 = -(e.val : Int) ∧
  r.1.trace = st0.trace ++ [Event.call (Call.socket family type proto) (Ret.err e)] ∧
  r.1.sock.fd = INVALID_SOCKET ∧
  r.1.sock.fd_peer = st0.sock.fd_peer

/-- The descriptors passed to `close` in a trace, in order. -/
def close_calls (t : List Event) : List Int :=
  t.filterMap (fun ev => match ev with
    | Event.call (Call.close fd) _ => some fd
    | _ => none)

/-- The error codes of the status notifications `#XSOCKET: <code>` of a trace,
in order. -/
def status_notifications (t : List Event) : List Int :=
  t.filterMap (fun ev => match ev with
    | Event.rsp (Rsp.xsocket_error error) => some error
    | _ => none)

/-- Tells whether the event is a `recv` or `recvfrom` call that returned 0. -/
def Event.zero_receive : Event → Bool
  | .call (.recv _ _) (.ok 0) => true
  | .call (.recvfrom _ _) (.ok 0) => true
  | _ => false

/-- A plain UDP client on descriptor 3. -/
def udp_client : Sock :=
  { type := SOCK_DGRAM, role := AT_SOCKET_ROLE_CLIENT, sec_tag := INVALID_SEC_TAG,
    hostname_verify := 0, family := AF_INET, fd := 3, fd_peer := INVALID_SOCKET }

/-- The CLOSED session after start-up. -/
def closed_session : Sock := slm_at_tcpip_init ⟨0, 0, 0, 0, 0, 0, 0⟩

/-- The environment that answers the calls with the outcomes `l`, in order, and
every later call with the result `dflt`. -/
def env_list (l : List Outcome) (dflt : Ret) : Nat → Outcome := fun n =>
  l.getD n (Outcome.of dflt)

/-- The outcome of a successful `getaddrinfo` with the result list `addrs`. -/
def Outcome.resolved (addrs : List addrinfo) : Outcome :=
  { ret := Ret.ok 0, data := [], addr := default, addrs := addrs, optval := 0 }

/-- The IPv4 address `10.0.0.1` as a lookup result. -/
def host_v4 : addrinfo :=
  { ai_family := AF_INET,
    ai_addr := { sa_family := AF_INET, addr := ['1', '0', '.', '0', '.', '0', '.', '1'],
                 port := 0 } }

/-- The IPv6 address `::1` as a lookup result. -/
def host_v6 : addrinfo :=
  { ai_family := AF_INET6,
    ai_addr := { sa_family := AF_INET6, addr := [':', ':', '1'], port := 0 } }

/-- The error number `EAGAIN`. -/
def errno_EAGAIN : Errno := ⟨11, by decide⟩

/-- The error number `ETIMEDOUT`. -/
def errno_ETIMEDOUT : Errno := ⟨116, by decide⟩

/-- Tells whether the event belongs to a teardown: a credential unload, a
`close`, a closure notification or a status notification. -/
def Event.teardown : Event → Bool
  | .call (.slm_tls_unloadcrdl _) _ => true
  | .call (.close _) _ => true
  | .rsp (.xsocket_closed _) => true
  | .rsp (.xsocket_error _) => true
  | _ => false

/-- The protocol that the specification assigns to an open: plain stream is
TCP, plain datagram is UDP, secure stream is TLS, secure datagram is DTLS; no
protocol for any other type. -/
def spec_protocol (secure : Bool) (type : Int) : Option Int :=
  if type = SOCK_STREAM then some (if secure then IPPROTO_TLS_1_2 else IPPROTO_TCP)
  else if type = SOCK_DGRAM then some (if secure then IPPROTO_DTLS_1_2 else IPPROTO_UDP)
  else none

/-- The open operation: `do_secure_socket_open` when `secure`, `do_socket_open`
otherwise. -/
def open_session (cfg : Config) (secure : Bool) (st : St) (peer_verify : Int) : St × Int :=
  if secure then do_secure_socket_open cfg st peer_verify else do_socket_open st

/-- The acknowledgment of an open: `#XSSOCKET:` when `secure`, `#XSOCKET:`
otherwise, with the four fields descriptor, type, role, protocol. -/
def open_ack (secure : Bool) (fd type role proto : Int) : Rsp :=
  if secure then Rsp.xssocket_open fd type role proto else Rsp.xsocket_open fd type role proto

/-- Says that the event, if it is a `connect` or `sendto` call, has the
address `dest` as its target. -/
def Event.targets (dest : sockaddr) : Event → Prop
  | .call (.connect _ a) _ => a = dest
  | .call (.sendto _ _ _ a) _ => a = dest
  | _ => True

/-- Tells whether the event is a failed credential load. -/
def Event.load_failure : Event → Bool
  | .call (.slm_tls_loadcrdl _) r => r.errno?.isSome
  | _ => false

/-- Tells whether the event is a failed step of the secure setup: the
credential load, or `setsockopt` of `TLS_SEC_TAG_LIST` or `TLS_PEER_VERIFY`. -/
def Event.setup_failure : Event → Bool
  | .call (.slm_tls_loadcrdl _) r => r.errno?.isSome
  | .call (.setsockopt _ level optname _) r =>
    r.errno?.isSome && decide (level = SOL_TLS) &&
      (decide (optname = TLS_SEC_TAG_LIST) || decide (optname = TLS_PEER_VERIFY))
  | _ => false

/-- Tells whether a credential load fails in the trace. -/
def load_failed (t : List Event) : Bool := t.any Event.load_failure

/-- Tells whether a step of the secure setup fails in the trace. -/
def setup_failed (t : List Event) : Bool := t.any Event.setup_failure

/-- The transfer operations: send, recv, sendto, recvfrom. -/
def Op.transfer : Op → Bool
  | .send _ => true
  | .recv _ => true
  | .sendto _ _ _ => true
  | .recvfrom _ => true
  | _ => false

/-- Says that the state `st1` shows the same session and the same observations
as `st0`: transport failures, `close` calls, closure and status
notifications. -/
def same_observations (st0 st1 : St) : Prop :=
  st1.sock = st0.sock ∧
  transport_failures st1.trace = transport_failures st0.trace ∧
  close_calls st1.trace = close_calls st0.trace ∧
  closures st1.trace = closures st0.trace ∧
  status_notifications st1.trace = status_notifications st0.trace

/-- The shape of a run from `st0` to `st` with result `res` that keeps the
session on a transient failure.  Either no transport call failed, or exactly
one did, and if its error is `EAGAIN` or `ETIMEDOUT` then the session is the one
of `st0`, no `close` was called, no closure notification was sent, one status
notification with the negated error was sent, and the run returned the negated
error. -/
def keeps_on_transient (st0 st : St) (res : Option Int) : Prop :=
  transport_failures st.trace = transport_failures st0.trace ∨
  ∃ e, transport_failures st.trace = transport_failures st0.trace ++ [e] ∧
    (¬ e.hard →
      st.sock = st0.sock ∧
      close_calls st.trace = close_calls st0.trace ∧
      closures st.trace = closures st0.trace ∧
      status_notifications st.trace = status_notifications st0.trace ++ [-(e.val : Int)] ∧
      res = some (-(e.val : Int)))

/-! ## Observations and fixtures for command sequences and transfers -/

/-- The macro `ntohs` on the little-endian target: swaps the two bytes. -/
def ntohs (port : Int) : Int := (port % 256) * 256 + (port / 256) % 256

/-- The descriptors returned by the successful `accept` calls of a trace, in
order. -/
def accepted (t : List Event) : List Int :=
  t.filterMap (fun ev => match ev with
    | Event.call (Call.accept _) (Ret.ok v) => some (v : Int)
    | _ => none)

/-- The return codes of a sequence of commands, in order; a command that does
not return ends the sequence. -/
def run_codes (cfg : Config) (fuel : Nat) : List Command → St → List (Option Int)
  | [], _ => []
  | c :: cs, st =>
    match (exec cfg fuel c st).2 with
    | none => [none]
    | some ret => some ret :: run_codes cfg fuel cs (exec cfg fuel c st).1

/-- A SET command with its parameters; the parameter at index `0` is the slot
of the command name. -/
def Command.set (name : AtCmd) (params : List at_param) : Command :=
  { name := name, cmd_type := .AT_CMD_TYPE_SET_COMMAND, list := .string [] :: params }

/-- The outcome of a `recvfrom` that delivers `data` from the sender `addr`. -/
def Outcome.datagram (data : List Char) (addr : sockaddr) : Outcome :=
  { ret := Ret.ok data.length, data := data, addr := addr, addrs := [], optval := 0 }

/-- The outcome of an `accept` that returns the descriptor `fd` for a
connection from `10.0.0.9`. -/
def Outcome.accepted (fd : Nat) : Outcome :=
  { ret := Ret.ok fd, data := [],
    addr := ⟨AF_INET, ['1', '0', '.', '0', '.', '0', '.', '9'], 0⟩, addrs := [], optval := 0 }

/-- The IPv4 address `10.0.0.2` as a lookup result. -/
def host_v4_second : addrinfo :=
  { ai_family := AF_INET,
    ai_addr := { sa_family := AF_INET, addr := ['1', '0', '.', '0', '.', '0', '.', '2'],
                 port := 0 } }

/-- A server session: open a TCP server, listen, accept twice, close. -/
def accept_twice : List Command :=
  [Command.set .XSOCKET [.num_int AT_SOCKET_OPEN_IPV4, .num_int SOCK_STREAM,
     .num_int AT_SOCKET_ROLE_SERVER],
   Command.set .XLISTEN [],
   Command.set .XACCEPT [],
   Command.set .XACCEPT [],
   Command.set .XSOCKET [.num_int AT_SOCKET_CLOSE]]

/-- The scenario of the specification: open a TCP client over IPv4, connect to
`host` at `port`, send `PING`, close. -/
def scenario (host : List Char) (port : Int) : List Command :=
  [Command.set .XSOCKET [.num_int AT_SOCKET_OPEN_IPV4, .num_int SOCK_STREAM,
     .num_int AT_SOCKET_ROLE_CLIENT],
   Command.set .XCONNECT [.string host, .num_int port],
   Command.set .XSEND [.string ['P', 'I', 'N', 'G']],
   Command.set .XSOCKET [.num_int AT_SOCKET_CLOSE]]

/-- The `send` calls of a trace, in order: descriptor, buffer and length. -/
def send_calls (t : List Event) : List (Int × List Char × Nat) :=
  t.filterMap (fun ev => match ev with
    | Event.call (Call.send fd buf len) _ => some (fd, buf, len)
    | _ => none)

/-- The results of the successful `send` calls of a trace, in order. -/
def send_results (t : List Event) : List Nat :=
  t.filterMap (fun ev => match ev with
    | Event.call (Call.send _ _ _) (Ret.ok v) => some v
    | _ => none)

/-- Tells whether a `send` call fails in the trace. -/
def send_failed (t : List Event) : Bool :=
  t.any (fun ev => match ev with
    | Event.call (Call.send _ _ _) (Ret.err _) => true
    | _ => false)

/-- The byte counts of the result notifications `#XSEND: <count>` of a trace,
in order. -/
def send_acks (t : List Event) : List Int :=
  t.filterMap (fun ev => match ev with
    | Event.rsp (Rsp.xsend offset) => some offset
    | _ => none)

/-- Tells whether the event, if it is a successful `send` call, returned a
count `r` with `0 < r` that does not exceed the length passed to the call (the
remaining bytes). -/
def Event.send_in_range : Event → Bool
  | .call (.send _ _ len) (.ok v) => decide (0 < v ∧ v ≤ len)
  | _ => true

/-- The descriptor `sockfd` that `do_send` writes to: the peer for a stream
server, the primary descriptor otherwise. -/
def send_target (s : Sock) : Int :=
  if s.type = SOCK_STREAM ∧ s.role = AT_SOCKET_ROLE_SERVER then s.fd_peer else s.fd

/-! ## The address check of the LwM2M proxy sample

The function `util_check_for_ipv4` of
`samples/nrf9160/eureka_lwm2m_proxy/src/elp_util.c`. -/

/-- The test `(ch == '.') || (ch >= '0' && ch <= '9')` of `util_check_for_ipv4`. -/
def dot_or_digit (ch : Char) : Bool :=
  ch = '.' || ('0' ≤ ch && ch ≤ '9')

/-- The loop of `util_check_for_ipv4`: `count` iterations are left, the next
one reads `*(address + index)`.  The string `address` is followed by its
terminator, the character with code 0. -/
def util_check_for_ipv4_loop (address : List Char) : Nat → Nat → Bool
  | 0, _ => true
  | count + 1, index =>
    if dot_or_digit (address.getD index (Char.ofNat 0)) then
      util_check_for_ipv4_loop address count (index + 1)
    else false

/-- The function `util_check_for_ipv4`.  The parameter `length` is a `u8_t`:
the value passed is converted to 8 bits. -/
def util_check_for_ipv4 (address : List Char) (length : Nat) : Bool :=
  util_check_for_ipv4_loop address (length % 256) 0

/-- The fields of a string, separated by dots. -/
def dot_fields : List Char → List (List Char)
  | [] => [[]]
  | c :: cs =>
    if c = '.' then [] :: dot_fields cs
    else
      match dot_fields cs with
      | [] => [[c]]
      | f :: fs => (c :: f) :: fs

/-- The value of a string of decimal digits. -/
def decimal_value (f : List Char) : Nat :=
  f.foldl (fun n c => 10 * n + (c.toNat - '0'.toNat)) 0

/-- A numeric field of an IPv4 address: a non-empty string of decimal digits
with a value in 0..255. -/
def ipv4_field (f : List Char) : Bool :=
  !f.isEmpty && f.all (fun c => '0' ≤ c && c ≤ '9') && decide (decimal_value f ≤ 255)

/-- An IPv4 address in the words of the specification: dotted decimal, four
numeric fields, each in 0..255. -/
def is_ipv4 (s : List Char) : Bool :=
  decide ((dot_fields s).length = 4) && (dot_fields s).all ipv4_field


/-- The writes of the option `TLS_PEER_VERIFY` in a trace, in order: the
descriptor and the value of each `setsockopt(fd, SOL_TLS, TLS_PEER_VERIFY, ...)`. -/
def peer_verify_writes (t : List Event) : List (Int × OptVal) :=
  t.filterMap (fun ev => match ev with
    | Event.call (Call.setsockopt fd level optname val) _ =>
      if level = SOL_TLS ∧ optname = TLS_PEER_VERIFY then some (fd, val) else none
    | _ => none)

/-- The peer verification level in the words of the specification: the given
value when there is one; otherwise none for servers and required for clients. -/
def spec_peer_verify (role : Int) (given : Option Int) : Int :=
  match given with
  | some peer_verify => peer_verify
  | none => if role = AT_SOCKET_ROLE_SERVER then TLS_PEER_VERIFY_NONE else TLS_PEER_VERIFY_REQUIRED

/-- The target in the words of the specification: the first returned address,
with the port in network byte order (the two bytes of the 16-bit port, most
significant first, as read on the little-endian target). -/
def spec_target (res : addrinfo) (port : Int) : sockaddr :=
  { sa_family := res.ai_addr.sa_family
    addr := res.ai_addr.addr
    port := port % 256 * 256 + port / 256 % 256 }


/-! ## Basic facts -/

@[simp] theorem Errno.val_pos (e : Errno) : 0 < e.val := e.pos

@[simp] theorem Errno.cast_pos (e : Errno) : (0 : Int) < (e.val : Int) := by
  exact_mod_cast e.pos

@[simp] theorem Errno.neg_cast_neg (e : Errno) : -(e.val : Int) < 0 := by
  have := e.cast_pos; omega

@[simp] theorem Ret.value_ok (v : Nat) : (Ret.ok v).value = (v : Int) := rfl
@[simp] theorem Ret.value_err (e : Errno) : (Ret.err e).value = -1 := rfl
@[simp] theorem Ret.status_ok (v : Nat) : (Ret.ok v).status = 0 := rfl
@[simp] theorem Ret.status_err (e : Errno) : (Ret.err e).status = -1 := rfl
@[simp] theorem Ret.code_ok (v : Nat) : (Ret.ok v).code = 0 := rfl
@[simp] theorem Ret.code_err (e : Errno) : (Ret.err e).code = -(e.val : Int) := rfl

@[simp] theorem calls_nil : calls [] = [] := rfl
@[simp] theorem responses_nil : responses [] = [] := rfl
@[simp] theorem closures_nil : closures [] = [] := rfl

@[simp] theorem calls_cons_call (c : Call) (r : Ret) (t : List Event) :
    calls (Event.call c r :: t) = c :: calls t := by
  simp [calls]

@[simp] theorem calls_cons_rsp (line : Rsp) (t : List Event) :
    calls (Event.rsp line :: t) = calls t := by
  simp [calls]

@[simp] theorem calls_cons_data (b : List Char) (t : List Event) :
    calls (Event.data b :: t) = calls t := by
  simp [calls]

@[simp] theorem responses_cons_call (c : Call) (r : Ret) (t : List Event) :
    responses (Event.call c r :: t) = responses t := by
  simp [responses]

@[simp] theorem responses_cons_rsp (line : Rsp) (t : List Event) :
    responses (Event.rsp line :: t) = line :: responses t := by
  simp [responses]

@[simp] theorem responses_cons_data (b : List Char) (t : List Event) :
    responses (Event.data b :: t) = responses t := by
  simp [responses]

@[simp] theorem closures_cons_call (c : Call) (r : Ret) (t : List Event) :
    closures (Event.call c r :: t) = closures t := by
  simp [closures]

@[simp] theorem closures_cons_closed (error : Int) (t : List Event) :
    closures (Event.rsp (Rsp.xsocket_closed error) :: t) = error :: closures t := by
  simp [closures]

@[simp] theorem closures_cons_data (b : List Char) (t : List Event) :
    closures (Event.data b :: t) = closures t := by
  simp [closures]

@[simp] theorem calls_append (a b : List Event) : calls (a ++ b) = calls a ++ calls b := by
  simp [calls]

@[simp] theorem responses_append (a b : List Event) :
    responses (a ++ b) = responses a ++ responses b := by
  simp [responses]

@[simp] theorem closures_append (a b : List Event) :
    closures (a ++ b) = closures a ++ closures b := by
  simp [closures]

theorem at_params_unsigned_short_get_error {list : at_param_list} {index : Nat} {err : Int}
    (h : at_params_unsigned_short_get list index = .error err) : err = -EINVAL := by
  unfold at_params_unsigned_short_get at h
  split at h
  · split at h
    · cases h; rfl
    · cases h
  · cases h; rfl

theorem at_params_unsigned_int_get_error {list : at_param_list} {index : Nat} {err : Int}
    (h : at_params_unsigned_int_get list index = .error err) : err = -EINVAL := by
  unfold at_params_unsigned_int_get at h
  split at h
  · split at h
    · cases h; rfl
    · cases h
  · cases h; rfl

theorem do_socket_open_rejected (st : St) (h : st.sock.fd ≠ INVALID_SOCKET) :
    do_socket_open st = (st, -EINVAL) := by
  simp [do_socket_open, h]

theorem do_secure_socket_open_rejected (cfg : Config) (st : St) (peer_verify : Int)
    (h : st.sock.fd ≠ INVALID_SOCKET) :
    do_secure_socket_open cfg st peer_verify = (st, -EINVAL) := by
  simp [do_secure_socket_open, h]

theorem optional_unsigned_short_error {list : at_param_list} {count index : Nat}
    {dflt err : Int} (h : optional_unsigned_short list count index dflt = .error err) :
    err = -EINVAL := by
  unfold optional_unsigned_short at h
  split at h
  · exact at_params_unsigned_short_get_error h
  · cases h

theorem handle_at_secure_socket_open_rejected (cfg : Config) (list : at_param_list) (st : St)
    (op peer_verify : Int) (h : st.sock.fd ≠ INVALID_SOCKET) :
    (handle_at_secure_socket_open cfg list st op peer_verify).2 = -EINVAL ∧
    (handle_at_secure_socket_open cfg list st op peer_verify).1.trace = st.trace ∧
    (handle_at_secure_socket_open cfg list st op peer_verify).1.sock.fd = st.sock.fd ∧
    (handle_at_secure_socket_open cfg list st op peer_verify).1.sock.fd_peer
      = st.sock.fd_peer := by
  unfold handle_at_secure_socket_open
  cases h4 : at_params_unsigned_int_get list 4 with
  | error err => simp [at_params_unsigned_int_get_error h4]
  | ok sec_tag =>
    cases h5 : optional_unsigned_short list 5 5 peer_verify with
    | error err => simp [St.setSock, optional_unsigned_short_error h5]
    | ok pv =>
      cases h6 : optional_unsigned_short list 6 6 0 with
      | error err => simp [St.setSock, optional_unsigned_short_error h6]
      | ok hv =>
        simp only []
        rw [do_secure_socket_open_rejected _ _ _ (by simpa [St.setSock] using h)]
        simp [St.setSock]

/-! ## Opening while a session exists -/

/-- Claim C1: with a session open (`fd != INVALID_SOCKET`), an open SET command
of `AT#XSOCKET` or `AT#XSSOCKET` (`<op>` is open-IPv4 or open-IPv6), with any
parameter list, returns `-EINVAL`, makes no external call, sends no response
line, and leaves `sock.fd` and `sock.fd_peer` as they were. -/
theorem open_while_open_rejected (cfg : Config) (s : Sock) (errno : Int) (env : Nat → Outcome)
    (list : at_param_list) (op : Int) (hfd : s.fd ≠ INVALID_SOCKET)
    (hop : at_params_unsigned_short_get list 1 = .ok op)
    (hopen : op = AT_SOCKET_OPEN_IPV4 ∨ op = AT_SOCKET_OPEN_IPV6) :
    ((handle_at_socket cfg .AT_CMD_TYPE_SET_COMMAND list (St.start s errno env)).2 = -EINVAL ∧
     (handle_at_socket cfg .AT_CMD_TYPE_SET_COMMAND list (St.start s errno env)).1.trace = [] ∧
     (handle_at_socket cfg .AT_CMD_TYPE_SET_COMMAND list (St.start s errno env)).1.sock.fd = s.fd ∧
     (handle_at_socket cfg .AT_CMD_TYPE_SET_COMMAND list (St.start s errno env)).1.sock.fd_peer
       = s.fd_peer) ∧
    ((handle_at_secure_socket cfg .AT_CMD_TYPE_SET_COMMAND list (St.start s errno env)).2
       = -EINVAL ∧
     (handle_at_secure_socket cfg .AT_CMD_TYPE_SET_COMMAND list (St.start s errno env)).1.trace
       = [] ∧
     (handle_at_secure_socket cfg .AT_CMD_TYPE_SET_COMMAND list (St.start s errno env)).1.sock.fd
       = s.fd ∧
     (handle_at_secure_socket cfg .AT_CMD_TYPE_SET_COMMAND list
       (St.start s errno env)).1.sock.fd_peer = s.fd_peer) := by
  constructor
  · simp only [handle_at_socket, hop, hopen, if_true]
    split
    · rename_i err h2
      simp [St.start, at_params_unsigned_short_get_error h2]
    · split
      · rename_i err h3
        simp [St.start, St.setSock, at_params_unsigned_short_get_error h3]
      · split
        · simp [St.start, St.setSock]
        · rw [do_socket_open_rejected _ (by simpa [St.start, St.setSock] using hfd)]
          simp [St.start, St.setSock]
  · simp only [handle_at_secure_socket, hop, hopen, if_true]
    cases h2 : at_params_unsigned_short_get list 2 with
    | error err => simp [St.start, at_params_unsigned_short_get_error h2]
    | ok type =>
      cases h3 : at_params_unsigned_short_get list 3 with
      | error err => simp [St.start, St.setSock, at_params_unsigned_short_get_error h3]
      | ok role =>
        have hfd2 : ((St.start s errno env).setSock (fun s =>
            { s with type := type, role := role })).sock.fd ≠ INVALID_SOCKET := by
          simpa [St.start, St.setSock] using hfd
        have hN := handle_at_secure_socket_open_rejected cfg list _ op TLS_PEER_VERIFY_NONE hfd2
        have hR := handle_at_secure_socket_open_rejected cfg list _ op TLS_PEER_VERIFY_REQUIRED
          hfd2
        simp only []
        split
        · simpa [St.start, St.setSock] using hN
        · split
          · simpa [St.start, St.setSock] using hR
          · simp [St.start, St.setSock]


/-- Witness of claim C1: `AT#XSOCKET=1,1,0` and `AT#XSSOCKET=1,1,0` while the TCP
client on descriptor 3 is open. -/
theorem open_while_open_rejected_witness :
    ((handle_at_socket cfg_modem_tls .AT_CMD_TYPE_SET_COMMAND
        [.string [], .num_int 1, .num_int 1, .num_int 0]
        (St.start tcp_client 0 (env_ok 0))).2 = -EINVAL ∧
     (handle_at_socket cfg_modem_tls .AT_CMD_TYPE_SET_COMMAND
        [.string [], .num_int 1, .num_int 1, .num_int 0]
        (St.start tcp_client 0 (env_ok 0))).1.trace = [] ∧
     (handle_at_socket cfg_modem_tls .AT_CMD_TYPE_SET_COMMAND
        [.string [], .num_int 1, .num_int 1, .num_int 0]
        (St.start tcp_client 0 (env_ok 0))).1.sock.fd = tcp_client.fd ∧
     (handle_at_socket cfg_modem_tls .AT_CMD_TYPE_SET_COMMAND
        [.string [], .num_int 1, .num_int 1, .num_int 0]
        (St.start tcp_client 0 (env_ok 0))).1.sock.fd_peer = tcp_client.fd_peer) ∧
    ((handle_at_secure_socket cfg_modem_tls .AT_CMD_TYPE_SET_COMMAND
        [.string [], .num_int 1, .num_int 1, .num_int 0]
        (St.start tcp_client 0 (env_ok 0))).2 = -EINVAL ∧
     (handle_at_secure_socket cfg_modem_tls .AT_CMD_TYPE_SET_COMMAND
        [.string [], .num_int 1, .num_int 1, .num_int 0]
        (St.start tcp_client 0 (env_ok 0))).1.trace = [] ∧
     (handle_at_secure_socket cfg_modem_tls .AT_CMD_TYPE_SET_COMMAND
        [.string [], .num_int 1, .num_int 1, .num_int 0]
        (St.start tcp_client 0 (env_ok 0))).1.sock.fd = tcp_client.fd ∧
     (handle_at_secure_socket cfg_modem_tls .AT_CMD_TYPE_SET_COMMAND
        [.string [], .num_int 1, .num_int 1, .num_int 0]
        (St.start tcp_client 0 (env_ok 0))).1.sock.fd_peer = tcp_client.fd_peer) :=
  open_while_open_rejected cfg_modem_tls tcp_client 0 (env_ok 0)
    [.string [], .num_int 1, .num_int 1, .num_int 0] 1 (by decide) rfl (by decide)

/-- Claim C2, evaluated: the rejected `AT#XSOCKET=1,2,1`, issued while the TCP
client is open, returns `-EINVAL` and has replaced `type` and `role` of the
session by its own parameters; the rejected `AT#XSSOCKET=2,2,1,99,0,1` has
replaced `type`, `role`, `sec_tag`, `hostname_verify` and `family`. -/
theorem rejected_open_overwrites_session :
    (handle_at_socket cfg_modem_tls .AT_CMD_TYPE_SET_COMMAND
        [.string [], .num_int 1, .num_int 2, .num_int 1]
        (St.start tcp_client 0 (env_ok 0))).2 = -EINVAL ∧
    (handle_at_socket cfg_modem_tls .AT_CMD_TYPE_SET_COMMAND
        [.string [], .num_int 1, .num_int 2, .num_int 1]
        (St.start tcp_client 0 (env_ok 0))).1.sock =
      { tcp_client with type := SOCK_DGRAM, role := AT_SOCKET_ROLE_SERVER } ∧
    (handle_at_secure_socket cfg_modem_tls .AT_CMD_TYPE_SET_COMMAND
        [.string [], .num_int 2, .num_int 2, .num_int 1, .num_int 99, .num_int 0, .num_int 1]
        (St.start tcp_client 0 (env_ok 0))).2 = -EINVAL ∧
    (handle_at_secure_socket cfg_modem_tls .AT_CMD_TYPE_SET_COMMAND
        [.string [], .num_int 2, .num_int 2, .num_int 1, .num_int 99, .num_int 0, .num_int 1]
        (St.start tcp_client 0 (env_ok 0))).1.sock =
      { tcp_client with type := SOCK_DGRAM, role := AT_SOCKET_ROLE_SERVER, sec_tag := 99,
                        hostname_verify := 1, family := AF_INET6 } ∧
    tcp_client.type = SOCK_STREAM ∧ tcp_client.role = AT_SOCKET_ROLE_CLIENT ∧
    tcp_client.sec_tag = INVALID_SEC_TAG ∧ tcp_client.family = AF_INET := by
  decide


/-! ## Closing -/

theorem do_socket_close_closed (cfg : Config) (st : St) (error : Int)
    (h : st.sock.fd = INVALID_SOCKET) : do_socket_close cfg st error = (st, 0) := by
  simp [do_socket_close, h]

theorem do_socket_close_fds_sock (st : St) (error : Int) :
    (do_socket_close_fds st error).1.sock = slm_at_tcpip_init st.sock := by
  unfold do_socket_close_fds
  split <;> simp [St.sys, St.rsp_send, St.setSock]

theorem do_socket_close_fds_trace (st : St) (error : Int) :
    ∃ new, (do_socket_close_fds st error).1.trace = st.trace ++ new ∧
      calls new = (if st.sock.fd_peer ≠ INVALID_SOCKET then [Call.close st.sock.fd_peer] else [])
        ++ [Call.close st.sock.fd] ∧
      responses new = [Rsp.xsocket_closed error] ∧
      closures new = [error] := by
  unfold do_socket_close_fds
  by_cases hp : st.sock.fd_peer ≠ INVALID_SOCKET
  · refine ⟨[Event.call (Call.close st.sock.fd_peer) (st.env 0).ret,
      Event.call (Call.close st.sock.fd) (st.env 1).ret,
      Event.rsp (Rsp.xsocket_closed error)], ?_⟩
    simp [hp, St.sys, St.rsp_send, St.setSock]
  · refine ⟨[Event.call (Call.close st.sock.fd) (st.env 0).ret,
      Event.rsp (Rsp.xsocket_closed error)], ?_⟩
    simp [hp, St.sys, St.rsp_send, St.setSock]

theorem do_socket_close_fds_last (st : St) (error : Int) :
    (do_socket_close_fds st error).1.trace.getLast?
      = some (Event.rsp (Rsp.xsocket_closed error)) := by
  simp [do_socket_close_fds, St.rsp_send, St.setSock]

theorem slm_at_tcpip_init_closed (s : Sock) : (slm_at_tcpip_init s).closed := by
  simp [slm_at_tcpip_init, Sock.closed]

theorem do_socket_close_open (cfg : Config) (st : St) (error : Int)
    (hfd : st.sock.fd ≠ INVALID_SOCKET)
    (hunload : cfg.CONFIG_SLM_NATIVE_TLS = true → st.sock.sec_tag ≠ INVALID_SEC_TAG →
      ∃ v, (st.env 0).ret = Ret.ok v) :
    ∃ new, (do_socket_close cfg st error).1.trace = st.trace ++ new ∧
      calls new =
        (if cfg.CONFIG_SLM_NATIVE_TLS = true ∧ st.sock.sec_tag ≠ INVALID_SEC_TAG
          then [Call.slm_tls_unloadcrdl st.sock.sec_tag] else []) ++
        (if st.sock.fd_peer ≠ INVALID_SOCKET then [Call.close st.sock.fd_peer] else []) ++
        [Call.close st.sock.fd] ∧
      responses new = [Rsp.xsocket_closed error] ∧
      closures new = [error] ∧
      (do_socket_close cfg st error).1.trace.getLast?
        = some (Event.rsp (Rsp.xsocket_closed error)) ∧
      (do_socket_close cfg st error).1.sock = slm_at_tcpip_init st.sock := by
  by_cases hu : cfg.CONFIG_SLM_NATIVE_TLS = true ∧ st.sock.sec_tag ≠ INVALID_SEC_TAG
  · obtain ⟨v, hv⟩ := hunload hu.1 hu.2
    have hfds : do_socket_close cfg st error
        = do_socket_close_fds (st.ext (Call.slm_tls_unloadcrdl st.sock.sec_tag)).1 error := by
      simp [do_socket_close, hfd, hu.1, hu.2, St.ext, hv]
    obtain ⟨new, ht, hc, hr, hcl⟩ := do_socket_close_fds_trace
      (st.ext (Call.slm_tls_unloadcrdl st.sock.sec_tag)).1 error
    refine ⟨Event.call (Call.slm_tls_unloadcrdl st.sock.sec_tag) (st.env 0).ret :: new,
      ?_, ?_, ?_, ?_, ?_, ?_⟩
    · rw [hfds, ht]; simp [St.ext]
    · rw [calls_cons_call, hc]; simp [St.ext, hu.1, hu.2]
    · rw [responses_cons_call, hr]
    · rw [closures_cons_call, hcl]
    · rw [hfds]; exact do_socket_close_fds_last _ _
    · rw [hfds, do_socket_close_fds_sock]; simp [St.ext]
  · have hfds : do_socket_close cfg st error = do_socket_close_fds st error := by
      simp only [do_socket_close, hfd, hu, if_false]
    obtain ⟨new, ht, hc, hr, hcl⟩ := do_socket_close_fds_trace st error
    refine ⟨new, ?_, ?_, hr, hcl, ?_, ?_⟩
    · rw [hfds, ht]
    · rw [hc]; simp [hu]
    · rw [hfds]; exact do_socket_close_fds_last _ _
    · rw [hfds, do_socket_close_fds_sock]

/-- Claim C3, as amended: for every session with `fd != INVALID_SOCKET`, every
reason `r` and every outcome of the `close` calls, provided the credential
unload (made only when `CONFIG_SLM_NATIVE_TLS` is set and `sec_tag` is set)
does not fail, `do_socket_close(r)` calls, in this order, the unload, `close`
on the peer descriptor (if set) and `close` on the primary descriptor; the
session then has the CLOSED value of `slm_at_tcpip_init`; and the only
response is the closure notification with reason `r`, sent last. -/
theorem do_socket_close_releases (cfg : Config) (s : Sock) (errno : Int) (env : Nat → Outcome)
    (r : Int) (hfd : s.fd ≠ INVALID_SOCKET)
    (hunload : cfg.CONFIG_SLM_NATIVE_TLS = true → s.sec_tag ≠ INVALID_SEC_TAG →
      ∃ v, (env 0).ret = Ret.ok v) :
    calls (do_socket_close cfg (St.start s errno env) r).1.trace =
      (if cfg.CONFIG_SLM_NATIVE_TLS = true ∧ s.sec_tag ≠ INVALID_SEC_TAG
        then [Call.slm_tls_unloadcrdl s.sec_tag] else []) ++
      (if s.fd_peer ≠ INVALID_SOCKET then [Call.close s.fd_peer] else []) ++
      [Call.close s.fd] ∧
    responses (do_socket_close cfg (St.start s errno env) r).1.trace = [Rsp.xsocket_closed r] ∧
    (do_socket_close cfg (St.start s errno env) r).1.trace.getLast?
      = some (Event.rsp (Rsp.xsocket_closed r)) ∧
    (do_socket_close cfg (St.start s errno env) r).1.sock = slm_at_tcpip_init s ∧
    (do_socket_close cfg (St.start s errno env) r).1.sock.closed := by
  obtain ⟨new, ht, hc, hr, -, hl, hs⟩ :=
    do_socket_close_open cfg (St.start s errno env) r hfd hunload
  have ht2 : (do_socket_close cfg (St.start s errno env) r).1.trace = new := by
    rw [ht]; simp [St.start]
  refine ⟨?_, ?_, hl, hs, ?_⟩
  · rw [ht2, hc]; simp [St.start]
  · rw [ht2, hr]
  · rw [hs]; exact slm_at_tcpip_init_closed _


/-- Witness of claim C3: closing the TLS client (security tag 7, descriptor 3)
with the native TLS stack, every call succeeding. -/
theorem do_socket_close_releases_witness :
    calls (do_socket_close cfg_native_tls (St.start tls_client 0 (env_ok 0)) 0).1.trace =
      [Call.slm_tls_unloadcrdl 7, Call.close 3] ∧
    responses (do_socket_close cfg_native_tls (St.start tls_client 0 (env_ok 0)) 0).1.trace
      = [Rsp.xsocket_closed 0] ∧
    (do_socket_close cfg_native_tls (St.start tls_client 0 (env_ok 0)) 0).1.trace.getLast?
      = some (Event.rsp (Rsp.xsocket_closed 0)) ∧
    (do_socket_close cfg_native_tls (St.start tls_client 0 (env_ok 0)) 0).1.sock
      = slm_at_tcpip_init tls_client ∧
    (do_socket_close cfg_native_tls (St.start tls_client 0 (env_ok 0)) 0).1.sock.closed :=
  do_socket_close_releases cfg_native_tls tls_client 0 (env_ok 0) 0 (by decide)
    (fun _ _ => ⟨0, rfl⟩)

/-- Claim C3 fails as stated: with the native TLS stack, when the unload of the
credential of the open TLS client fails, `do_socket_close` closes no
descriptor, leaves the session open as it was and sends no closure
notification.  (Without the native TLS stack no unload is attempted at all.) -/
theorem do_socket_close_unload_failure :
    tls_client.fd ≠ INVALID_SOCKET ∧
    calls (do_socket_close cfg_native_tls
      (St.start tls_client 0 (env_fail_first errno_EIO)) 0).1.trace
      = [Call.slm_tls_unloadcrdl 7] ∧
    responses (do_socket_close cfg_native_tls
      (St.start tls_client 0 (env_fail_first errno_EIO)) 0).1.trace = [] ∧
    (do_socket_close cfg_native_tls
      (St.start tls_client 0 (env_fail_first errno_EIO)) 0).1.sock = tls_client ∧
    ¬ (do_socket_close cfg_native_tls
      (St.start tls_client 0 (env_fail_first errno_EIO)) 0).1.sock.closed ∧
    (do_socket_close cfg_native_tls
      (St.start tls_client 0 (env_fail_first errno_EIO)) 0).2 = -5 ∧
    calls (do_socket_close cfg_modem_tls (St.start tls_client 0 (env_ok 0)) 0).1.trace
      = [Call.close 3] := by
  decide

/-- Claim C4, as amended: on a session with `fd == INVALID_SOCKET`,
`do_socket_close` returns 0, makes no call, sends no response and leaves the
session unchanged; consequently, for every state in which the credential unload
of the first call (if one is made) does not fail, a second `do_socket_close`
changes neither the session nor the trace (no call, no closure notification)
and returns 0. -/
theorem do_socket_close_idempotent (cfg : Config) (s : Sock) (errno : Int)
    (env : Nat → Outcome) (r1 r2 : Int)
    (hunload : s.fd ≠ INVALID_SOCKET → cfg.CONFIG_SLM_NATIVE_TLS = true →
      s.sec_tag ≠ INVALID_SEC_TAG → ∃ v, (env 0).ret = Ret.ok v) :
    (s.fd = INVALID_SOCKET →
      (do_socket_close cfg (St.start s errno env) r1).2 = 0 ∧
      (do_socket_close cfg (St.start s errno env) r1).1.trace = [] ∧
      (do_socket_close cfg (St.start s errno env) r1).1.sock = s) ∧
    (do_socket_close cfg (do_socket_close cfg (St.start s errno env) r1).1 r2).1.sock
      = (do_socket_close cfg (St.start s errno env) r1).1.sock ∧
    (do_socket_close cfg (do_socket_close cfg (St.start s errno env) r1).1 r2).1.trace
      = (do_socket_close cfg (St.start s errno env) r1).1.trace ∧
    (do_socket_close cfg (do_socket_close cfg (St.start s errno env) r1).1 r2).2 = 0 := by
  have hclosed : (do_socket_close cfg (St.start s errno env) r1).1.sock.fd = INVALID_SOCKET := by
    by_cases hfd : s.fd = INVALID_SOCKET
    · rw [do_socket_close_closed _ _ _ (by simpa [St.start] using hfd)]
      simpa [St.start] using hfd
    · obtain ⟨new, -, -, -, -, -, hs⟩ :=
        do_socket_close_open cfg (St.start s errno env) r1 hfd (hunload hfd)
      rw [hs]; rfl
  refine ⟨?_, ?_⟩
  · intro hfd
    rw [do_socket_close_closed _ _ _ (by simpa [St.start] using hfd)]
    simp [St.start]
  · rw [do_socket_close_closed _ _ _ hclosed]
    simp

/-- Witness of claim C4: closing the TLS client twice, every call succeeding. -/
theorem do_socket_close_idempotent_witness :
    (tls_client.fd = INVALID_SOCKET →
      (do_socket_close cfg_native_tls (St.start tls_client 0 (env_ok 0)) 0).2 = 0 ∧
      (do_socket_close cfg_native_tls (St.start tls_client 0 (env_ok 0)) 0).1.trace = [] ∧
      (do_socket_close cfg_native_tls (St.start tls_client 0 (env_ok 0)) 0).1.sock
        = tls_client) ∧
    (do_socket_close cfg_native_tls
      (do_socket_close cfg_native_tls (St.start tls_client 0 (env_ok 0)) 0).1 0).1.sock
      = (do_socket_close cfg_native_tls (St.start tls_client 0 (env_ok 0)) 0).1.sock ∧
    (do_socket_close cfg_native_tls
      (do_socket_close cfg_native_tls (St.start tls_client 0 (env_ok 0)) 0).1 0).1.trace
      = (do_socket_close cfg_native_tls (St.start tls_client 0 (env_ok 0)) 0).1.trace ∧
    (do_socket_close cfg_native_tls
      (do_socket_close cfg_native_tls (St.start tls_client 0 (env_ok 0)) 0).1 0).2 = 0 :=
  do_socket_close_idempotent cfg_native_tls tls_client 0 (env_ok 0) 0 0
    (fun _ _ _ => ⟨0, rfl⟩)

/-- Claim C4 fails as stated: with the native TLS stack, when the credential
unload of the first `do_socket_close` fails and that of the second succeeds,
the first call leaves the TLS client open and the second one closes it and
sends the closure notification. -/
theorem do_socket_close_twice_differs :
    (do_socket_close cfg_native_tls (St.start tls_client 0 (env_fail_first errno_EIO)) 0).1.sock
      = tls_client ∧
    (do_socket_close cfg_native_tls
      (do_socket_close cfg_native_tls
        (St.start tls_client 0 (env_fail_first errno_EIO)) 0).1 0).1.sock
      = slm_at_tcpip_init tls_client ∧
    slm_at_tcpip_init tls_client ≠ tls_client ∧
    closures (do_socket_close cfg_native_tls
      (St.start tls_client 0 (env_fail_first errno_EIO)) 0).1.trace = [] ∧
    closures (do_socket_close cfg_native_tls
      (do_socket_close cfg_native_tls
        (St.start tls_client 0 (env_fail_first errno_EIO)) 0).1 0).1.trace = [0] := by
  decide


/-! ## Transport failures -/

@[simp] theorem transport_failures_nil : transport_failures [] = [] := rfl

@[simp] theorem transport_failures_append (a b : List Event) :
    transport_failures (a ++ b) = transport_failures a ++ transport_failures b := by
  simp [transport_failures]

@[simp] theorem transport_failures_cons_call (c : Call) (r : Ret) (t : List Event) :
    transport_failures (Event.call c r :: t) =
      (if c.transport then r.errno?.toList else []) ++ transport_failures t := by
  unfold transport_failures
  cases hc : c.transport <;> cases h : r.errno? <;>
    simp [List.filterMap_cons, Event.transport_failure, hc, h]

@[simp] theorem transport_failures_cons_rsp (line : Rsp) (t : List Event) :
    transport_failures (Event.rsp line :: t) = transport_failures t := by
  simp [transport_failures, List.filterMap_cons, Event.transport_failure]

@[simp] theorem transport_failures_cons_data (b : List Char) (t : List Event) :
    transport_failures (Event.data b :: t) = transport_failures t := by
  simp [transport_failures, List.filterMap_cons, Event.transport_failure]

@[simp] theorem unload_failed_nil : unload_failed [] = false := rfl

@[simp] theorem unload_failed_append (a b : List Event) :
    unload_failed (a ++ b) = (unload_failed a || unload_failed b) := by
  simp [unload_failed]

@[simp] theorem unload_failed_cons (ev : Event) (t : List Event) :
    unload_failed (ev :: t) = (ev.unload_failure || unload_failed t) := by
  simp [unload_failed]

@[simp] theorem Ret.errno?_ok (v : Nat) : (Ret.ok v).errno? = none := rfl
@[simp] theorem Ret.errno?_err (e : Errno) : (Ret.err e).errno? = some e := rfl

theorem do_socket_close_fds_spec (st : St) (error : Int) :
    transport_failures (do_socket_close_fds st error).1.trace = transport_failures st.trace ∧
    (0 < st.errno → 0 < (do_socket_close_fds st error).1.errno) ∧
    unload_failed (do_socket_close_fds st error).1.trace = unload_failed st.trace ∧
    closures (do_socket_close_fds st error).1.trace = closures st.trace ++ [error] := by
  by_cases hp : st.sock.fd_peer = INVALID_SOCKET
  · cases h0 : (st.env 0).ret <;>
      simp [do_socket_close_fds, hp, St.sys, St.rsp_send, St.setSock, h0, Call.transport,
        Event.unload_failure]
  · cases h0 : (st.env 0).ret <;> cases h1 : (st.env 1).ret <;>
      simp [do_socket_close_fds, hp, St.sys, St.rsp_send, St.setSock, h0, h1, Call.transport,
        Event.unload_failure]

theorem do_socket_close_spec (cfg : Config) (st : St) (error : Int)
    (hfd : st.sock.fd ≠ INVALID_SOCKET) :
    transport_failures (do_socket_close cfg st error).1.trace = transport_failures st.trace ∧
    (0 < st.errno → 0 < (do_socket_close cfg st error).1.errno) ∧
    (unload_failed (do_socket_close cfg st error).1.trace = true ∨
      ((do_socket_close cfg st error).1.sock.closed ∧
       closures (do_socket_close cfg st error).1.trace = closures st.trace ++ [error] ∧
       unload_failed (do_socket_close cfg st error).1.trace = unload_failed st.trace)) := by
  by_cases hu : cfg.CONFIG_SLM_NATIVE_TLS = true ∧ st.sock.sec_tag ≠ INVALID_SEC_TAG
  · cases h0 : (st.env 0).ret with
    | err e =>
      simp [do_socket_close, hfd, hu.1, hu.2, St.ext, h0, Call.transport, Event.unload_failure]
    | ok v =>
      have hfds : do_socket_close cfg st error
          = do_socket_close_fds (st.ext (Call.slm_tls_unloadcrdl st.sock.sec_tag)).1 error := by
        simp [do_socket_close, hfd, hu.1, hu.2, St.ext, h0]
      obtain ⟨h1, h2, h3, h4⟩ := do_socket_close_fds_spec
        (st.ext (Call.slm_tls_unloadcrdl st.sock.sec_tag)).1 error
      rw [hfds]
      refine ⟨?_, ?_, Or.inr ⟨?_, ?_, ?_⟩⟩
      · rw [h1]; simp [St.ext, Call.transport]
      · intro hpos; exact h2 (by simpa [St.ext] using hpos)
      · rw [do_socket_close_fds_sock]; exact slm_at_tcpip_init_closed _
      · rw [h4]; simp [St.ext]
      · rw [h3]; simp [St.ext, h0, Event.unload_failure]
  · have hfds : do_socket_close cfg st error = do_socket_close_fds st error := by
      simp only [do_socket_close, hfd, hu, if_false]
    obtain ⟨h1, h2, h3, h4⟩ := do_socket_close_fds_spec st error
    rw [hfds]
    refine ⟨h1, h2, Or.inr ⟨?_, h4, h3⟩⟩
    rw [do_socket_close_fds_sock]; exact slm_at_tcpip_init_closed _

/-- What `close_and_fail` does on an open session whose `errno` is positive. -/
theorem close_and_fail_spec (cfg : Config) (st : St) (hfd : st.sock.fd ≠ INVALID_SOCKET)
    (hpos : 0 < st.errno) :
    transport_failures (close_and_fail cfg st).1.trace = transport_failures st.trace ∧
    (close_and_fail cfg st).2 < 0 ∧
    (unload_failed (close_and_fail cfg st).1.trace = true ∨
      ((close_and_fail cfg st).1.sock.closed ∧
       closures (close_and_fail cfg st).1.trace = closures st.trace ++ [-st.errno])) := by
  obtain ⟨h1, h2, h3⟩ := do_socket_close_spec cfg st (-st.errno) hfd
  refine ⟨h1, ?_, ?_⟩
  · have := h2 hpos
    simp only [close_and_fail]
    omega
  · rcases h3 with h | ⟨ha, hb, -⟩
    · exact Or.inl h
    · exact Or.inr ⟨ha, hb⟩


theorem close_and_fail_failures (cfg : Config) (st : St) (hfd : st.sock.fd ≠ INVALID_SOCKET) :
    transport_failures (close_and_fail cfg st).1.trace = transport_failures st.trace :=
  (do_socket_close_spec cfg st (-st.errno) hfd).1

/-- A failed transport call followed by `close_and_fail`. -/
theorem closes_after_failure (cfg : Config) (st : St) (c : Call) (e : Errno)
    (hfd : st.sock.fd ≠ INVALID_SOCKET) (hc : c.transport = true)
    (h0 : (st.env 0).ret = Ret.err e) (f : Sock → Sock) (hf : (f st.sock).fd = st.sock.fd) :
    closes_on_failure (transport_failures st.trace) (closures st.trace)
      (close_and_fail cfg ((st.sys c).1.setSock f)).1
      ((close_and_fail cfg ((st.sys c).1.setSock f)).2 < 0) := by
  have hfd1 : ((st.sys c).1.setSock f).sock.fd ≠ INVALID_SOCKET := by
    simpa [St.sys, St.setSock, hf] using hfd
  have hpos : 0 < ((st.sys c).1.setSock f).errno := by
    simp [St.sys, St.setSock, h0]
  obtain ⟨h1, h2, h3⟩ := close_and_fail_spec cfg _ hfd1 hpos
  refine Or.inr ⟨e, ?_, fun _ => ?_⟩
  · rw [h1]; simp [St.sys, St.setSock, h0, hc]
  · rcases h3 with h | ⟨ha, hb⟩
    · exact Or.inl h
    · refine Or.inr ⟨ha, ?_, h2⟩
      rw [hb]; simp [St.sys, St.setSock, h0]

/-- A failed transport call followed by `transfer_error`. -/
theorem closes_after_transfer_error (cfg : Config) (st : St) (c : Call) (e : Errno)
    (hfd : st.sock.fd ≠ INVALID_SOCKET) (hc : c.transport = true)
    (h0 : (st.env 0).ret = Ret.err e) :
    closes_on_failure (transport_failures st.trace) (closures st.trace)
      (transfer_error cfg (st.sys c).1)
      (-(transfer_error cfg (st.sys c).1).errno < 0) := by
  have hfd1 : (st.sys c).1.sock.fd ≠ INVALID_SOCKET := by
    simpa [St.sys] using hfd
  have herr : (st.sys c).1.errno = (e.val : Int) := by simp [St.sys, h0]
  have hpos : 0 < (st.sys c).1.errno := by simp [herr]
  refine Or.inr ⟨e, ?_, fun hhard => ?_⟩
  · unfold transfer_error
    split
    · rw [(do_socket_close_spec cfg _ _ hfd1).1]; simp [St.sys, h0, hc]
    · simp [St.sys, St.rsp_send, h0, hc]
  · have hh : (st.sys c).1.errno ≠ EAGAIN ∧ (st.sys c).1.errno ≠ ETIMEDOUT := by
      rw [herr]; exact hhard
    have hte : transfer_error cfg (st.sys c).1
        = (do_socket_close cfg (st.sys c).1 (-(st.sys c).1.errno)).1 := by
      unfold transfer_error
      rw [if_pos hh]
    obtain ⟨-, h2, h3⟩ := do_socket_close_spec cfg (st.sys c).1 (-(st.sys c).1.errno) hfd1
    rw [hte]
    rcases h3 with h | ⟨ha, hb, -⟩
    · exact Or.inl h
    · refine Or.inr ⟨ha, ?_, ?_⟩
      · rw [hb, herr]; simp [St.sys]
      · have := h2 hpos; omega

theorem do_listen_closes (cfg : Config) (st : St) (hfd : st.sock.fd ≠ INVALID_SOCKET) :
    closes_on_failure (transport_failures st.trace) (closures st.trace)
      (do_listen cfg st).1 ((do_listen cfg st).2 < 0) := by
  unfold do_listen
  cases h0 : (st.env 0).ret with
  | ok v => exact Or.inl (by simp [St.sys, h0, Call.transport])
  | err e =>
    have := closes_after_failure cfg st (Call.listen st.sock.fd 1) e hfd rfl h0 id rfl
    simpa [St.sys, St.setSock, h0] using this


theorem closes_on_failure.mono {tf : List Errno} {cl : List Int} {st : St} {p q : Prop}
    (h : closes_on_failure tf cl st p) (hpq : p → q) : closes_on_failure tf cl st q := by
  rcases h with h | ⟨e, he, hh⟩
  · exact Or.inl h
  · refine Or.inr ⟨e, he, fun hhard => ?_⟩
    rcases hh hhard with hu | ⟨ha, hb, hc⟩
    · exact Or.inl hu
    · exact Or.inr ⟨ha, hb, hpq hc⟩

theorem transfer_error_failures (cfg : Config) (st : St) (hfd : st.sock.fd ≠ INVALID_SOCKET) :
    transport_failures (transfer_error cfg st).trace = transport_failures st.trace := by
  unfold transfer_error
  split
  · exact (do_socket_close_spec cfg st _ hfd).1
  · simp [St.rsp_send]

theorem do_accept_family_closes (cfg : Config) (st : St) (hfd : st.sock.fd ≠ INVALID_SOCKET) :
    closes_on_failure (transport_failures st.trace) (closures st.trace)
      (do_accept_family cfg st).1 ((do_accept_family cfg st).2 < 0) := by
  unfold do_accept_family
  cases h0 : (st.env 0).ret with
  | ok v =>
    have hv : ¬ ((v : Int) = -1) := by omega
    exact Or.inl (by simp [St.sys, St.setSock, St.rsp_send, h0, hv, Call.transport])
  | err e =>
    have := closes_after_failure cfg st (Call.accept st.sock.fd) e hfd rfl h0
      (fun s => { s with fd_peer := INVALID_SOCKET }) rfl
    simpa [St.sys, St.setSock, h0] using this

theorem do_accept_closes (cfg : Config) (st : St) (hfd : st.sock.fd ≠ INVALID_SOCKET) :
    closes_on_failure (transport_failures st.trace) (closures st.trace)
      (do_accept cfg st).1 ((do_accept cfg st).2 < 0) := by
  unfold do_accept
  split
  · exact do_accept_family_closes cfg st hfd
  · split
    · exact do_accept_family_closes cfg st hfd
    · exact Or.inl rfl

theorem do_recv_on_closes (cfg : Config) (st : St) (sockfd length : Int)
    (hfd : st.sock.fd ≠ INVALID_SOCKET) :
    closes_on_failure (transport_failures st.trace) (closures st.trace)
      (do_recv_on cfg st sockfd length).1 ((do_recv_on cfg st sockfd length).2 < 0) := by
  unfold do_recv_on
  cases h0 : (st.env 0).ret with
  | ok v =>
    have hv : ¬ ((v : Int) < 0) := by omega
    by_cases hz : v = 0
    · exact Or.inl (by simp [St.sys, h0, hz, Call.transport])
    · exact Or.inl (by
        simp [St.sys, St.rsp_send, St.rsp_send_data, h0, hz, hv, Call.transport])
  | err e =>
    have := closes_after_transfer_error cfg st (Call.recv sockfd length) e hfd rfl h0
    simpa [St.sys, h0] using this

theorem do_recv_closes (cfg : Config) (st : St) (length : Int)
    (hfd : st.sock.fd ≠ INVALID_SOCKET) :
    closes_on_failure (transport_failures st.trace) (closures st.trace)
      (do_recv cfg st length).1 ((do_recv cfg st length).2 < 0) := by
  unfold do_recv
  split
  · split
    · exact do_recv_on_closes cfg st _ length hfd
    · exact Or.inl rfl
  · exact do_recv_on_closes cfg st _ length hfd

theorem do_recvfrom_closes (cfg : Config) (st : St) (length : Int)
    (hfd : st.sock.fd ≠ INVALID_SOCKET) :
    closes_on_failure (transport_failures st.trace) (closures st.trace)
      (do_recvfrom cfg st length).1 ((do_recvfrom cfg st length).2 < 0) := by
  unfold do_recvfrom
  cases h0 : (st.env 0).ret with
  | ok v =>
    have hv : ¬ ((v : Int) < 0) := by omega
    by_cases hz : v = 0
    · exact Or.inl (by simp [St.sys, h0, hz, Call.transport])
    · exact Or.inl (by
        simp [St.sys, St.rsp_send, St.rsp_send_data, h0, hz, hv, Call.transport])
  | err e =>
    have := closes_after_transfer_error cfg st (Call.recvfrom st.sock.fd length) e hfd rfl h0
    simpa [St.sys, h0] using this

theorem do_bind_family_closes (cfg : Config) (st : St) (port family : Int)
    (hfd : st.sock.fd ≠ INVALID_SOCKET) :
    closes_on_failure (transport_failures st.trace) (closures st.trace)
      (do_bind_family cfg st port family).1 ((do_bind_family cfg st port family).2 < 0) := by
  unfold do_bind_family
  by_cases hlen : (st.env 0).data.length = 0
  · exact Or.inl (by simp [St.ext, hlen, Call.transport])
  · by_cases hp : (st.env 1).ret.value = 1
    · cases h2 : (st.env 2).ret with
      | ok v =>
        exact Or.inl (by simp [St.ext, St.sys, hlen, hp, h2, Call.transport])
      | err e =>
        have := closes_after_failure cfg
          ((st.ext (Call.util_get_ip_addr family)).1.sys
            (Call.inet_pton family (st.env 0).data)).1
          (Call.bind st.sock.fd (sockaddr.mk family (st.env 0).data (htons port))) e
          (by simpa [St.ext, St.sys] using hfd) rfl (by simpa [St.ext, St.sys] using h2) id rfl
        simpa [St.ext, St.sys, St.setSock, hlen, hp, h2, Call.transport] using this
    · exact Or.inl (by simp [St.ext, St.sys, hlen, hp, Call.transport])

theorem do_bind_closes (cfg : Config) (st : St) (port : Int)
    (hfd : st.sock.fd ≠ INVALID_SOCKET) :
    closes_on_failure (transport_failures st.trace) (closures st.trace)
      (do_bind cfg st port).1 ((do_bind cfg st port).2 < 0) := by
  unfold do_bind
  split
  · exact do_bind_family_closes cfg st port _ hfd
  · split
    · exact do_bind_family_closes cfg st port _ hfd
    · exact Or.inl rfl


/-- The block on the security tag makes no transport call; when it does not
return early it leaves the session as it was and sends no response. -/
theorem set_tls_hostname_spec (cfg : Config) (st : St) (url : List Char)
    (hfd : st.sock.fd ≠ INVALID_SOCKET) :
    transport_failures (set_tls_hostname cfg st url).1.trace = transport_failures st.trace ∧
    ((set_tls_hostname cfg st url).2 = none →
      (set_tls_hostname cfg st url).1.sock = st.sock ∧
      closures (set_tls_hostname cfg st url).1.trace = closures st.trace ∧
      responses (set_tls_hostname cfg st url).1.trace = responses st.trace) := by
  have key : ∀ v : OptVal,
      transport_failures (close_and_fail cfg
        (st.sys (Call.setsockopt st.sock.fd SOL_TLS TLS_HOSTNAME v)).1).1.trace
        = transport_failures st.trace := by
    intro v
    rw [close_and_fail_failures cfg _ (by simpa [St.sys] using hfd)]
    simp [St.sys, Call.transport]
  unfold set_tls_hostname
  by_cases hs : st.sock.sec_tag = INVALID_SEC_TAG
  · simp [hs]
  · by_cases hv : st.sock.hostname_verify = 0
    · cases h0 : (st.env 0).ret with
      | ok v => simp [hs, hv, St.sys, h0, Call.transport]
      | err e =>
        have := key OptVal.null
        simp [hs, hv, St.sys, h0] at this ⊢
        exact this
    · cases h0 : (st.env 0).ret with
      | ok v => simp [hs, hv, St.sys, h0, Call.transport]
      | err e =>
        have := key (OptVal.str url)
        simp [hs, hv, St.sys, h0] at this ⊢
        exact this

theorem do_connect_resolved_closes (cfg : Config) (st : St) (url : List Char) (port : Int)
    (res : addrinfo) (hfd : st.sock.fd ≠ INVALID_SOCKET) :
    closes_on_failure (transport_failures st.trace) (closures st.trace)
      (do_connect_resolved cfg st url port res).1
      ((do_connect_resolved cfg st url port res).2 < 0) := by
  obtain ⟨h1, h2⟩ := set_tls_hostname_spec cfg st url hfd
  cases hh : (set_tls_hostname cfg st url).2 with
  | some ret =>
    simp only [do_connect_resolved, hh]
    exact Or.inl h1
  | none =>
    obtain ⟨hs, hc, -⟩ := h2 hh
    have hfd1 : (set_tls_hostname cfg st url).1.sock.fd ≠ INVALID_SOCKET := by rw [hs]; exact hfd
    simp only [do_connect_resolved, hh]
    cases h0 : ((set_tls_hostname cfg st url).1.env 0).ret with
    | ok v =>
      exact Or.inl (by simp [St.sys, St.rsp_send, St.void, h0, h1, Call.transport])
    | err e =>
      have := closes_after_failure cfg (set_tls_hostname cfg st url).1
        (Call.connect (set_tls_hostname cfg st url).1.sock.fd (target res port)) e hfd1 rfl h0
        id rfl
      rw [h1, hc] at this
      simpa [St.sys, St.setSock, h0] using this

theorem do_connect_closes (cfg : Config) (st : St) (url : List Char) (port : Int)
    (hfd : st.sock.fd ≠ INVALID_SOCKET) :
    closes_on_failure (transport_failures st.trace) (closures st.trace)
      (do_connect cfg st url port).1 ((do_connect cfg st url port).2 < 0) := by
  simp only [do_connect]
  split
  · exact Or.inl (by simp [St.ext, Call.transport])
  · split
    · exact Or.inl (by simp [St.ext, St.void, Call.transport])
    · have := do_connect_resolved_closes cfg (st.ext (Call.getaddrinfo url)).1 url port
        ((st.env 0).addrs.headD default) (by simpa [St.ext] using hfd)
      simpa [St.ext, Call.transport] using this

theorem send_loop_closes (cfg : Config) (sockfd : Int) (data : List Char) :
    ∀ (fuel : Nat) (st : St) (ret : Int) (offset : Nat), st.sock.fd ≠ INVALID_SOCKET →
      closes_on_failure (transport_failures st.trace) (closures st.trace)
        (send_loop cfg sockfd data fuel st ret offset).1
        (∃ r o, (send_loop cfg sockfd data fuel st ret offset).2 = some (r, o) ∧ r < 0) := by
  intro fuel
  induction fuel with
  | zero => intro st ret offset _; exact Or.inl rfl
  | succ fuel ih =>
    intro st ret offset hfd
    unfold send_loop
    by_cases hlt : offset < data.length
    · cases h0 : (st.env 0).ret with
      | ok v =>
        have hv : ¬ ((v : Int) < 0) := by omega
        have := ih (st.sys (Call.send sockfd (data.drop offset) (data.length - offset))).1
          (v : Int) ((offset + v) % 2 ^ 32) (by simpa [St.sys] using hfd)
        simpa [St.sys, h0, hlt, hv, Call.transport] using this
      | err e =>
        have := closes_after_transfer_error cfg st
          (Call.send sockfd (data.drop offset) (data.length - offset)) e hfd rfl h0
        have := this.mono (q := ∃ r o,
          (some (-(transfer_error cfg (st.sys (Call.send sockfd (data.drop offset)
            (data.length - offset))).1).errno, offset) : Option (Int × Nat)) = some (r, o) ∧ r < 0)
          (fun h => ⟨_, _, rfl, h⟩)
        simpa [St.sys, h0, hlt] using this
    · exact Or.inl (by simp [hlt])

theorem do_send_on_closes (cfg : Config) (fuel : Nat) (st : St) (sockfd : Int)
    (data : List Char) (hfd : st.sock.fd ≠ INVALID_SOCKET) :
    closes_on_failure (transport_failures st.trace) (closures st.trace)
      (do_send_on cfg fuel st sockfd data).1
      (∃ ret, (do_send_on cfg fuel st sockfd data).2 = some ret ∧ ret < 0) := by
  have hl := send_loop_closes cfg sockfd data fuel st 0 0 hfd
  cases h : (send_loop cfg sockfd data fuel st 0 0).2 with
  | none =>
    simp only [do_send_on, h]
    rcases hl with hl | ⟨e, he, hh⟩
    · exact Or.inl hl
    · refine Or.inr ⟨e, he, fun hhard => ?_⟩
      rcases hh hhard with hu | ⟨-, -, r, o, hro, -⟩
      · exact Or.inl hu
      · rw [h] at hro; cases hro
  | some ro =>
    obtain ⟨r, o⟩ := ro
    simp only [do_send_on, h]
    rcases hl with hl | ⟨e, he, hh⟩
    · exact Or.inl (by simpa [St.rsp_send] using hl)
    · refine Or.inr ⟨e, by simpa [St.rsp_send] using he, fun hhard => ?_⟩
      rcases hh hhard with hu | ⟨ha, hb, r', o', hro, hneg⟩
      · exact Or.inl (by simp [St.rsp_send, hu])
      · rw [h] at hro
        cases hro
        refine Or.inr ⟨by simpa [St.rsp_send] using ha, ?_, r, ?_, hneg⟩
        · simpa [St.rsp_send, closures] using hb
        · have : ¬ (r ≥ 0) := by omega
          simp [this]

theorem do_send_closes (cfg : Config) (fuel : Nat) (st : St) (data : List Char)
    (hfd : st.sock.fd ≠ INVALID_SOCKET) :
    closes_on_failure (transport_failures st.trace) (closures st.trace)
      (do_send cfg fuel st data).1
      (∃ ret, (do_send cfg fuel st data).2 = some ret ∧ ret < 0) := by
  unfold do_send
  split
  · split
    · exact do_send_on_closes cfg fuel st _ data hfd
    · exact Or.inl rfl
  · exact do_send_on_closes cfg fuel st _ data hfd


theorem sendto_loop_closes (cfg : Config) (data : List Char) (dest : sockaddr) :
    ∀ (fuel : Nat) (st : St) (ret : Int) (offset : Nat), st.sock.fd ≠ INVALID_SOCKET →
      closes_on_failure (transport_failures st.trace) (closures st.trace)
        (sendto_loop cfg data dest fuel st ret offset).1
        (∃ r o, (sendto_loop cfg data dest fuel st ret offset).2 = some (r, o) ∧ r < 0) := by
  intro fuel
  induction fuel with
  | zero => intro st ret offset _; exact Or.inl rfl
  | succ fuel ih =>
    intro st ret offset hfd
    unfold sendto_loop
    by_cases hlt : offset < data.length
    · cases h0 : (st.env 0).ret with
      | ok v =>
        by_cases hv : (v : Int) ≤ 0
        · refine Or.inl ?_
          simp only [hlt, if_true, St.sys, h0, Ret.value_ok, hv]
          rw [transfer_error_failures cfg _ (by simpa using hfd)]
          simp [Call.transport]
        · have := ih (st.sys (Call.sendto st.sock.fd (data.drop offset)
            (data.length - offset) dest)).1
            (v : Int) ((offset + v) % 2 ^ 32) (by simpa [St.sys] using hfd)
          simpa [St.sys, h0, hlt, hv, Call.transport] using this
      | err e =>
        have := closes_after_transfer_error cfg st
          (Call.sendto st.sock.fd (data.drop offset) (data.length - offset) dest) e hfd rfl h0
        have := this.mono (q := ∃ r o,
          (some (-(transfer_error cfg (st.sys (Call.sendto st.sock.fd (data.drop offset)
            (data.length - offset) dest)).1).errno, offset) : Option (Int × Nat))
              = some (r, o) ∧ r < 0)
          (fun h => ⟨_, _, rfl, h⟩)
        simpa [St.sys, h0, hlt] using this
    · exact Or.inl (by simp [hlt])

theorem do_sendto_resolved_closes (cfg : Config) (fuel : Nat) (st : St) (url : List Char)
    (port : Int) (data : List Char) (res : addrinfo) (hfd : st.sock.fd ≠ INVALID_SOCKET) :
    closes_on_failure (transport_failures st.trace) (closures st.trace)
      (do_sendto_resolved cfg fuel st url port data res).1
      (∃ ret, (do_sendto_resolved cfg fuel st url port data res).2 = some ret ∧ ret < 0) := by
  obtain ⟨h1, h2⟩ := set_tls_hostname_spec cfg st url hfd
  cases hh : (set_tls_hostname cfg st url).2 with
  | some ret =>
    simp only [do_sendto_resolved, hh]
    exact Or.inl h1
  | none =>
    obtain ⟨hs, hc, -⟩ := h2 hh
    have hfd1 : (set_tls_hostname cfg st url).1.sock.fd ≠ INVALID_SOCKET := by rw [hs]; exact hfd
    have hl := sendto_loop_closes cfg data (target res port) fuel
      (set_tls_hostname cfg st url).1 0 0 hfd1
    rw [h1, hc] at hl
    cases h : (sendto_loop cfg data (target res port) fuel
        (set_tls_hostname cfg st url).1 0 0).2 with
    | none =>
      simp only [do_sendto_resolved, hh, h]
      rcases hl with hl | ⟨e, he, hx⟩
      · exact Or.inl hl
      · refine Or.inr ⟨e, he, fun hhard => ?_⟩
        rcases hx hhard with hu | ⟨-, -, r, o, hro, -⟩
        · exact Or.inl hu
        · rw [h] at hro; cases hro
    | some ro =>
      obtain ⟨r, o⟩ := ro
      simp only [do_sendto_resolved, hh, h]
      rcases hl with hl | ⟨e, he, hx⟩
      · exact Or.inl (by simpa [St.rsp_send] using hl)
      · refine Or.inr ⟨e, by simpa [St.rsp_send] using he, fun hhard => ?_⟩
        rcases hx hhard with hu | ⟨ha, hb, r', o', hro, hneg⟩
        · exact Or.inl (by simp [St.rsp_send, hu])
        · rw [h] at hro
          cases hro
          refine Or.inr ⟨by simpa [St.rsp_send] using ha, ?_, r, ?_, hneg⟩
          · simpa [St.rsp_send, closures] using hb
          · have : ¬ (r ≥ 0) := by omega
            simp [this]

theorem do_sendto_closes (cfg : Config) (fuel : Nat) (st : St) (url : List Char)
    (port : Int) (data : List Char) (hfd : st.sock.fd ≠ INVALID_SOCKET) :
    closes_on_failure (transport_failures st.trace) (closures st.trace)
      (do_sendto cfg fuel st url port data).1
      (∃ ret, (do_sendto cfg fuel st url port data).2 = some ret ∧ ret < 0) := by
  simp only [do_sendto]
  split
  · exact Or.inl (by simp [St.ext, Call.transport])
  · split
    · exact Or.inl (by simp [St.ext, St.void, Call.transport])
    · have := do_sendto_resolved_closes cfg fuel (st.ext (Call.getaddrinfo url)).1 url port data
        ((st.env 0).addrs.headD default) (by simpa [St.ext] using hfd)
      simpa [St.ext, Call.transport] using this

theorem Op.run_closes (cfg : Config) (fuel : Nat) (st : St) (op : Op)
    (hfd : st.sock.fd ≠ INVALID_SOCKET) :
    closes_on_failure (transport_failures st.trace) (closures st.trace)
      (op.run cfg fuel st).1 (∃ ret, (op.run cfg fuel st).2 = some ret ∧ ret < 0) := by
  cases op with
  | bind port => exact (do_bind_closes cfg st port hfd).mono (fun h => ⟨_, rfl, h⟩)
  | connect url port => exact (do_connect_closes cfg st url port hfd).mono (fun h => ⟨_, rfl, h⟩)
  | listen => exact (do_listen_closes cfg st hfd).mono (fun h => ⟨_, rfl, h⟩)
  | accept => exact (do_accept_closes cfg st hfd).mono (fun h => ⟨_, rfl, h⟩)
  | send data => exact do_send_closes cfg fuel st data hfd
  | recv length => exact (do_recv_closes cfg st length hfd).mono (fun h => ⟨_, rfl, h⟩)
  | sendto url port data => exact do_sendto_closes cfg fuel st url port data hfd
  | recvfrom length => exact (do_recvfrom_closes cfg st length hfd).mono (fun h => ⟨_, rfl, h⟩)

/-- Claim C5: on an open session, for each of bind, connect, listen, accept,
send, recv, sendto and recvfrom, with any arguments and any behaviour of the
environment: if the transport call of the operation fails with an error other
than `EAGAIN` and `ETIMEDOUT`, and no credential unload fails during the
teardown, then the operation returns, with a negative code; the session has
the CLOSED value afterwards; and exactly one closure notification was sent,
with the negated error number of the failed call as its reason. -/
theorem transport_failure_closes (cfg : Config) (fuel : Nat) (s : Sock) (errno : Int)
    (env : Nat → Outcome) (op : Op) (e : Errno)
    (hfd : s.fd ≠ INVALID_SOCKET)
    (hfail : e ∈ transport_failures (op.run cfg fuel (St.start s errno env)).1.trace)
    (hhard : (e.val : Int) ≠ EAGAIN ∧ (e.val : Int) ≠ ETIMEDOUT)
    (hunload : unload_failed (op.run cfg fuel (St.start s errno env)).1.trace = false) :
    (op.run cfg fuel (St.start s errno env)).1.sock.closed ∧
    closures (op.run cfg fuel (St.start s errno env)).1.trace = [-(e.val : Int)] ∧
    ∃ ret, (op.run cfg fuel (St.start s errno env)).2 = some ret ∧ ret < 0 := by
  have h := Op.run_closes cfg fuel (St.start s errno env) op hfd
  rcases h with h | ⟨e', he', hh⟩
  · rw [h] at hfail; simp [St.start] at hfail
  · rw [he'] at hfail
    have hee : e = e' := by simpa [St.start] using hfail
    subst hee
    rcases hh hhard with hu | ⟨ha, hb, hc⟩
    · rw [hu] at hunload; cases hunload
    · exact ⟨ha, by simpa [St.start] using hb, hc⟩


/-- Witness of claim C5: `send` of four bytes on the open TCP client; the first
`send` call takes two bytes, the second fails with `ECONNRESET`. -/
theorem transport_failure_closes_witness :
    (Op.run cfg_modem_tls 5 (St.start tcp_client 0
        (env_of [Ret.ok 2, Ret.err errno_ECONNRESET] (Ret.ok 0)))
      (Op.send ['P', 'I', 'N', 'G'])).1.sock.closed ∧
    closures (Op.run cfg_modem_tls 5 (St.start tcp_client 0
        (env_of [Ret.ok 2, Ret.err errno_ECONNRESET] (Ret.ok 0)))
      (Op.send ['P', 'I', 'N', 'G'])).1.trace = [-104] ∧
    ∃ ret, (Op.run cfg_modem_tls 5 (St.start tcp_client 0
        (env_of [Ret.ok 2, Ret.err errno_ECONNRESET] (Ret.ok 0)))
      (Op.send ['P', 'I', 'N', 'G'])).2 = some ret ∧ ret < 0 :=
  transport_failure_closes cfg_modem_tls 5 tcp_client 0
    (env_of [Ret.ok 2, Ret.err errno_ECONNRESET] (Ret.ok 0)) (Op.send ['P', 'I', 'N', 'G'])
    errno_ECONNRESET (by decide) (by decide) (by decide) (by decide)

/-- The run of the witness of claim C5, in full: two `send` calls, the `close`
of descriptor 3, the closure notification with reason `-104`, and the result
notification `#XSEND: 2`; the operation returns `-104`. -/
theorem transport_failure_closes_example :
    (Op.run cfg_modem_tls 5 (St.start tcp_client 0
        (env_of [Ret.ok 2, Ret.err errno_ECONNRESET] (Ret.ok 0)))
      (Op.send ['P', 'I', 'N', 'G'])).1.trace =
      [Event.call (Call.send 3 ['P', 'I', 'N', 'G'] 4) (Ret.ok 2),
       Event.call (Call.send 3 ['N', 'G'] 2) (Ret.err errno_ECONNRESET),
       Event.call (Call.close 3) (Ret.ok 0),
       Event.rsp (Rsp.xsocket_closed (-104)),
       Event.rsp (Rsp.xsend 2)] ∧
    (Op.run cfg_modem_tls 5 (St.start tcp_client 0
        (env_of [Ret.ok 2, Ret.err errno_ECONNRESET] (Ret.ok 0)))
      (Op.send ['P', 'I', 'N', 'G'])).2 = some (-104) := by
  decide


/-! ## Failure of `socket` -/

/-- Claim C6 fails as stated: from the initial CLOSED state, when `socket`
fails with `ENOMEM`, `AT#XSOCKET=1,1,0` returns `-ENOMEM`, sends no closure
notification (no response at all) and leaves `family = AF_INET`, which is not
the CLOSED value of `slm_at_tcpip_init`. -/
theorem socket_failure_not_reset :
    (St.initial (env_of [Ret.err errno_ENOMEM] (Ret.ok 0))).sock.closed ∧
    (handle_at_socket cfg_modem_tls .AT_CMD_TYPE_SET_COMMAND
        [.string [], .num_int 1, .num_int 1, .num_int 0]
        (St.initial (env_of [Ret.err errno_ENOMEM] (Ret.ok 0)))).2 = -12 ∧
    (handle_at_socket cfg_modem_tls .AT_CMD_TYPE_SET_COMMAND
        [.string [], .num_int 1, .num_int 1, .num_int 0]
        (St.initial (env_of [Ret.err errno_ENOMEM] (Ret.ok 0)))).1.trace =
      [Event.call (Call.socket AF_INET SOCK_STREAM IPPROTO_TCP) (Ret.err errno_ENOMEM)] ∧
    closures (handle_at_socket cfg_modem_tls .AT_CMD_TYPE_SET_COMMAND
        [.string [], .num_int 1, .num_int 1, .num_int 0]
        (St.initial (env_of [Ret.err errno_ENOMEM] (Ret.ok 0)))).1.trace = [] ∧
    (handle_at_socket cfg_modem_tls .AT_CMD_TYPE_SET_COMMAND
        [.string [], .num_int 1, .num_int 1, .num_int 0]
        (St.initial (env_of [Ret.err errno_ENOMEM] (Ret.ok 0)))).1.sock.family = AF_INET ∧
    ¬ (handle_at_socket cfg_modem_tls .AT_CMD_TYPE_SET_COMMAND
        [.string [], .num_int 1, .num_int 1, .num_int 0]
        (St.initial (env_of [Ret.err errno_ENOMEM] (Ret.ok 0)))).1.sock.closed := by
  decide

theorem do_socket_open_created_failed (st : St) (f t p proto : Int)
    (family type proto0 : Int) (e : Errno)
    (hmem : Event.call (Call.socket family type proto0) (Ret.err e)
      ∈ (do_socket_open_created (st.socket f t p) proto).1.trace)
    (hnot : Event.call (Call.socket family type proto0) (Ret.err e) ∉ st.trace) :
    socket_failed st (do_socket_open_created (st.socket f t p) proto) family type proto0 e := by
  unfold socket_failed
  cases h0 : (st.env 0).ret with
  | ok v =>
    have hv : ¬ ((v : Int) < 0) := by omega
    simp [do_socket_open_created, St.socket, St.sys, St.setSock, St.rsp_send, h0, hv, hnot]
      at hmem
  | err e0 =>
    simp [do_socket_open_created, St.socket, St.sys, St.setSock, St.rsp_send, h0, hnot]
      at hmem
    obtain ⟨⟨h1, h2, h3⟩, h4⟩ := hmem
    subst h1 h2 h3 h4
    simp [do_socket_open_created, St.socket, St.sys, St.setSock, h0, INVALID_SOCKET]

theorem do_socket_open_failed (st : St) (family type proto : Int) (e : Errno)
    (hmem : Event.call (Call.socket family type proto) (Ret.err e) ∈ (do_socket_open st).1.trace)
    (hnot : Event.call (Call.socket family type proto) (Ret.err e) ∉ st.trace) :
    socket_failed st (do_socket_open st) family type proto e := by
  unfold do_socket_open at hmem ⊢
  by_cases hfd : st.sock.fd = INVALID_SOCKET
  · rw [if_neg (not_not.mpr hfd)] at hmem ⊢
    by_cases hs : st.sock.type = SOCK_STREAM
    · rw [if_pos hs] at hmem ⊢
      exact do_socket_open_created_failed st _ _ _ _ family type proto e hmem hnot
    · rw [if_neg hs] at hmem ⊢
      by_cases hd : st.sock.type = SOCK_DGRAM
      · rw [if_pos hd] at hmem ⊢
        exact do_socket_open_created_failed st _ _ _ _ family type proto e hmem hnot
      · rw [if_neg hd] at hmem
        exact absurd hmem hnot
  · rw [if_pos hfd] at hmem
    exact absurd hmem hnot


theorem socket_failed_of_inert {st0 st1 : St} {r : St × Int} {family type proto : Int}
    {e : Errno} (h : socket_failed st1 r family type proto e)
    (ht : st1.trace = st0.trace) (hp : st1.sock.fd_peer = st0.sock.fd_peer) :
    socket_failed st0 r family type proto e := by
  unfold socket_failed at h ⊢
  rw [← ht, ← hp]; exact h

theorem handle_at_socket_failed (cfg : Config) (cmd_type : at_cmd_type) (list : at_param_list)
    (st : St) (family type proto : Int) (e : Errno) (hfd : st.sock.fd = INVALID_SOCKET)
    (hmem : Event.call (Call.socket family type proto) (Ret.err e)
      ∈ (handle_at_socket cfg cmd_type list st).1.trace)
    (hnot : Event.call (Call.socket family type proto) (Ret.err e) ∉ st.trace) :
    socket_failed st (handle_at_socket cfg cmd_type list st) family type proto e := by
  have hneg : st.sock.fd < 0 := by rw [hfd]; decide
  cases cmd_type with
  | AT_CMD_TYPE_UNKNOWN => simp [handle_at_socket, hnot] at hmem
  | AT_CMD_TYPE_READ_COMMAND =>
    simp only [handle_at_socket] at hmem
    split at hmem <;> simp [St.rsp_send, hnot] at hmem
  | AT_CMD_TYPE_TEST_COMMAND => simp [handle_at_socket, St.rsp_send, hnot] at hmem
  | AT_CMD_TYPE_SET_COMMAND =>
    cases h1 : at_params_unsigned_short_get list 1 with
    | error err => simp [handle_at_socket, h1, hnot] at hmem
    | ok op =>
      by_cases hop : op = AT_SOCKET_OPEN_IPV4 ∨ op = AT_SOCKET_OPEN_IPV6
      · cases h2 : at_params_unsigned_short_get list 2 with
        | error err => simp [handle_at_socket, h1, hop, h2, hnot] at hmem
        | ok t =>
          cases h3 : at_params_unsigned_short_get list 3 with
          | error err => simp [handle_at_socket, h1, hop, h2, h3, St.setSock, hnot] at hmem
          | ok r =>
            have hgt : ¬ ((st.setSock (fun s => { s with type := t, role := r })).sock.fd > 0) := by
              simp only [St.setSock]; omega
            simp only [handle_at_socket, h1, hop, h2, h3, if_true, if_neg hgt] at hmem ⊢
            exact socket_failed_of_inert
              (do_socket_open_failed _ family type proto e hmem (by simpa [St.setSock] using hnot))
              rfl rfl
      · simp only [handle_at_socket, h1, if_neg hop] at hmem
        split at hmem
        · simp [hneg, hnot] at hmem
        · exact absurd hmem hnot


theorem do_secure_socket_created_failed (cfg : Config) (st : St) (f t p peer_verify proto : Int)
    (family type proto0 : Int) (e : Errno)
    (hmem : Event.call (Call.socket family type proto0) (Ret.err e)
      ∈ (do_secure_socket_created cfg (st.socket f t p) peer_verify proto).1.trace)
    (hnot : Event.call (Call.socket family type proto0) (Ret.err e) ∉ st.trace) :
    socket_failed st (do_secure_socket_created cfg (st.socket f t p) peer_verify proto)
      family type proto0 e := by
  unfold socket_failed
  cases h0 : (st.env 0).ret with
  | ok v =>
    have hv : ¬ ((v : Int) < 0) := by omega
    exfalso
    cases hN : cfg.CONFIG_SLM_NATIVE_TLS <;> cases h1 : (st.env 1).ret <;>
      cases h2 : (st.env 2).ret <;> cases h3 : (st.env 3).ret <;>
      simp [do_secure_socket_created, do_secure_socket_attach, secure_error_exit, St.socket,
        St.sys, St.ext, St.setSock, St.rsp_send, h0, h1, h2, h3, hN, hv, hnot] at hmem
  | err e0 =>
    simp [do_secure_socket_created, St.socket, St.sys, St.setSock, h0, hnot] at hmem
    obtain ⟨⟨h1, h2, h3⟩, h4⟩ := hmem
    subst h1 h2 h3 h4
    simp [do_secure_socket_created, St.socket, St.sys, St.setSock, h0, INVALID_SOCKET]

theorem do_secure_socket_open_failed (cfg : Config) (st : St) (peer_verify : Int)
    (family type proto : Int) (e : Errno)
    (hmem : Event.call (Call.socket family type proto) (Ret.err e)
      ∈ (do_secure_socket_open cfg st peer_verify).1.trace)
    (hnot : Event.call (Call.socket family type proto) (Ret.err e) ∉ st.trace) :
    socket_failed st (do_secure_socket_open cfg st peer_verify) family type proto e := by
  unfold do_secure_socket_open at hmem ⊢
  by_cases hfd : st.sock.fd = INVALID_SOCKET
  · rw [if_neg (not_not.mpr hfd)] at hmem ⊢
    by_cases hs : st.sock.type = SOCK_STREAM
    · rw [if_pos hs] at hmem ⊢
      exact do_secure_socket_created_failed cfg st _ _ _ _ _ family type proto e hmem hnot
    · rw [if_neg hs] at hmem ⊢
      by_cases hd : st.sock.type = SOCK_DGRAM
      · rw [if_pos hd] at hmem ⊢
        exact do_secure_socket_created_failed cfg st _ _ _ _ _ family type proto e hmem hnot
      · rw [if_neg hd] at hmem
        exact absurd hmem hnot
  · rw [if_pos hfd] at hmem
    exact absurd hmem hnot

theorem handle_at_secure_socket_open_failed (cfg : Config) (list : at_param_list) (st : St)
    (op peer_verify : Int) (family type proto : Int) (e : Errno)
    (hmem : Event.call (Call.socket family type proto) (Ret.err e)
      ∈ (handle_at_secure_socket_open cfg list st op peer_verify).1.trace)
    (hnot : Event.call (Call.socket family type proto) (Ret.err e) ∉ st.trace) :
    socket_failed st (handle_at_secure_socket_open cfg list st op peer_verify)
      family type proto e := by
  cases h4 : at_params_unsigned_int_get list 4 with
  | error err => simp [handle_at_secure_socket_open, h4, hnot] at hmem
  | ok sec_tag =>
    cases h5 : optional_unsigned_short list 5 5 peer_verify with
    | error err => simp [handle_at_secure_socket_open, h4, h5, St.setSock, hnot] at hmem
    | ok pv =>
      cases h6 : optional_unsigned_short list 6 6 0 with
      | error err => simp [handle_at_secure_socket_open, h4, h5, h6, St.setSock, hnot] at hmem
      | ok hv =>
        simp only [handle_at_secure_socket_open, h4, h5, h6] at hmem ⊢
        exact socket_failed_of_inert
          (do_secure_socket_open_failed cfg _ pv family type proto e hmem
            (by simpa [St.setSock] using hnot))
          rfl rfl

theorem handle_at_secure_socket_failed (cfg : Config) (cmd_type : at_cmd_type)
    (list : at_param_list) (st : St) (family type proto : Int) (e : Errno)
    (hfd : st.sock.fd = INVALID_SOCKET)
    (hmem : Event.call (Call.socket family type proto) (Ret.err e)
      ∈ (handle_at_secure_socket cfg cmd_type list st).1.trace)
    (hnot : Event.call (Call.socket family type proto) (Ret.err e) ∉ st.trace) :
    socket_failed st (handle_at_secure_socket cfg cmd_type list st) family type proto e := by
  have hneg : st.sock.fd < 0 := by rw [hfd]; decide
  cases cmd_type with
  | AT_CMD_TYPE_UNKNOWN => simp [handle_at_secure_socket, hnot] at hmem
  | AT_CMD_TYPE_READ_COMMAND =>
    simp only [handle_at_secure_socket] at hmem
    split at hmem <;> simp [St.rsp_send, hnot] at hmem
  | AT_CMD_TYPE_TEST_COMMAND => simp [handle_at_secure_socket, St.rsp_send, hnot] at hmem
  | AT_CMD_TYPE_SET_COMMAND =>
    cases h1 : at_params_unsigned_short_get list 1 with
    | error err => simp [handle_at_secure_socket, h1, hnot] at hmem
    | ok op =>
      by_cases hop : op = AT_SOCKET_OPEN_IPV4 ∨ op = AT_SOCKET_OPEN_IPV6
      · cases h2 : at_params_unsigned_short_get list 2 with
        | error err => simp [handle_at_secure_socket, h1, hop, h2, hnot] at hmem
        | ok t =>
          cases h3 : at_params_unsigned_short_get list 3 with
          | error err =>
            simp [handle_at_secure_socket, h1, hop, h2, h3, St.setSock, hnot] at hmem
          | ok r =>
            simp only [handle_at_secure_socket, h1, hop, h2, h3, if_true] at hmem ⊢
            split at hmem
            · rename_i hr
              rw [if_pos hr]
              exact socket_failed_of_inert
                (handle_at_secure_socket_open_failed cfg list _ op _ family type proto e hmem
                  (by simpa [St.setSock] using hnot))
                rfl rfl
            · rename_i hr
              rw [if_neg hr]
              split at hmem
              · rename_i hc
                rw [if_pos hc]
                exact socket_failed_of_inert
                  (handle_at_secure_socket_open_failed cfg list _ op _ family type proto e hmem
                    (by simpa [St.setSock] using hnot))
                  rfl rfl
              · simp [St.setSock, hnot] at hmem
      · simp only [handle_at_secure_socket, h1, if_neg hop] at hmem
        split at hmem
        · simp [hneg, hnot] at hmem
        · exact absurd hmem hnot

/-- Claim C6, as amended: for every `AT#XSOCKET` or `AT#XSSOCKET` command issued
while CLOSED (`fd == INVALID_SOCKET`) in which the `socket` call fails with
error `e`, the command returns `-e`, `socket` is the only external call, no
response line is sent (so no closure notification), `fd` is
`INVALID_SOCKET` afterwards and `fd_peer` is unchanged. -/
theorem socket_failure_leaves_closed (cfg : Config) (fuel : Nat) (s : Sock) (errno : Int)
    (env : Nat → Outcome) (c : Command) (family type proto : Int) (e : Errno)
    (hname : c.name = AtCmd.XSOCKET ∨ c.name = AtCmd.XSSOCKET)
    (hfd : s.fd = INVALID_SOCKET)
    (hfail : Event.call (Call.socket family type proto) (Ret.err e)
      ∈ (exec cfg fuel c (St.start s errno env)).1.trace) :
    (exec cfg fuel c (St.start s errno env)).2 = some (-(e.val : Int)) ∧
    (exec cfg fuel c (St.start s errno env)).1.trace
      = [Event.call (Call.socket family type proto) (Ret.err e)] ∧
    responses (exec cfg fuel c (St.start s errno env)).1.trace = [] ∧
    closures (exec cfg fuel c (St.start s errno env)).1.trace = [] ∧
    (exec cfg fuel c (St.start s errno env)).1.sock.fd = INVALID_SOCKET ∧
    (exec cfg fuel c (St.start s errno env)).1.sock.fd_peer = s.fd_peer := by
  have hnot : Event.call (Call.socket family type proto) (Ret.err e)
      ∉ (St.start s errno env).trace := by simp [St.start]
  rcases hname with hn | hn
  · simp only [exec, hn] at hfail ⊢
    obtain ⟨h1, h2, h3, h4⟩ := handle_at_socket_failed cfg c.cmd_type c.list
      (St.start s errno env) family type proto e hfd hfail hnot
    simp only [St.start, List.nil_append] at h1 h2 h3 h4
    simp [h1, h2, h3, h4, St.start]
  · simp only [exec, hn] at hfail ⊢
    obtain ⟨h1, h2, h3, h4⟩ := handle_at_secure_socket_failed cfg c.cmd_type c.list
      (St.start s errno env) family type proto e hfd hfail hnot
    simp only [St.start, List.nil_append] at h1 h2 h3 h4
    simp [h1, h2, h3, h4, St.start]


/-- Witness of claim C6: `AT#XSSOCKET=1,1,0,42` in the CLOSED state, `socket`
failing with `ENOMEM`. -/
theorem socket_failure_leaves_closed_witness :
    (exec cfg_modem_tls 0
        ⟨.XSSOCKET, .AT_CMD_TYPE_SET_COMMAND,
          [.string [], .num_int 1, .num_int 1, .num_int 0, .num_int 42]⟩
        (St.start (slm_at_tcpip_init ⟨0, 0, 0, 0, 0, 0, 0⟩) 0
          (env_of [Ret.err errno_ENOMEM] (Ret.ok 0)))).2 = some (-12) ∧
    (exec cfg_modem_tls 0
        ⟨.XSSOCKET, .AT_CMD_TYPE_SET_COMMAND,
          [.string [], .num_int 1, .num_int 1, .num_int 0, .num_int 42]⟩
        (St.start (slm_at_tcpip_init ⟨0, 0, 0, 0, 0, 0, 0⟩) 0
          (env_of [Ret.err errno_ENOMEM] (Ret.ok 0)))).1.trace
      = [Event.call (Call.socket AF_INET SOCK_STREAM IPPROTO_TLS_1_2) (Ret.err errno_ENOMEM)] ∧
    responses (exec cfg_modem_tls 0
        ⟨.XSSOCKET, .AT_CMD_TYPE_SET_COMMAND,
          [.string [], .num_int 1, .num_int 1, .num_int 0, .num_int 42]⟩
        (St.start (slm_at_tcpip_init ⟨0, 0, 0, 0, 0, 0, 0⟩) 0
          (env_of [Ret.err errno_ENOMEM] (Ret.ok 0)))).1.trace = [] ∧
    closures (exec cfg_modem_tls 0
        ⟨.XSSOCKET, .AT_CMD_TYPE_SET_COMMAND,
          [.string [], .num_int 1, .num_int 1, .num_int 0, .num_int 42]⟩
        (St.start (slm_at_tcpip_init ⟨0, 0, 0, 0, 0, 0, 0⟩) 0
          (env_of [Ret.err errno_ENOMEM] (Ret.ok 0)))).1.trace = [] ∧
    (exec cfg_modem_tls 0
        ⟨.XSSOCKET, .AT_CMD_TYPE_SET_COMMAND,
          [.string [], .num_int 1, .num_int 1, .num_int 0, .num_int 42]⟩
        (St.start (slm_at_tcpip_init ⟨0, 0, 0, 0, 0, 0, 0⟩) 0
          (env_of [Ret.err errno_ENOMEM] (Ret.ok 0)))).1.sock.fd = INVALID_SOCKET ∧
    (exec cfg_modem_tls 0
        ⟨.XSSOCKET, .AT_CMD_TYPE_SET_COMMAND,
          [.string [], .num_int 1, .num_int 1, .num_int 0, .num_int 42]⟩
        (St.start (slm_at_tcpip_init ⟨0, 0, 0, 0, 0, 0, 0⟩) 0
          (env_of [Ret.err errno_ENOMEM] (Ret.ok 0)))).1.sock.fd_peer
      = (slm_at_tcpip_init ⟨0, 0, 0, 0, 0, 0, 0⟩).fd_peer :=
  socket_failure_leaves_closed cfg_modem_tls 0 (slm_at_tcpip_init ⟨0, 0, 0, 0, 0, 0, 0⟩) 0
    (env_of [Ret.err errno_ENOMEM] (Ret.ok 0))
    ⟨.XSSOCKET, .AT_CMD_TYPE_SET_COMMAND,
      [.string [], .num_int 1, .num_int 1, .num_int 0, .num_int 42]⟩
    AF_INET SOCK_STREAM IPPROTO_TLS_1_2 errno_ENOMEM (Or.inr rfl) (by decide) (by decide)

/-! ## Invariants of the session -/

/-- Claim C7, evaluated: from the initial state, `AT#XSSOCKET=1,1,0,42` with
`socket` failing (`ENOMEM`) leaves the session CLOSED (`fd == INVALID_SOCKET`)
with `sec_tag = 42`; so does `AT#XSSOCKET=1,3,0,42` (unsupported type) without
any call; and a following `AT#XSOCKET=1,1,0` opens a plain TCP session that
still carries `sec_tag = 42`. -/
theorem stale_sec_tag_after_failed_open :
    (St.initial (env_of [Ret.err errno_ENOMEM, Ret.ok 3] (Ret.ok 0))).sock.sec_tag
      = INVALID_SEC_TAG ∧
    (run cfg_modem_tls 0
        [⟨.XSSOCKET, .AT_CMD_TYPE_SET_COMMAND,
          [.string [], .num_int 1, .num_int 1, .num_int 0, .num_int 42]⟩]
        (St.initial (env_of [Ret.err errno_ENOMEM, Ret.ok 3] (Ret.ok 0)))).sock.fd
      = INVALID_SOCKET ∧
    (run cfg_modem_tls 0
        [⟨.XSSOCKET, .AT_CMD_TYPE_SET_COMMAND,
          [.string [], .num_int 1, .num_int 1, .num_int 0, .num_int 42]⟩]
        (St.initial (env_of [Ret.err errno_ENOMEM, Ret.ok 3] (Ret.ok 0)))).sock.sec_tag = 42 ∧
    (run cfg_modem_tls 0
        [⟨.XSSOCKET, .AT_CMD_TYPE_SET_COMMAND,
          [.string [], .num_int 1, .num_int 3, .num_int 0, .num_int 42]⟩]
        (St.initial (env_ok 3))).sock.fd = INVALID_SOCKET ∧
    (run cfg_modem_tls 0
        [⟨.XSSOCKET, .AT_CMD_TYPE_SET_COMMAND,
          [.string [], .num_int 1, .num_int 3, .num_int 0, .num_int 42]⟩]
        (St.initial (env_ok 3))).sock.sec_tag = 42 ∧
    (run cfg_modem_tls 0
        [⟨.XSSOCKET, .AT_CMD_TYPE_SET_COMMAND,
          [.string [], .num_int 1, .num_int 1, .num_int 0, .num_int 42]⟩,
         ⟨.XSOCKET, .AT_CMD_TYPE_SET_COMMAND,
          [.string [], .num_int 1, .num_int 1, .num_int 0]⟩]
        (St.initial (env_of [Ret.err errno_ENOMEM, Ret.ok 3] (Ret.ok 0)))).sock
      = { type := SOCK_STREAM, role := AT_SOCKET_ROLE_CLIENT, sec_tag := 42,
          hostname_verify := 0, family := AF_INET, fd := 3, fd_peer := INVALID_SOCKET } ∧
    calls (run cfg_modem_tls 0
        [⟨.XSSOCKET, .AT_CMD_TYPE_SET_COMMAND,
          [.string [], .num_int 1, .num_int 1, .num_int 0, .num_int 42]⟩,
         ⟨.XSOCKET, .AT_CMD_TYPE_SET_COMMAND,
          [.string [], .num_int 1, .num_int 1, .num_int 0]⟩]
        (St.initial (env_of [Ret.err errno_ENOMEM, Ret.ok 3] (Ret.ok 0)))).trace
      = [Call.socket AF_INET SOCK_STREAM IPPROTO_TLS_1_2,
         Call.socket AF_INET SOCK_STREAM IPPROTO_TCP] := by
  decide

/-- Claim C8, evaluated: `AT#XSOCKET=1,1,1`, `AT#XLISTEN`, `AT#XACCEPT` (all
calls succeeding, descriptors 3 and 4), then the rejected `AT#XSOCKET=1,2,0`:
the session keeps the accepted peer (`fd_peer = 4`) with `role` client and
`type` `SOCK_DGRAM`. -/
theorem peer_kept_after_rejected_open :
    (run cfg_modem_tls 0
        [⟨.XSOCKET, .AT_CMD_TYPE_SET_COMMAND, [.string [], .num_int 1, .num_int 1, .num_int 1]⟩,
         ⟨.XLISTEN, .AT_CMD_TYPE_SET_COMMAND, [.string []]⟩,
         ⟨.XACCEPT, .AT_CMD_TYPE_SET_COMMAND, [.string []]⟩]
        (St.initial (env_of [Ret.ok 3, Ret.ok 0, Ret.ok 4] (Ret.ok 0)))).sock
      = { type := SOCK_STREAM, role := AT_SOCKET_ROLE_SERVER, sec_tag := INVALID_SEC_TAG,
          hostname_verify := 0, family := AF_INET, fd := 3, fd_peer := 4 } ∧
    (exec cfg_modem_tls 0
        ⟨.XSOCKET, .AT_CMD_TYPE_SET_COMMAND, [.string [], .num_int 1, .num_int 2, .num_int 0]⟩
        (run cfg_modem_tls 0
          [⟨.XSOCKET, .AT_CMD_TYPE_SET_COMMAND,
            [.string [], .num_int 1, .num_int 1, .num_int 1]⟩,
           ⟨.XLISTEN, .AT_CMD_TYPE_SET_COMMAND, [.string []]⟩,
           ⟨.XACCEPT, .AT_CMD_TYPE_SET_COMMAND, [.string []]⟩]
          (St.initial (env_of [Ret.ok 3, Ret.ok 0, Ret.ok 4] (Ret.ok 0))))).2
      = some (-EINVAL) ∧
    (run cfg_modem_tls 0
        [⟨.XSOCKET, .AT_CMD_TYPE_SET_COMMAND, [.string [], .num_int 1, .num_int 1, .num_int 1]⟩,
         ⟨.XLISTEN, .AT_CMD_TYPE_SET_COMMAND, [.string []]⟩,
         ⟨.XACCEPT, .AT_CMD_TYPE_SET_COMMAND, [.string []]⟩,
         ⟨.XSOCKET, .AT_CMD_TYPE_SET_COMMAND, [.string [], .num_int 1, .num_int 2, .num_int 0]⟩]
        (St.initial (env_of [Ret.ok 3, Ret.ok 0, Ret.ok 4] (Ret.ok 0)))).sock
      = { type := SOCK_DGRAM, role := AT_SOCKET_ROLE_CLIENT, sec_tag := INVALID_SEC_TAG,
          hostname_verify := 0, family := AF_INET, fd := 3, fd_peer := 4 } ∧
    (4 : Int) ≠ INVALID_SOCKET ∧ AT_SOCKET_ROLE_CLIENT ≠ AT_SOCKET_ROLE_SERVER ∧
    SOCK_DGRAM ≠ SOCK_STREAM := by
  decide

/-! ## Operations without a session -/

/-- Claim C9, evaluated: in the initial CLOSED state, `AT#XSEND="PING"` calls
`send` on descriptor `-1` and sends the response `#XSEND: 0`; `AT#XSEND=""`
sends `#XSEND: 0` and returns 0; `AT#XRECV` calls `recv` on descriptor `-1`.
The calls fail with `EBADF`. -/
theorem send_recv_while_closed :
    (St.initial (env_of [] (Ret.err errno_EBADF))).sock.fd = INVALID_SOCKET ∧
    (handle_at_send cfg_modem_tls 5 .AT_CMD_TYPE_SET_COMMAND
        [.string [], .string ['P', 'I', 'N', 'G']]
        (St.initial (env_of [] (Ret.err errno_EBADF)))).1.trace
      = [Event.call (Call.send (-1) ['P', 'I', 'N', 'G'] 4) (Ret.err errno_EBADF),
         Event.rsp (Rsp.xsend 0)] ∧
    (handle_at_send cfg_modem_tls 5 .AT_CMD_TYPE_SET_COMMAND
        [.string [], .string ['P', 'I', 'N', 'G']]
        (St.initial (env_of [] (Ret.err errno_EBADF)))).2 = some (-9) ∧
    (handle_at_send cfg_modem_tls 5 .AT_CMD_TYPE_SET_COMMAND
        [.string [], .string []]
        (St.initial (env_of [] (Ret.err errno_EBADF)))).1.trace = [Event.rsp (Rsp.xsend 0)] ∧
    (handle_at_send cfg_modem_tls 5 .AT_CMD_TYPE_SET_COMMAND
        [.string [], .string []]
        (St.initial (env_of [] (Ret.err errno_EBADF)))).2 = some 0 ∧
    (handle_at_recv cfg_modem_tls .AT_CMD_TYPE_SET_COMMAND [.string []]
        (St.initial (env_of [] (Ret.err errno_EBADF)))).1.trace
      = [Event.call (Call.recv (-1) 576) (Ret.err errno_EBADF)] ∧
    (handle_at_recv cfg_modem_tls .AT_CMD_TYPE_SET_COMMAND [.string []]
        (St.initial (env_of [] (Ret.err errno_EBADF)))).2 = -9 := by
  decide

/-- Claim C10: on a session with `type == SOCK_STREAM`, `role` server and
`fd_peer == INVALID_SOCKET`, `do_send` returns `-EINVAL` for every payload,
makes no call (no `send`), sends no response line and leaves the session
unchanged. -/
theorem do_send_without_peer (cfg : Config) (fuel : Nat) (s : Sock) (errno : Int)
    (env : Nat → Outcome) (data : List Char)
    (htype : s.type = SOCK_STREAM) (hrole : s.role = AT_SOCKET_ROLE_SERVER)
    (hpeer : s.fd_peer = INVALID_SOCKET) :
    (do_send cfg fuel (St.start s errno env) data).2 = some (-EINVAL) ∧
    (do_send cfg fuel (St.start s errno env) data).1.trace = [] ∧
    (do_send cfg fuel (St.start s errno env) data).1.sock = s := by
  simp [do_send, St.start, htype, hrole, hpeer]

/-- Witness of claim C10: a TCP server on descriptor 3 that has accepted no
connection, payload `PING`. -/
theorem do_send_without_peer_witness :
    (do_send cfg_modem_tls 5
      (St.start { tcp_client with role := AT_SOCKET_ROLE_SERVER } 0 (env_ok 4))
      ['P', 'I', 'N', 'G']).2 = some (-EINVAL) ∧
    (do_send cfg_modem_tls 5
      (St.start { tcp_client with role := AT_SOCKET_ROLE_SERVER } 0 (env_ok 4))
      ['P', 'I', 'N', 'G']).1.trace = [] ∧
    (do_send cfg_modem_tls 5
      (St.start { tcp_client with role := AT_SOCKET_ROLE_SERVER } 0 (env_ok 4))
      ['P', 'I', 'N', 'G']).1.sock = { tcp_client with role := AT_SOCKET_ROLE_SERVER } :=
  do_send_without_peer cfg_modem_tls 5 { tcp_client with role := AT_SOCKET_ROLE_SERVER } 0
    (env_ok 4) ['P', 'I', 'N', 'G'] rfl rfl rfl


/-- The handlers that test `sock.fd < 0` reject a SET command while CLOSED with
`-EINVAL`, no call, no response and the session unchanged: socket options,
bind, connect, listen, accept, sendto and recvfrom.  The handlers of send and recv
have no such test. -/
theorem guarded_handlers_reject_while_closed (cfg : Config) (fuel : Nat) (s : Sock)
    (errno : Int) (env : Nat → Outcome) (list : at_param_list)
    (hfd : s.fd = INVALID_SOCKET) :
    handle_at_socketopt .AT_CMD_TYPE_SET_COMMAND list (St.start s errno env)
      = (St.start s errno env, -EINVAL) ∧
    handle_at_bind cfg .AT_CMD_TYPE_SET_COMMAND list (St.start s errno env)
      = (St.start s errno env, -EINVAL) ∧
    handle_at_connect cfg .AT_CMD_TYPE_SET_COMMAND list (St.start s errno env)
      = (St.start s errno env, -EINVAL) ∧
    handle_at_listen cfg .AT_CMD_TYPE_SET_COMMAND (St.start s errno env)
      = (St.start s errno env, -EINVAL) ∧
    handle_at_accept cfg .AT_CMD_TYPE_SET_COMMAND (St.start s errno env)
      = (St.start s errno env, -EINVAL) ∧
    handle_at_sendto cfg fuel .AT_CMD_TYPE_SET_COMMAND list (St.start s errno env)
      = (St.start s errno env, some (-EINVAL)) ∧
    handle_at_recvfrom cfg .AT_CMD_TYPE_SET_COMMAND list (St.start s errno env)
      = (St.start s errno env, -EINVAL) := by
  have hneg : (St.start s errno env).sock.fd < 0 := by
    simp only [St.start, hfd]; decide
  simp [handle_at_socketopt, handle_at_bind, handle_at_connect, handle_at_listen,
    handle_at_accept, handle_at_sendto, handle_at_recvfrom, hneg]

/-! ## Receiving -/

theorem do_socket_close_fds_new (st : St) (error : Int) :
    ∃ new, (do_socket_close_fds st error).1.trace = st.trace ++ new ∧
      ∀ ev ∈ new, ev.teardown = true := by
  by_cases hp : st.sock.fd_peer = INVALID_SOCKET
  · exact ⟨[Event.call (Call.close st.sock.fd) (st.env 0).ret,
      Event.rsp (Rsp.xsocket_closed error)],
      by simp [do_socket_close_fds, hp, St.sys, St.rsp_send, St.setSock],
      by simp [Event.teardown]⟩
  · exact ⟨[Event.call (Call.close st.sock.fd_peer) (st.env 0).ret,
      Event.call (Call.close st.sock.fd) (st.env 1).ret,
      Event.rsp (Rsp.xsocket_closed error)],
      by simp [do_socket_close_fds, hp, St.sys, St.rsp_send, St.setSock],
      by simp [Event.teardown]⟩

theorem do_socket_close_new (cfg : Config) (st : St) (error : Int) :
    ∃ new, (do_socket_close cfg st error).1.trace = st.trace ++ new ∧
      ∀ ev ∈ new, ev.teardown = true := by
  unfold do_socket_close
  split
  · exact ⟨[], by simp, by simp⟩
  · split
    · simp only []
      split
      · exact ⟨[Event.call (Call.slm_tls_unloadcrdl st.sock.sec_tag) (st.env 0).ret],
          by simp [St.ext], by simp [Event.teardown]⟩
      · obtain ⟨new, h1, h2⟩ := do_socket_close_fds_new
          (st.ext (Call.slm_tls_unloadcrdl st.sock.sec_tag)).1 error
        refine ⟨Event.call (Call.slm_tls_unloadcrdl st.sock.sec_tag) (st.env 0).ret :: new,
          ?_, ?_⟩
        · rw [h1]; simp [St.ext]
        · intro ev hev
          rcases List.mem_cons.mp hev with h | h
          · rw [h]; rfl
          · exact h2 ev h
    · exact do_socket_close_fds_new st error

theorem transfer_error_new (cfg : Config) (st : St) :
    ∃ new, (transfer_error cfg st).trace = st.trace ++ new ∧
      ∀ ev ∈ new, ev.teardown = true := by
  unfold transfer_error
  split
  · exact do_socket_close_new cfg st _
  · exact ⟨[Event.rsp (Rsp.xsocket_error (-st.errno))], by simp [St.rsp_send],
      by simp [Event.teardown]⟩

theorem zero_receive_not_teardown {ev : Event} (h : ev.zero_receive = true) :
    ev.teardown = false := by
  cases ev with
  | call c r => cases c <;> simp_all [Event.zero_receive, Event.teardown]
  | rsp line => simp [Event.zero_receive] at h
  | data b => simp [Event.zero_receive] at h

theorem zero_receive_result {ev : Event} {c : Call} {r : Ret} (h : ev.zero_receive = true)
    (he : ev = Event.call c r) : r = Ret.ok 0 := by
  subst he
  cases c <;> cases r <;> rename_i v <;> cases v <;> simp_all [Event.zero_receive]

theorem after_failed_receive_no_zero (cfg : Config) (st : St) (c : Call) (e : Errno)
    (ht : st.trace = []) (h0 : (st.env 0).ret = Ret.err e) (ev : Event)
    (hev : ev ∈ (transfer_error cfg (st.sys c).1).trace) : ev.zero_receive = false := by
  obtain ⟨new, h1, h2⟩ := transfer_error_new cfg (st.sys c).1
  rw [h1] at hev
  simp only [St.sys, ht, h0, List.nil_append, List.cons_append, List.mem_cons] at hev
  rcases hev with h | h
  · subst h
    cases c <;> simp [Event.zero_receive]
  · cases hz : ev.zero_receive with
    | false => rfl
    | true =>
      have := zero_receive_not_teardown hz
      rw [h2 ev h] at this
      cases this

theorem do_recv_on_zero (cfg : Config) (st : St) (sockfd length : Int) (ev : Event)
    (ht : st.trace = []) (hev : ev ∈ (do_recv_on cfg st sockfd length).1.trace)
    (hz : ev.zero_receive = true) :
    (do_recv_on cfg st sockfd length).2 = 0 ∧
    (do_recv_on cfg st sockfd length).1.trace = [ev] ∧
    (do_recv_on cfg st sockfd length).1.sock = st.sock := by
  cases h0 : (st.env 0).ret with
  | ok v =>
    cases v with
    | zero =>
      simp [do_recv_on, St.sys, h0, ht] at hev ⊢
      exact hev.symm
    | succ n =>
      have hn : ¬ ((n : Int) + 1 < 0) := by omega
      have hn0 : ¬ ((n : Int) + 1 = 0) := by omega
      simp [do_recv_on, St.sys, St.rsp_send, St.rsp_send_data, h0, ht, hn, hn0] at hev
      rcases hev with h | h | h <;> subst h <;> simp [Event.zero_receive] at hz
  | err e =>
    have hte : (do_recv_on cfg st sockfd length).1
        = transfer_error cfg (st.sys (Call.recv sockfd length)).1 := by
      simp [do_recv_on, St.sys, h0]
    rw [hte] at hev
    rw [after_failed_receive_no_zero cfg st _ e ht h0 ev hev] at hz
    cases hz

theorem do_recvfrom_zero (cfg : Config) (st : St) (length : Int) (ev : Event)
    (ht : st.trace = []) (hev : ev ∈ (do_recvfrom cfg st length).1.trace)
    (hz : ev.zero_receive = true) :
    (do_recvfrom cfg st length).2 = 0 ∧
    (do_recvfrom cfg st length).1.trace = [ev] ∧
    (do_recvfrom cfg st length).1.sock = st.sock := by
  cases h0 : (st.env 0).ret with
  | ok v =>
    cases v with
    | zero =>
      simp [do_recvfrom, St.sys, h0, ht] at hev ⊢
      exact hev.symm
    | succ n =>
      have hn : ¬ ((n : Int) + 1 < 0) := by omega
      have hn0 : ¬ ((n : Int) + 1 = 0) := by omega
      simp [do_recvfrom, St.sys, St.rsp_send, St.rsp_send_data, h0, ht, hn, hn0] at hev
      rcases hev with h | h | h <;> subst h <;> simp [Event.zero_receive] at hz
  | err e =>
    have hte : (do_recvfrom cfg st length).1
        = transfer_error cfg (st.sys (Call.recvfrom st.sock.fd length)).1 := by
      simp [do_recvfrom, St.sys, h0]
    rw [hte] at hev
    rw [after_failed_receive_no_zero cfg st _ e ht h0 ev hev] at hz
    cases hz

/-- Claim C12: when the `recv` call of `do_recv`, or the `recvfrom` call of
`do_recvfrom`, returns 0, the operation returns 0, that call is the only thing
it does (no payload, no response line, no `close`), and the session is
unchanged. -/
theorem zero_receive_is_not_an_error (cfg : Config) (fuel : Nat) (s : Sock) (errno : Int)
    (env : Nat → Outcome) (length : Int) (op : Op) (ev : Event)
    (hop : op = Op.recv length ∨ op = Op.recvfrom length)
    (hev : ev ∈ (op.run cfg fuel (St.start s errno env)).1.trace)
    (hzero : ev.zero_receive = true) :
    (op.run cfg fuel (St.start s errno env)).2 = some 0 ∧
    (op.run cfg fuel (St.start s errno env)).1.trace = [ev] ∧
    (op.run cfg fuel (St.start s errno env)).1.sock = s := by
  rcases hop with h | h
  · subst h
    simp only [Op.run] at hev ⊢
    unfold do_recv at hev ⊢
    split at hev
    · rename_i hss
      rw [if_pos hss]
      split at hev
      · rename_i hp
        rw [if_pos hp]
        have := do_recv_on_zero cfg (St.start s errno env) _ length ev rfl hev hzero
        simpa [St.start] using this
      · simp [St.start] at hev
    · rename_i hss
      rw [if_neg hss]
      have := do_recv_on_zero cfg (St.start s errno env) _ length ev rfl hev hzero
      simpa [St.start] using this
  · subst h
    simp only [Op.run] at hev ⊢
    have := do_recvfrom_zero cfg (St.start s errno env) length ev rfl hev hzero
    simpa [St.start] using this

/-- Witness of claim C12: `recv` of up to 576 bytes on the open TCP client
returns 0. -/
theorem zero_receive_is_not_an_error_witness :
    (Op.run cfg_modem_tls 0 (St.start tcp_client 0 (env_ok 0)) (Op.recv 576)).2 = some 0 ∧
    (Op.run cfg_modem_tls 0 (St.start tcp_client 0 (env_ok 0)) (Op.recv 576)).1.trace
      = [Event.call (Call.recv 3 576) (Ret.ok 0)] ∧
    (Op.run cfg_modem_tls 0 (St.start tcp_client 0 (env_ok 0)) (Op.recv 576)).1.sock
      = tcp_client :=
  zero_receive_is_not_an_error cfg_modem_tls 0 tcp_client 0 (env_ok 0) 576 (Op.recv 576)
    (Event.call (Call.recv 3 576) (Ret.ok 0)) (Or.inl rfl) (by decide) rfl

/-- Claim C13, evaluated: with `rx_data` of `CONFIG_SLM_SOCKET_RX_MAX = 576`
bytes, `AT#XRECV=65535` on the open TCP client calls `recv` with length 65535
and `AT#XRECVFROM=65535` calls `recvfrom` with length 65535; neither is
rejected.  With the length omitted the calls get the length 576. -/
theorem receive_length_not_bounded :
    cfg_modem_tls.CONFIG_SLM_SOCKET_RX_MAX = 576 ∧
    calls (handle_at_recv cfg_modem_tls .AT_CMD_TYPE_SET_COMMAND [.string [], .num_int 65535]
        (St.start tcp_client 0 (env_ok 0))).1.trace = [Call.recv 3 65535] ∧
    (handle_at_recv cfg_modem_tls .AT_CMD_TYPE_SET_COMMAND [.string [], .num_int 65535]
        (St.start tcp_client 0 (env_ok 0))).2 = 0 ∧
    calls (handle_at_recvfrom cfg_modem_tls .AT_CMD_TYPE_SET_COMMAND
        [.string [], .num_int 65535] (St.start udp_client 0 (env_ok 0))).1.trace
      = [Call.recvfrom 3 65535] ∧
    (handle_at_recvfrom cfg_modem_tls .AT_CMD_TYPE_SET_COMMAND
        [.string [], .num_int 65535] (St.start udp_client 0 (env_ok 0))).2 = 0 ∧
    calls (handle_at_recv cfg_modem_tls .AT_CMD_TYPE_SET_COMMAND [.string []]
        (St.start tcp_client 0 (env_ok 0))).1.trace = [Call.recv 3 576] ∧
    calls (handle_at_recvfrom cfg_modem_tls .AT_CMD_TYPE_SET_COMMAND [.string []]
        (St.start udp_client 0 (env_ok 0))).1.trace = [Call.recvfrom 3 576] := by
  decide

/-! ## Address resolution -/

/-- Claim C18, evaluated: `do_sendto` of `PING` on the open UDP client, the
lookup and the `sendto` call succeeding, returns 0 without any `freeaddrinfo`;
`do_connect` on the open TCP client with `connect` failing (`ECONNRESET`)
returns without `freeaddrinfo`; the successful `do_connect` and the family
mismatch do call it. -/
theorem freeaddrinfo_missing :
    calls (do_sendto cfg_modem_tls 5
        (St.start udp_client 0 (env_list [Outcome.resolved [host_v4]] (Ret.ok 4)))
        ['h'] 1000 ['P', 'I', 'N', 'G']).1.trace
      = [Call.getaddrinfo ['h'],
         Call.sendto 3 ['P', 'I', 'N', 'G'] 4 (target host_v4 1000)] ∧
    (do_sendto cfg_modem_tls 5
        (St.start udp_client 0 (env_list [Outcome.resolved [host_v4]] (Ret.ok 4)))
        ['h'] 1000 ['P', 'I', 'N', 'G']).2 = some 0 ∧
    calls (do_connect cfg_modem_tls
        (St.start tcp_client 0
          (env_list [Outcome.resolved [host_v4], Outcome.of (Ret.err errno_ECONNRESET)]
            (Ret.ok 0)))
        ['h'] 1000).1.trace
      = [Call.getaddrinfo ['h'], Call.connect 3 (target host_v4 1000), Call.close 3] ∧
    (do_connect cfg_modem_tls
        (St.start tcp_client 0
          (env_list [Outcome.resolved [host_v4], Outcome.of (Ret.err errno_ECONNRESET)]
            (Ret.ok 0)))
        ['h'] 1000).2 = -104 ∧
    calls (do_connect cfg_modem_tls
        (St.start tcp_client 0 (env_list [Outcome.resolved [host_v4]] (Ret.ok 0)))
        ['h'] 1000).1.trace
      = [Call.getaddrinfo ['h'], Call.connect 3 (target host_v4 1000), Call.freeaddrinfo] ∧
    calls (do_connect cfg_modem_tls
        (St.start tcp_client 0 (env_list [Outcome.resolved [host_v6]] (Ret.ok 0)))
        ['h'] 1000).1.trace
      = [Call.getaddrinfo ['h'], Call.freeaddrinfo] := by
  decide

/-! ## Socket options -/

/-- Claim C19: for each option among `SO_TYPE`, `SO_PRIORITY` and `SO_PROTOCOL`,
`do_socketopt_get` returns 0, sends the single response
`#XSOCKETOPT: "not supported"`, makes no call (no `getsockopt`) and leaves the
session unchanged. -/
theorem get_unsupported_option (s : Sock) (errno : Int) (env : Nat → Outcome) (option : Int)
    (hopt : option = SO_TYPE ∨ option = SO_PRIORITY ∨ option = SO_PROTOCOL) :
    (do_socketopt_get (St.start s errno env) option).2 = 0 ∧
    (do_socketopt_get (St.start s errno env) option).1.trace
      = [Event.rsp Rsp.xsocketopt_not_supported] ∧
    (do_socketopt_get (St.start s errno env) option).1.sock = s := by
  rcases hopt with h | h | h <;> subst h <;>
    simp [do_socketopt_get, St.start, St.rsp_send, SO_TYPE, SO_PRIORITY, SO_PROTOCOL,
      SO_SILENCE_ALL, SO_IP_ECHO_REPLY, SO_IPV6_ECHO_REPLY, SO_TCP_SRV_SESSTIMEO, SO_ERROR,
      SO_RCVTIMEO, SO_SNDTIMEO]

/-- Witness of claim C19: the query of `SO_TYPE` on the open TCP client. -/
theorem get_unsupported_option_witness :
    (do_socketopt_get (St.start tcp_client 0 (env_ok 0)) SO_TYPE).2 = 0 ∧
    (do_socketopt_get (St.start tcp_client 0 (env_ok 0)) SO_TYPE).1.trace
      = [Event.rsp Rsp.xsocketopt_not_supported] ∧
    (do_socketopt_get (St.start tcp_client 0 (env_ok 0)) SO_TYPE).1.sock = tcp_client :=
  get_unsupported_option tcp_client 0 (env_ok 0) SO_TYPE (Or.inl rfl)

/-- Claim C20, evaluated: the query `AT#XSOCKETOPT=0,9999` of an unrecognized
option on the open TCP client returns 0, with no response and no call, where
the set of the same option returns `-ENOTSUP`. -/
theorem get_unknown_option_succeeds :
    (do_socketopt_get (St.start tcp_client 0 (env_ok 0)) 9999).2 = 0 ∧
    (do_socketopt_get (St.start tcp_client 0 (env_ok 0)) 9999).1.trace = [] ∧
    (handle_at_socketopt .AT_CMD_TYPE_SET_COMMAND [.string [], .num_int 0, .num_int 9999]
        (St.start tcp_client 0 (env_ok 0))).2 = 0 ∧
    (handle_at_socketopt .AT_CMD_TYPE_SET_COMMAND [.string [], .num_int 0, .num_int 9999]
        (St.start tcp_client 0 (env_ok 0))).1.trace = [] ∧
    (handle_at_socketopt .AT_CMD_TYPE_SET_COMMAND
        [.string [], .num_int 1, .num_int 9999, .num_int 1]
        (St.start tcp_client 0 (env_ok 0))).2 = -ENOTSUP := by
  decide

/-! ## Protocol selection -/

@[simp] theorem Errno.val_ne_zero (e : Errno) : ¬ (e.val = 0) := by
  have := e.pos; omega

theorem do_socket_open_created_ok (st : St) (f t p proto : Int) (v : Nat)
    (h0 : (st.env 0).ret = Ret.ok v) (ht : st.trace = []) :
    (do_socket_open_created (st.socket f t p) proto).2 = 0 ∧
    (do_socket_open_created (st.socket f t p) proto).1.trace
      = [Event.call (Call.socket f t p) (Ret.ok v),
         Event.rsp (Rsp.xsocket_open v st.sock.type st.sock.role proto)] ∧
    (do_socket_open_created (st.socket f t p) proto).1.sock.fd = v := by
  have hv : ¬ ((v : Int) < 0) := by omega
  simp [do_socket_open_created, St.socket, St.sys, St.setSock, St.rsp_send, h0, ht, hv]

theorem do_secure_socket_created_ok (cfg : Config) (st : St) (f t p pv proto : Int) (v : Nat)
    (h0 : (st.env 0).ret = Ret.ok v) (ht : st.trace = []) :
    (do_secure_socket_created cfg (st.socket f t p) pv proto).1.trace.head?
      = some (Event.call (Call.socket f t p) (Ret.ok v)) ∧
    (∀ f1 t1 p1 r1, Event.call (Call.socket f1 t1 p1) r1
      ∈ (do_secure_socket_created cfg (st.socket f t p) pv proto).1.trace →
      f1 = f ∧ t1 = t ∧ p1 = p) ∧
    (∀ line ∈ responses (do_secure_socket_created cfg (st.socket f t p) pv proto).1.trace,
      line = Rsp.xssocket_open v st.sock.type st.sock.role proto) ∧
    ((do_secure_socket_created cfg (st.socket f t p) pv proto).2 = 0 →
      responses (do_secure_socket_created cfg (st.socket f t p) pv proto).1.trace
        = [Rsp.xssocket_open v st.sock.type st.sock.role proto] ∧
      (do_secure_socket_created cfg (st.socket f t p) pv proto).1.sock.fd = v) := by
  have hv : ¬ ((v : Int) < 0) := by omega
  have hE : ¬ (EAGAIN = 0) := by decide
  cases hN : cfg.CONFIG_SLM_NATIVE_TLS <;> cases h1 : (st.env 1).ret <;>
    cases h2 : (st.env 2).ret <;> cases h3 : (st.env 3).ret <;>
    simp +contextual [do_secure_socket_created, do_secure_socket_attach, secure_error_exit,
      St.socket, St.sys, St.ext, St.setSock, St.rsp_send, h0, h1, h2, h3, hN, hv, ht, hE]

theorem open_session_stream (cfg : Config) (secure : Bool) (st : St) (pv : Int)
    (hfd : st.sock.fd = INVALID_SOCKET) (hs : st.sock.type = SOCK_STREAM) :
    open_session cfg secure st pv =
      if secure then
        do_secure_socket_created cfg (st.socket st.sock.family SOCK_STREAM IPPROTO_TLS_1_2) pv
          IPPROTO_TLS_1_2
      else do_socket_open_created (st.socket st.sock.family SOCK_STREAM IPPROTO_TCP)
        IPPROTO_TCP := by
  cases secure <;> simp [open_session, do_socket_open, do_secure_socket_open, hfd, hs]

theorem open_session_dgram (cfg : Config) (secure : Bool) (st : St) (pv : Int)
    (hfd : st.sock.fd = INVALID_SOCKET) (hd : st.sock.type = SOCK_DGRAM) :
    open_session cfg secure st pv =
      if secure then
        do_secure_socket_created cfg (st.socket st.sock.family SOCK_DGRAM IPPROTO_DTLS_1_2) pv
          IPPROTO_DTLS_1_2
      else do_socket_open_created (st.socket st.sock.family SOCK_DGRAM IPPROTO_UDP)
        IPPROTO_UDP := by
  have hne : ¬ (SOCK_DGRAM = SOCK_STREAM) := by decide
  cases secure <;> simp [open_session, do_socket_open, do_secure_socket_open, hfd, hd, hne]

theorem open_session_other (cfg : Config) (secure : Bool) (st : St) (pv : Int)
    (hfd : st.sock.fd = INVALID_SOCKET) (hs : st.sock.type ≠ SOCK_STREAM)
    (hd : st.sock.type ≠ SOCK_DGRAM) :
    open_session cfg secure st pv = (st, -ENOTSUP) := by
  cases secure <;> simp [open_session, do_socket_open, do_secure_socket_open, hfd, hs, hd]

/-- The statement of claim C15 for a type that has a protocol. -/
theorem open_session_created (cfg : Config) (secure : Bool) (s : Sock) (errno : Int)
    (env : Nat → Outcome) (pv proto : Int) (v : Nat) (r : St × Int)
    (h0 : (env 0).ret = Ret.ok v)
    (hr : r = if secure then
        do_secure_socket_created cfg ((St.start s errno env).socket s.family s.type proto) pv
          proto
      else do_socket_open_created ((St.start s errno env).socket s.family s.type proto) proto) :
    r.1.trace.head? = some (Event.call (Call.socket s.family s.type proto) (Ret.ok v)) ∧
    (∀ f t p r1, Event.call (Call.socket f t p) r1 ∈ r.1.trace →
      f = s.family ∧ t = s.type ∧ p = proto) ∧
    (∀ line ∈ responses r.1.trace, line = open_ack secure v s.type s.role proto) ∧
    (r.2 = 0 → responses r.1.trace = [open_ack secure v s.type s.role proto] ∧
      r.1.sock.fd = v) ∧
    (secure = false → r.2 = 0) := by
  subst hr
  cases secure with
  | true =>
    obtain ⟨h1, h2, h3, h4⟩ := do_secure_socket_created_ok cfg (St.start s errno env)
      s.family s.type proto pv proto v h0 rfl
    simp only [if_true, open_ack]
    exact ⟨h1, h2, h3, h4, by simp⟩
  | false =>
    obtain ⟨h1, h2, h3⟩ := do_socket_open_created_ok (St.start s errno env)
      s.family s.type proto proto v h0 rfl
    simp only [Bool.false_eq_true, if_false, open_ack]
    rw [h2]
    refine ⟨by simp, by simp +contextual, by simp [St.start],
      fun _ => ⟨by simp [St.start], h3⟩, fun _ => h1⟩

/-- Claim C15: an open (`do_socket_open`, or `do_secure_socket_open` when
`secure`) issued while CLOSED calls `socket` first and only once, with the
family and type of the session and the protocol of the specification (TCP, UDP,
TLS 1.2, DTLS 1.2); when `socket` succeeds with descriptor `v`, every response
is the acknowledgment (`#XSOCKET:` resp. `#XSSOCKET:`) with the fields
`(v, type, role, protocol)`, it is sent once when the open returns 0, and the
plain open does return 0; for every other type the open returns `-ENOTSUP`,
makes no call and leaves `fd == INVALID_SOCKET`. -/
theorem protocol_selection (cfg : Config) (secure : Bool) (s : Sock) (errno : Int)
    (env : Nat → Outcome) (peer_verify : Int) (hfd : s.fd = INVALID_SOCKET) :
    (∀ proto v, spec_protocol secure s.type = some proto → (env 0).ret = Ret.ok v →
      (open_session cfg secure (St.start s errno env) peer_verify).1.trace.head?
        = some (Event.call (Call.socket s.family s.type proto) (Ret.ok v)) ∧
      (∀ f t p r, Event.call (Call.socket f t p) r
        ∈ (open_session cfg secure (St.start s errno env) peer_verify).1.trace →
        f = s.family ∧ t = s.type ∧ p = proto) ∧
      (∀ line ∈ responses (open_session cfg secure (St.start s errno env) peer_verify).1.trace,
        line = open_ack secure v s.type s.role proto) ∧
      ((open_session cfg secure (St.start s errno env) peer_verify).2 = 0 →
        responses (open_session cfg secure (St.start s errno env) peer_verify).1.trace
          = [open_ack secure v s.type s.role proto] ∧
        (open_session cfg secure (St.start s errno env) peer_verify).1.sock.fd = v) ∧
      (secure = false → (open_session cfg secure (St.start s errno env) peer_verify).2 = 0)) ∧
    (spec_protocol secure s.type = none →
      (open_session cfg secure (St.start s errno env) peer_verify).2 = -ENOTSUP ∧
      (open_session cfg secure (St.start s errno env) peer_verify).1.trace = [] ∧
      (open_session cfg secure (St.start s errno env) peer_verify).1.sock.fd
        = INVALID_SOCKET) := by
  have hfd0 : (St.start s errno env).sock.fd = INVALID_SOCKET := hfd
  have hne : ¬ (SOCK_DGRAM = SOCK_STREAM) := by decide
  by_cases hs : s.type = SOCK_STREAM
  · refine ⟨fun proto v hp h0 => ?_, fun hn => ?_⟩
    · have hproto : proto = if secure then IPPROTO_TLS_1_2 else IPPROTO_TCP := by
        simp [spec_protocol, hs] at hp; exact hp.symm
      refine open_session_created cfg secure s errno env peer_verify proto v _ h0 ?_
      rw [open_session_stream cfg secure _ peer_verify hfd0 hs, hproto]
      cases secure <;> simp [St.start, hs]
    · simp [spec_protocol, hs] at hn
  · by_cases hd : s.type = SOCK_DGRAM
    · refine ⟨fun proto v hp h0 => ?_, fun hn => ?_⟩
      · have hproto : proto = if secure then IPPROTO_DTLS_1_2 else IPPROTO_UDP := by
          simp [spec_protocol, hd, hne] at hp; exact hp.symm
        refine open_session_created cfg secure s errno env peer_verify proto v _ h0 ?_
        rw [open_session_dgram cfg secure _ peer_verify hfd0 hd, hproto]
        cases secure <;> simp [St.start, hd]
      · simp [spec_protocol, hd, hne] at hn
    · refine ⟨fun proto v hp _ => ?_, fun _ => ?_⟩
      · simp [spec_protocol, hs, hd] at hp
      · rw [open_session_other cfg secure _ peer_verify hfd0 hs hd]
        exact ⟨rfl, rfl, hfd⟩

/-- Witness of claim C15: the secure open of a stream session, every call
succeeding with descriptor 3. -/
theorem protocol_selection_witness :
    (open_session cfg_modem_tls true
        (St.start { closed_session with type := SOCK_STREAM, family := AF_INET } 0 (env_ok 3))
        2).1.trace.head?
      = some (Event.call (Call.socket AF_INET SOCK_STREAM IPPROTO_TLS_1_2) (Ret.ok 3)) ∧
    responses (open_session cfg_modem_tls true
        (St.start { closed_session with type := SOCK_STREAM, family := AF_INET } 0 (env_ok 3))
        2).1.trace
      = [Rsp.xssocket_open 3 SOCK_STREAM AT_SOCKET_ROLE_CLIENT IPPROTO_TLS_1_2] ∧
    (open_session cfg_modem_tls true
        (St.start { closed_session with type := SOCK_STREAM, family := AF_INET } 0 (env_ok 3))
        2).1.sock.fd = 3 :=
  ⟨((protocol_selection cfg_modem_tls true
      { closed_session with type := SOCK_STREAM, family := AF_INET } 0 (env_ok 3) 2
      (by decide)).1 IPPROTO_TLS_1_2 3 (by decide) rfl).1,
   ((protocol_selection cfg_modem_tls true
      { closed_session with type := SOCK_STREAM, family := AF_INET } 0 (env_ok 3) 2
      (by decide)).1 IPPROTO_TLS_1_2 3 (by decide) rfl).2.2.2.1 (by decide)⟩

/-! ## The address family check -/

theorem targets_of_teardown {ev : Event} (dest : sockaddr) (h : ev.teardown = true) :
    ev.targets dest := by
  cases ev with
  | call c r => cases c <;> simp_all [Event.teardown, Event.targets]
  | rsp line => trivial
  | data b => trivial

theorem targets_append_teardown {t new : List Event} (dest : sockaddr)
    (ht : ∀ ev ∈ t, ev.targets dest) (hn : ∀ ev ∈ new, ev.teardown = true) :
    ∀ ev ∈ t ++ new, ev.targets dest := by
  intro ev hev
  rcases List.mem_append.mp hev with h | h
  · exact ht ev h
  · exact targets_of_teardown dest (hn ev h)

theorem close_and_fail_targets (cfg : Config) (st : St) (dest : sockaddr)
    (ht : ∀ ev ∈ st.trace, ev.targets dest) :
    ∀ ev ∈ (close_and_fail cfg st).1.trace, ev.targets dest := by
  obtain ⟨new, h1, h2⟩ := do_socket_close_new cfg st (-st.errno)
  simp only [close_and_fail]
  rw [h1]
  exact targets_append_teardown dest ht h2

theorem transfer_error_targets (cfg : Config) (st : St) (dest : sockaddr)
    (ht : ∀ ev ∈ st.trace, ev.targets dest) :
    ∀ ev ∈ (transfer_error cfg st).trace, ev.targets dest := by
  obtain ⟨new, h1, h2⟩ := transfer_error_new cfg st
  rw [h1]
  exact targets_append_teardown dest ht h2

theorem sys_targets (st : St) (c : Call) (dest : sockaddr)
    (ht : ∀ ev ∈ st.trace, ev.targets dest)
    (hc : ∀ r, (Event.call c r).targets dest) :
    ∀ ev ∈ (st.sys c).1.trace, ev.targets dest := by
  intro ev hev
  simp only [St.sys, List.mem_append, List.mem_singleton] at hev
  rcases hev with h | h
  · exact ht ev h
  · rw [h]; exact hc _

theorem set_tls_hostname_targets (cfg : Config) (st : St) (url : List Char) (dest : sockaddr)
    (ht : ∀ ev ∈ st.trace, ev.targets dest) :
    ∀ ev ∈ (set_tls_hostname cfg st url).1.trace, ev.targets dest := by
  unfold set_tls_hostname
  split
  · split
    · simp only []
      split
      · exact close_and_fail_targets cfg _ dest (sys_targets st _ dest ht (fun _ => trivial))
      · exact sys_targets st _ dest ht (fun _ => trivial)
    · simp only []
      split
      · exact close_and_fail_targets cfg _ dest (sys_targets st _ dest ht (fun _ => trivial))
      · exact sys_targets st _ dest ht (fun _ => trivial)
  · exact ht

theorem rsp_send_targets (st : St) (line : Rsp) (dest : sockaddr)
    (ht : ∀ ev ∈ st.trace, ev.targets dest) :
    ∀ ev ∈ (st.rsp_send line).trace, ev.targets dest := by
  intro ev hev
  simp only [St.rsp_send, List.mem_append, List.mem_singleton] at hev
  rcases hev with h | h
  · exact ht ev h
  · rw [h]; trivial

theorem do_connect_resolved_targets (cfg : Config) (st : St) (url : List Char) (port : Int)
    (res : addrinfo) (ht : ∀ ev ∈ st.trace, ev.targets (target res port)) :
    ∀ ev ∈ (do_connect_resolved cfg st url port res).1.trace, ev.targets (target res port) := by
  have hh := set_tls_hostname_targets cfg st url (target res port) ht
  cases hs : (set_tls_hostname cfg st url).2 with
  | some ret =>
    simp only [do_connect_resolved, hs]
    exact hh
  | none =>
    have hk := sys_targets (set_tls_hostname cfg st url).1
      (Call.connect (set_tls_hostname cfg st url).1.sock.fd (target res port))
      (target res port) hh (fun _ => rfl)
    simp only [do_connect_resolved, hs]
    split
    · exact close_and_fail_targets cfg _ _ hk
    · intro ev hev
      simp only [St.void, St.rsp_send, List.mem_append, List.mem_singleton] at hev
      rcases hev with (h | h) | h
      · exact hk ev h
      · rw [h]; trivial
      · rw [h]; trivial

theorem sendto_loop_targets (cfg : Config) (data : List Char) (dest : sockaddr) :
    ∀ (fuel : Nat) (st : St) (ret : Int) (offset : Nat),
      (∀ ev ∈ st.trace, ev.targets dest) →
      ∀ ev ∈ (sendto_loop cfg data dest fuel st ret offset).1.trace, ev.targets dest := by
  intro fuel
  induction fuel with
  | zero => intro st ret offset ht; exact ht
  | succ fuel ih =>
    intro st ret offset ht
    have hs := sys_targets st
      (Call.sendto st.sock.fd (data.drop offset) (data.length - offset) dest) dest ht
      (fun _ => rfl)
    unfold sendto_loop
    split
    · simp only []
      split
      · exact transfer_error_targets cfg _ dest hs
      · exact ih _ _ _ hs
    · exact ht

theorem do_sendto_resolved_targets (cfg : Config) (fuel : Nat) (st : St) (url : List Char)
    (port : Int) (data : List Char) (res : addrinfo)
    (ht : ∀ ev ∈ st.trace, ev.targets (target res port)) :
    ∀ ev ∈ (do_sendto_resolved cfg fuel st url port data res).1.trace,
      ev.targets (target res port) := by
  have hh := set_tls_hostname_targets cfg st url (target res port) ht
  cases hs : (set_tls_hostname cfg st url).2 with
  | some ret =>
    simp only [do_sendto_resolved, hs]
    exact hh
  | none =>
    have hl := sendto_loop_targets cfg data (target res port) fuel
      (set_tls_hostname cfg st url).1 0 0 hh
    cases h : (sendto_loop cfg data (target res port) fuel
        (set_tls_hostname cfg st url).1 0 0).2 with
    | none =>
      simp only [do_sendto_resolved, hs, h]
      exact hl
    | some ro =>
      simp only [do_sendto_resolved, hs, h]
      exact rsp_send_targets _ _ _ hl

/-- The address family check, with the target as `do_connect` and `do_sendto`
build it: on a mismatch both return `-EINVAL` after `getaddrinfo` and
`freeaddrinfo` only and leave the session unchanged; when the families agree
every `connect` and `sendto` call has that target, and an unsecured `do_connect`
does call `connect` with it. -/
theorem address_family_check_parts (cfg : Config) (fuel : Nat) (s : Sock) (errno : Int)
    (env : Nat → Outcome) (url : List Char) (port : Int) (data : List Char)
    (res : addrinfo) (rest : List addrinfo) (v : Nat)
    (hfam : s.family = AF_INET ∨ s.family = AF_INET6)
    (hret : (env 0).ret = Ret.ok v) (haddrs : (env 0).addrs = res :: rest) :
    (res.ai_family ≠ s.family →
      (do_connect cfg (St.start s errno env) url port).2 = -EINVAL ∧
      (do_connect cfg (St.start s errno env) url port).1.trace
        = [Event.call (Call.getaddrinfo url) (Ret.ok v),
           Event.call Call.freeaddrinfo (Ret.ok 0)] ∧
      (do_connect cfg (St.start s errno env) url port).1.sock = s ∧
      (do_sendto cfg fuel (St.start s errno env) url port data).2 = some (-EINVAL) ∧
      (do_sendto cfg fuel (St.start s errno env) url port data).1.trace
        = [Event.call (Call.getaddrinfo url) (Ret.ok v),
           Event.call Call.freeaddrinfo (Ret.ok 0)] ∧
      (do_sendto cfg fuel (St.start s errno env) url port data).1.sock = s) ∧
    (res.ai_family = s.family →
      (∀ ev ∈ (do_connect cfg (St.start s errno env) url port).1.trace,
        ev.targets (target res port)) ∧
      (∀ ev ∈ (do_sendto cfg fuel (St.start s errno env) url port data).1.trace,
        ev.targets (target res port)) ∧
      (s.sec_tag = INVALID_SEC_TAG →
        (calls (do_connect cfg (St.start s errno env) url port).1.trace).take 2
          = [Call.getaddrinfo url, Call.connect s.fd (target res port)])) := by
  have hne : ¬ (AF_INET6 = AF_INET) := by decide
  have hne2 : ¬ (AF_INET = AF_INET6) := by decide
  refine ⟨fun hdiff => ?_, fun hsame => ?_⟩
  · have hmis : family_mismatch s res := by
      unfold family_mismatch
      rcases hfam with h | h
      · exact Or.inl ⟨h, by rw [← h]; exact hdiff⟩
      · exact Or.inr ⟨h, by rw [← h]; exact hdiff⟩
    simp [do_connect, do_sendto, St.ext, St.void, St.start, hret, haddrs, hmis]
  · have hok : ¬ family_mismatch s res := by
      unfold family_mismatch
      rcases hfam with h | h
      · simp [h, hsame, hne2]
      · simp [h, hsame, hne]
    have ht0 : ∀ ev ∈ ((St.start s errno env).ext (Call.getaddrinfo url)).1.trace,
        ev.targets (target res port) := by
      intro ev hev
      simp only [St.ext, St.start, List.nil_append, List.mem_singleton] at hev
      rw [hev]; trivial
    have hc : do_connect cfg (St.start s errno env) url port
        = do_connect_resolved cfg ((St.start s errno env).ext (Call.getaddrinfo url)).1
            url port res := by
      simp [do_connect, St.ext, St.start, hret, haddrs, hok]
    have hs : do_sendto cfg fuel (St.start s errno env) url port data
        = do_sendto_resolved cfg fuel ((St.start s errno env).ext (Call.getaddrinfo url)).1
            url port data res := by
      simp [do_sendto, St.ext, St.start, hret, haddrs, hok]
    refine ⟨?_, ?_, fun hsec => ?_⟩
    · rw [hc]; exact do_connect_resolved_targets cfg _ url port res ht0
    · rw [hs]; exact do_sendto_resolved_targets cfg fuel _ url port data res ht0
    · rw [hc]
      cases h1 : (env 1).ret <;>
        simp [do_connect_resolved, set_tls_hostname, St.ext, St.start, St.sys, St.rsp_send,
          St.void, hsec, h1, hret, close_and_fail]
      rename_i e
      obtain ⟨new, hn, -⟩ := do_socket_close_new cfg
        { sock := s, errno := (e.val : Int), env := fun n => env (n + 1 + 1),
          trace := [Event.call (Call.getaddrinfo url) (Ret.ok v),
            Event.call (Call.connect s.fd (target res port)) (Ret.err e)] }
        (-(e.val : Int))
      rw [hn]
      simp

/-! ## The secure open -/

/-- What `handle_at_secure_socket` comes down to: it makes no call, or it is
`do_socket_close(0)`, or all parameters are read and it is
`do_secure_socket_open` on the session that holds them. -/
theorem handle_at_secure_socket_reduces (cfg : Config) (cmd_type : at_cmd_type)
    (list : at_param_list) (st : St) :
    calls (handle_at_secure_socket cfg cmd_type list st).1.trace = calls st.trace ∨
    handle_at_secure_socket cfg cmd_type list st = do_socket_close cfg st 0 ∨
    ∃ op t r tag pv hv,
      at_params_unsigned_short_get list 3 = .ok r ∧
      (r = AT_SOCKET_ROLE_SERVER ∨ r = AT_SOCKET_ROLE_CLIENT) ∧
      optional_unsigned_short list 5 5
        (if r = AT_SOCKET_ROLE_SERVER then TLS_PEER_VERIFY_NONE else TLS_PEER_VERIFY_REQUIRED)
        = .ok pv ∧
      handle_at_secure_socket cfg cmd_type list st
        = do_secure_socket_open cfg
            (st.setSock (fun s =>
              { s with
                  type := t
                  role := r
                  sec_tag := int_of_uint32_store tag
                  hostname_verify := hv
                  family := if op = AT_SOCKET_OPEN_IPV4 then AF_INET else AF_INET6 }))
            pv := by
  cases cmd_type with
  | AT_CMD_TYPE_UNKNOWN => exact Or.inl (by simp [handle_at_secure_socket])
  | AT_CMD_TYPE_READ_COMMAND =>
    refine Or.inl ?_
    simp only [handle_at_secure_socket]
    split <;> simp [St.rsp_send]
  | AT_CMD_TYPE_TEST_COMMAND => exact Or.inl (by simp [handle_at_secure_socket, St.rsp_send])
  | AT_CMD_TYPE_SET_COMMAND =>
    cases h1 : at_params_unsigned_short_get list 1 with
    | error err => exact Or.inl (by simp [handle_at_secure_socket, h1])
    | ok op =>
      by_cases hop : op = AT_SOCKET_OPEN_IPV4 ∨ op = AT_SOCKET_OPEN_IPV6
      · cases h2 : at_params_unsigned_short_get list 2 with
        | error err => exact Or.inl (by simp [handle_at_secure_socket, h1, hop, h2])
        | ok t =>
          cases h3 : at_params_unsigned_short_get list 3 with
          | error err =>
            exact Or.inl (by simp [handle_at_secure_socket, h1, hop, h2, h3, St.setSock])
          | ok r =>
            by_cases hr : r = AT_SOCKET_ROLE_SERVER ∨ r = AT_SOCKET_ROLE_CLIENT
            · cases h4 : at_params_unsigned_int_get list 4 with
              | error err =>
                refine Or.inl ?_
                rcases hr with hr | hr <;>
                  simp [handle_at_secure_socket, handle_at_secure_socket_open, h1, hop, h2, h3,
                    h4, hr, St.setSock]
              | ok tag =>
                cases h5 : optional_unsigned_short list 5 5
                  (if r = AT_SOCKET_ROLE_SERVER then TLS_PEER_VERIFY_NONE
                    else TLS_PEER_VERIFY_REQUIRED) with
                | error err =>
                  refine Or.inl ?_
                  have hne : ¬ (AT_SOCKET_ROLE_CLIENT = AT_SOCKET_ROLE_SERVER) := by decide
                  rcases hr with hr | hr <;> subst hr <;>
                    simp [handle_at_secure_socket, handle_at_secure_socket_open, h1, hop, h2,
                      h3, h4, hne, St.setSock] at h5 ⊢ <;> simp [h5]
                | ok pv =>
                  cases h6 : optional_unsigned_short list 6 6 0 with
                  | error err =>
                    refine Or.inl ?_
                    have hne : ¬ (AT_SOCKET_ROLE_CLIENT = AT_SOCKET_ROLE_SERVER) := by decide
                    rcases hr with hr | hr <;> subst hr <;>
                      simp [handle_at_secure_socket, handle_at_secure_socket_open, h1, hop, h2,
                        h3, h4, h6, hne, St.setSock] at h5 ⊢ <;> simp [h5]
                  | ok hv =>
                    refine Or.inr (Or.inr ⟨op, t, r, tag, pv, hv, rfl, hr, h5, ?_⟩)
                    have hne : ¬ (AT_SOCKET_ROLE_CLIENT = AT_SOCKET_ROLE_SERVER) := by decide
                    rcases hr with hr | hr <;> subst hr <;>
                      simp [handle_at_secure_socket, handle_at_secure_socket_open, h1, hop, h2,
                        h3, h4, h6, hne, St.setSock] at h5 ⊢ <;> simp [h5]
            · have hr1 : ¬ (r = AT_SOCKET_ROLE_SERVER) := fun h => hr (Or.inl h)
              have hr2 : ¬ (r = AT_SOCKET_ROLE_CLIENT) := fun h => hr (Or.inr h)
              exact Or.inl (by
                simp [handle_at_secure_socket, h1, hop, h2, h3, hr1, hr2, St.setSock])
      · simp only [handle_at_secure_socket, h1, if_neg hop]
        split
        · split
          · exact Or.inl rfl
          · exact Or.inr (Or.inl rfl)
        · exact Or.inl rfl

theorem do_secure_socket_created_atomic (cfg : Config) (st : St) (f t p pv proto : Int)
    (v0 : Nat) (f1 t1 p1 : Int) (ht : st.trace = [])
    (hsock : Event.call (Call.socket f1 t1 p1) (Ret.ok v0)
      ∈ (do_secure_socket_created cfg (st.socket f t p) pv proto).1.trace)
    (hfail : setup_failed (do_secure_socket_created cfg (st.socket f t p) pv proto).1.trace
      = true) :
    close_calls (do_secure_socket_created cfg (st.socket f t p) pv proto).1.trace
      = [(v0 : Int)] ∧
    responses (do_secure_socket_created cfg (st.socket f t p) pv proto).1.trace = [] ∧
    (do_secure_socket_created cfg (st.socket f t p) pv proto).2 < 0 ∧
    (do_secure_socket_created cfg (st.socket f t p) pv proto).1.sock.closed ∧
    (load_failed (do_secure_socket_created cfg (st.socket f t p) pv proto).1.trace = true →
      (do_secure_socket_created cfg (st.socket f t p) pv proto).2 = -EAGAIN) := by
  have hE : -EAGAIN < 0 := by decide
  cases h0 : (st.env 0).ret with
  | err e =>
    simp [do_secure_socket_created, St.socket, St.sys, St.setSock, h0, ht] at hsock
  | ok v =>
    have hv : ¬ ((v : Int) < 0) := by omega
    cases hN : cfg.CONFIG_SLM_NATIVE_TLS <;> cases h1 : (st.env 1).ret <;>
      cases h2 : (st.env 2).ret <;> cases h3 : (st.env 3).ret <;>
      simp [do_secure_socket_created, do_secure_socket_attach, secure_error_exit, St.socket,
        St.sys, St.ext, St.setSock, St.rsp_send, h0, h1, h2, h3, hN, hv, ht, hE,
        setup_failed, load_failed, close_calls, Event.setup_failure, Event.load_failure,
        Sock.closed, slm_at_tcpip_init] at hsock hfail ⊢
    all_goals exact hsock.2.symm

theorem mem_calls_of_mem {c : Call} {r : Ret} {t : List Event} (h : Event.call c r ∈ t) :
    c ∈ calls t := by
  unfold calls
  exact List.mem_filterMap.mpr ⟨_, h, rfl⟩

theorem do_secure_socket_open_atomic (cfg : Config) (st : St) (pv : Int)
    (v0 : Nat) (f1 t1 p1 : Int) (ht : st.trace = [])
    (hsock : Event.call (Call.socket f1 t1 p1) (Ret.ok v0)
      ∈ (do_secure_socket_open cfg st pv).1.trace)
    (hfail : setup_failed (do_secure_socket_open cfg st pv).1.trace = true) :
    close_calls (do_secure_socket_open cfg st pv).1.trace = [(v0 : Int)] ∧
    responses (do_secure_socket_open cfg st pv).1.trace = [] ∧
    (do_secure_socket_open cfg st pv).2 < 0 ∧
    (do_secure_socket_open cfg st pv).1.sock.closed ∧
    (load_failed (do_secure_socket_open cfg st pv).1.trace = true →
      (do_secure_socket_open cfg st pv).2 = -EAGAIN) := by
  unfold do_secure_socket_open at hsock hfail ⊢
  by_cases hfd : st.sock.fd = INVALID_SOCKET
  · rw [if_neg (not_not.mpr hfd)] at hsock hfail ⊢
    by_cases hs : st.sock.type = SOCK_STREAM
    · rw [if_pos hs] at hsock hfail ⊢
      exact do_secure_socket_created_atomic cfg st _ _ _ pv _ v0 f1 t1 p1 ht hsock hfail
    · rw [if_neg hs] at hsock hfail ⊢
      by_cases hd : st.sock.type = SOCK_DGRAM
      · rw [if_pos hd] at hsock hfail ⊢
        exact do_secure_socket_created_atomic cfg st _ _ _ pv _ v0 f1 t1 p1 ht hsock hfail
      · rw [if_neg hd] at hsock
        simp [ht] at hsock
  · rw [if_pos hfd] at hsock
    simp [ht] at hsock

/-- Claim C14: for every `AT#XSSOCKET` command issued while CLOSED in which
`socket` succeeds with descriptor `v` and the credential load or the
`setsockopt` of `TLS_SEC_TAG_LIST` or `TLS_PEER_VERIFY` fails, `close` is called
exactly once, on `v`; no response is sent (no `#XSSOCKET` acknowledgment); the
command returns a negative code, `-EAGAIN` when the credential load failed; and
the session has the CLOSED value afterwards. -/
theorem secure_open_atomic (cfg : Config) (cmd_type : at_cmd_type) (list : at_param_list)
    (s : Sock) (errno : Int) (env : Nat → Outcome) (v : Nat) (family type proto : Int)
    (hfd : s.fd = INVALID_SOCKET)
    (hsock : Event.call (Call.socket family type proto) (Ret.ok v)
      ∈ (handle_at_secure_socket cfg cmd_type list (St.start s errno env)).1.trace)
    (hfail : setup_failed
      (handle_at_secure_socket cfg cmd_type list (St.start s errno env)).1.trace = true) :
    close_calls (handle_at_secure_socket cfg cmd_type list (St.start s errno env)).1.trace
      = [(v : Int)] ∧
    responses (handle_at_secure_socket cfg cmd_type list (St.start s errno env)).1.trace = [] ∧
    (handle_at_secure_socket cfg cmd_type list (St.start s errno env)).2 < 0 ∧
    (handle_at_secure_socket cfg cmd_type list (St.start s errno env)).1.sock.closed ∧
    (load_failed (handle_at_secure_socket cfg cmd_type list (St.start s errno env)).1.trace
        = true →
      (handle_at_secure_socket cfg cmd_type list (St.start s errno env)).2 = -EAGAIN) := by
  rcases handle_at_secure_socket_reduces cfg cmd_type list (St.start s errno env) with
    h | h | ⟨op, t, r, tag, pv, hv, -, -, -, h⟩
  · have := mem_calls_of_mem hsock
    rw [h] at this
    simp [St.start] at this
  · rw [h, do_socket_close_closed cfg _ 0 hfd] at hsock
    simp [St.start] at hsock
  · rw [h] at hsock hfail ⊢
    exact do_secure_socket_open_atomic cfg _ pv v family type proto rfl hsock hfail

/-- Witness of claim C14: `AT#XSSOCKET=1,1,0,42` in the CLOSED state with the
native TLS stack; `socket` returns descriptor 3 and the credential load
fails. -/
theorem secure_open_atomic_witness :
    close_calls (handle_at_secure_socket cfg_native_tls .AT_CMD_TYPE_SET_COMMAND
        [.string [], .num_int 1, .num_int 1, .num_int 0, .num_int 42]
        (St.start closed_session 0 (env_of [Ret.ok 3, Ret.err errno_EIO] (Ret.ok 0)))).1.trace
      = [3] ∧
    responses (handle_at_secure_socket cfg_native_tls .AT_CMD_TYPE_SET_COMMAND
        [.string [], .num_int 1, .num_int 1, .num_int 0, .num_int 42]
        (St.start closed_session 0 (env_of [Ret.ok 3, Ret.err errno_EIO] (Ret.ok 0)))).1.trace
      = [] ∧
    (handle_at_secure_socket cfg_native_tls .AT_CMD_TYPE_SET_COMMAND
        [.string [], .num_int 1, .num_int 1, .num_int 0, .num_int 42]
        (St.start closed_session 0 (env_of [Ret.ok 3, Ret.err errno_EIO] (Ret.ok 0)))).2 < 0 ∧
    (handle_at_secure_socket cfg_native_tls .AT_CMD_TYPE_SET_COMMAND
        [.string [], .num_int 1, .num_int 1, .num_int 0, .num_int 42]
        (St.start closed_session 0
          (env_of [Ret.ok 3, Ret.err errno_EIO] (Ret.ok 0)))).1.sock.closed ∧
    (load_failed (handle_at_secure_socket cfg_native_tls .AT_CMD_TYPE_SET_COMMAND
        [.string [], .num_int 1, .num_int 1, .num_int 0, .num_int 42]
        (St.start closed_session 0 (env_of [Ret.ok 3, Ret.err errno_EIO] (Ret.ok 0)))).1.trace
        = true →
      (handle_at_secure_socket cfg_native_tls .AT_CMD_TYPE_SET_COMMAND
        [.string [], .num_int 1, .num_int 1, .num_int 0, .num_int 42]
        (St.start closed_session 0 (env_of [Ret.ok 3, Ret.err errno_EIO] (Ret.ok 0)))).2
        = -EAGAIN) :=
  secure_open_atomic cfg_native_tls .AT_CMD_TYPE_SET_COMMAND
    [.string [], .num_int 1, .num_int 1, .num_int 0, .num_int 42]
    closed_session 0 (env_of [Ret.ok 3, Ret.err errno_EIO] (Ret.ok 0)) 3
    AF_INET SOCK_STREAM IPPROTO_TLS_1_2 (by decide) (by decide) (by decide)

/-- The run of the witness of claim C14, in full: `socket`, the failed
credential load, `close` of descriptor 3; the command returns `-EAGAIN`; and
the run in which `setsockopt(TLS_PEER_VERIFY)` fails with `EIO` returns `-5`
after the `close`. -/
theorem secure_open_atomic_example :
    (handle_at_secure_socket cfg_native_tls .AT_CMD_TYPE_SET_COMMAND
        [.string [], .num_int 1, .num_int 1, .num_int 0, .num_int 42]
        (St.start closed_session 0 (env_of [Ret.ok 3, Ret.err errno_EIO] (Ret.ok 0)))).1.trace
      = [Event.call (Call.socket AF_INET SOCK_STREAM IPPROTO_TLS_1_2) (Ret.ok 3),
         Event.call (Call.slm_tls_loadcrdl 42) (Ret.err errno_EIO),
         Event.call (Call.close 3) (Ret.ok 0)] ∧
    (handle_at_secure_socket cfg_native_tls .AT_CMD_TYPE_SET_COMMAND
        [.string [], .num_int 1, .num_int 1, .num_int 0, .num_int 42]
        (St.start closed_session 0 (env_of [Ret.ok 3, Ret.err errno_EIO] (Ret.ok 0)))).2
      = -EAGAIN ∧
    (handle_at_secure_socket cfg_modem_tls .AT_CMD_TYPE_SET_COMMAND
        [.string [], .num_int 1, .num_int 1, .num_int 0, .num_int 42]
        (St.start closed_session 0
          (env_of [Ret.ok 3, Ret.ok 0, Ret.err errno_EIO] (Ret.ok 0)))).1.trace
      = [Event.call (Call.socket AF_INET SOCK_STREAM IPPROTO_TLS_1_2) (Ret.ok 3),
         Event.call (Call.setsockopt 3 SOL_TLS TLS_SEC_TAG_LIST (OptVal.sec_tag_list [42]))
           (Ret.ok 0),
         Event.call (Call.setsockopt 3 SOL_TLS TLS_PEER_VERIFY (OptVal.int 2))
           (Ret.err errno_EIO),
         Event.call (Call.close 3) (Ret.ok 0)] ∧
    (handle_at_secure_socket cfg_modem_tls .AT_CMD_TYPE_SET_COMMAND
        [.string [], .num_int 1, .num_int 1, .num_int 0, .num_int 42]
        (St.start closed_session 0
          (env_of [Ret.ok 3, Ret.ok 0, Ret.err errno_EIO] (Ret.ok 0)))).2 = -5 := by
  decide

/-! ## The peer verification level -/

theorem do_secure_socket_created_peer_verify (cfg : Config) (st : St) (f t p pv proto : Int)
    (fd : Int) (val : OptVal) (r : Ret) (ht : st.trace = [])
    (hw : Event.call (Call.setsockopt fd SOL_TLS TLS_PEER_VERIFY val) r
      ∈ (do_secure_socket_created cfg (st.socket f t p) pv proto).1.trace) :
    val = OptVal.int pv := by
  have hne : ¬ (TLS_PEER_VERIFY = TLS_SEC_TAG_LIST) := by decide
  cases h0 : (st.env 0).ret with
  | err e =>
    simp [do_secure_socket_created, St.socket, St.sys, St.setSock, h0, ht] at hw
  | ok v =>
    have hv : ¬ ((v : Int) < 0) := by omega
    cases hN : cfg.CONFIG_SLM_NATIVE_TLS <;> cases h1 : (st.env 1).ret <;>
      cases h2 : (st.env 2).ret <;> cases h3 : (st.env 3).ret <;>
      simp [do_secure_socket_created, do_secure_socket_attach, secure_error_exit, St.socket,
        St.sys, St.ext, St.setSock, St.rsp_send, h0, h1, h2, h3, hN, hv, ht, hne] at hw
    all_goals exact hw.1.2

theorem do_secure_socket_open_peer_verify (cfg : Config) (st : St) (pv : Int)
    (fd : Int) (val : OptVal) (r : Ret) (ht : st.trace = [])
    (hw : Event.call (Call.setsockopt fd SOL_TLS TLS_PEER_VERIFY val) r
      ∈ (do_secure_socket_open cfg st pv).1.trace) :
    val = OptVal.int pv := by
  unfold do_secure_socket_open at hw
  split at hw
  · simp [ht] at hw
  · split at hw
    · exact do_secure_socket_created_peer_verify cfg st _ _ _ pv _ fd val r ht hw
    · split at hw
      · exact do_secure_socket_created_peer_verify cfg st _ _ _ pv _ fd val r ht hw
      · simp [ht] at hw

/-- The values that can be written to `TLS_PEER_VERIFY`: for every
`AT#XSSOCKET` SET command, a value written to the option is the given
`<peer_verify>` when the command has that parameter, `TLS_PEER_VERIFY_NONE`
when it has none and the role is server, and `TLS_PEER_VERIFY_REQUIRED` when it
has none and the role is client; and an open whose role is neither client nor
server returns `-EINVAL` without any call. -/
theorem peer_verify_default_parts (cfg : Config) (list : at_param_list) (s : Sock) (errno : Int)
    (env : Nat → Outcome) :
    (∀ fd val r, Event.call (Call.setsockopt fd SOL_TLS TLS_PEER_VERIFY val) r
        ∈ (handle_at_secure_socket cfg .AT_CMD_TYPE_SET_COMMAND list
            (St.start s errno env)).1.trace →
      ∃ role, at_params_unsigned_short_get list 3 = .ok role ∧
        (at_params_valid_count_get list > 5 →
          ∃ pv, at_params_unsigned_short_get list 5 = .ok pv ∧ val = OptVal.int pv) ∧
        (¬ at_params_valid_count_get list > 5 →
          (role = AT_SOCKET_ROLE_SERVER ∧ val = OptVal.int TLS_PEER_VERIFY_NONE) ∨
          (role = AT_SOCKET_ROLE_CLIENT ∧ val = OptVal.int TLS_PEER_VERIFY_REQUIRED))) ∧
    (∀ op type role, at_params_unsigned_short_get list 1 = .ok op →
      (op = AT_SOCKET_OPEN_IPV4 ∨ op = AT_SOCKET_OPEN_IPV6) →
      at_params_unsigned_short_get list 2 = .ok type →
      at_params_unsigned_short_get list 3 = .ok role →
      role ≠ AT_SOCKET_ROLE_SERVER → role ≠ AT_SOCKET_ROLE_CLIENT →
      (handle_at_secure_socket cfg .AT_CMD_TYPE_SET_COMMAND list (St.start s errno env)).2
        = -EINVAL ∧
      (handle_at_secure_socket cfg .AT_CMD_TYPE_SET_COMMAND list
        (St.start s errno env)).1.trace = []) := by
  refine ⟨fun fd val r hw => ?_, fun op type role h1 hop h2 h3 hs hc => ?_⟩
  · rcases handle_at_secure_socket_reduces cfg .AT_CMD_TYPE_SET_COMMAND list
      (St.start s errno env) with h | h | ⟨op, t, role, tag, pv, hv, h3, hrole, h5, h⟩
    · have := mem_calls_of_mem hw
      rw [h] at this
      simp [St.start] at this
    · rw [h] at hw
      obtain ⟨new, hn, ht⟩ := do_socket_close_new cfg (St.start s errno env) 0
      rw [hn] at hw
      simp only [St.start, List.nil_append] at hw
      have := ht _ hw
      simp [Event.teardown] at this
    · rw [h] at hw
      have hval := do_secure_socket_open_peer_verify cfg _ pv fd val r rfl hw
      refine ⟨role, h3, fun hcount => ⟨pv, ?_, hval⟩, fun hcount => ?_⟩
      · simpa [optional_unsigned_short, hcount] using h5
      · have hne : ¬ (AT_SOCKET_ROLE_CLIENT = AT_SOCKET_ROLE_SERVER) := by decide
        simp only [optional_unsigned_short, if_neg hcount] at h5
        rcases hrole with hr | hr
        · subst hr
          simp at h5
          exact Or.inl ⟨rfl, by rw [hval, h5]⟩
        · subst hr
          simp [hne] at h5
          exact Or.inr ⟨rfl, by rw [hval, h5]⟩
  · simp [handle_at_secure_socket, h1, hop, h2, h3, hs, hc, St.setSock, St.start]

/-- The values written to `TLS_PEER_VERIFY` by three commands in the CLOSED
state, every call succeeding: `AT#XSSOCKET=1,1,1,42` (server) writes 0,
`AT#XSSOCKET=1,1,0,42` (client) writes 2, `AT#XSSOCKET=1,1,0,42,1` writes 1. -/
theorem peer_verify_default_example :
    calls (handle_at_secure_socket cfg_modem_tls .AT_CMD_TYPE_SET_COMMAND
        [.string [], .num_int 1, .num_int 1, .num_int 1, .num_int 42]
        (St.start closed_session 0 (env_ok 3))).1.trace
      = [Call.socket AF_INET SOCK_STREAM IPPROTO_TLS_1_2,
         Call.setsockopt 3 SOL_TLS TLS_SEC_TAG_LIST (OptVal.sec_tag_list [42]),
         Call.setsockopt 3 SOL_TLS TLS_PEER_VERIFY (OptVal.int TLS_PEER_VERIFY_NONE)] ∧
    calls (handle_at_secure_socket cfg_modem_tls .AT_CMD_TYPE_SET_COMMAND
        [.string [], .num_int 1, .num_int 1, .num_int 0, .num_int 42]
        (St.start closed_session 0 (env_ok 3))).1.trace
      = [Call.socket AF_INET SOCK_STREAM IPPROTO_TLS_1_2,
         Call.setsockopt 3 SOL_TLS TLS_SEC_TAG_LIST (OptVal.sec_tag_list [42]),
         Call.setsockopt 3 SOL_TLS TLS_PEER_VERIFY (OptVal.int TLS_PEER_VERIFY_REQUIRED)] ∧
    calls (handle_at_secure_socket cfg_modem_tls .AT_CMD_TYPE_SET_COMMAND
        [.string [], .num_int 1, .num_int 1, .num_int 0, .num_int 42, .num_int 1]
        (St.start closed_session 0 (env_ok 3))).1.trace
      = [Call.socket AF_INET SOCK_STREAM IPPROTO_TLS_1_2,
         Call.setsockopt 3 SOL_TLS TLS_SEC_TAG_LIST (OptVal.sec_tag_list [42]),
         Call.setsockopt 3 SOL_TLS TLS_PEER_VERIFY (OptVal.int 1)] := by
  decide

/-! ## Transient failures -/

@[simp] theorem close_calls_nil : close_calls [] = [] := rfl

@[simp] theorem close_calls_append (a b : List Event) :
    close_calls (a ++ b) = close_calls a ++ close_calls b := by
  simp [close_calls]

@[simp] theorem status_notifications_nil : status_notifications [] = [] := rfl

@[simp] theorem status_notifications_append (a b : List Event) :
    status_notifications (a ++ b) = status_notifications a ++ status_notifications b := by
  simp [status_notifications]

theorem transport_failures_teardown {new : List Event}
    (h : ∀ ev ∈ new, ev.teardown = true) : transport_failures new = [] := by
  induction new with
  | nil => rfl
  | cons ev rest ih =>
    have hev := h ev (List.mem_cons_self _ _)
    have hrest := ih (fun x hx => h x (List.mem_cons_of_mem _ hx))
    cases ev with
    | call c r =>
      cases c <;> simp_all [Event.teardown, Call.transport]
    | rsp line => simpa using hrest
    | data b => simp [Event.teardown] at hev

theorem transfer_error_no_failure (cfg : Config) (st : St) :
    transport_failures (transfer_error cfg st).trace = transport_failures st.trace := by
  obtain ⟨new, h1, h2⟩ := transfer_error_new cfg st
  rw [h1, transport_failures_append, transport_failures_teardown h2, List.append_nil]

theorem close_and_fail_no_failure (cfg : Config) (st : St) :
    transport_failures (close_and_fail cfg st).1.trace = transport_failures st.trace := by
  obtain ⟨new, h1, h2⟩ := do_socket_close_new cfg st (-st.errno)
  simp only [close_and_fail]
  rw [h1, transport_failures_append, transport_failures_teardown h2, List.append_nil]

theorem same_observations.refl (st : St) : same_observations st st :=
  ⟨rfl, rfl, rfl, rfl, rfl⟩

theorem keeps_on_transient.of_same {st0 st1 st : St} {res : Option Int}
    (hs : same_observations st0 st1) (h : keeps_on_transient st1 st res) :
    keeps_on_transient st0 st res := by
  obtain ⟨h1, h2, h3, h4, h5⟩ := hs
  unfold keeps_on_transient at h ⊢
  rw [h1, h2, h3, h4, h5] at h
  exact h

theorem keeps_on_transient.rsp_send {st0 st : St} {res : Option Int} (line : Rsp)
    (hline : ∀ error, line ≠ Rsp.xsocket_closed error ∧ line ≠ Rsp.xsocket_error error)
    (h : keeps_on_transient st0 st res) : keeps_on_transient st0 (st.rsp_send line) res := by
  have hcl : closures [Event.rsp line] = [] := by
    cases line <;> simp_all [closures]
  have hsn : status_notifications [Event.rsp line] = [] := by
    cases line <;> simp_all [status_notifications]
  unfold keeps_on_transient at h ⊢
  simp only [St.rsp_send, transport_failures_append, close_calls_append, closures_append,
    status_notifications_append, hcl, hsn, List.append_nil]
  simpa [close_calls] using h

/-- A failed transport call followed by `transfer_error`, seen from the state
before the call. -/
theorem keeps_after_transfer_error (cfg : Config) (st : St) (c : Call) (e : Errno)
    (hc : c.transport = true) (h0 : (st.env 0).ret = Ret.err e) :
    keeps_on_transient st (transfer_error cfg (st.sys c).1)
      (some (-(transfer_error cfg (st.sys c).1).errno)) := by
  have herr : (st.sys c).1.errno = (e.val : Int) := by simp [St.sys, h0]
  refine Or.inr ⟨e, ?_, fun hsoft => ?_⟩
  · rw [transfer_error_no_failure]
    simp [St.sys, h0, hc]
  · have hh : ¬ ((st.sys c).1.errno ≠ EAGAIN ∧ (st.sys c).1.errno ≠ ETIMEDOUT) := by
      rw [herr]; exact hsoft
    have hte : transfer_error cfg (st.sys c).1
        = (st.sys c).1.rsp_send (Rsp.xsocket_error (-(st.sys c).1.errno)) := by
      unfold transfer_error
      rw [if_neg hh]
    rw [hte]
    cases c <;> simp [Call.transport] at hc <;>
      simp [St.rsp_send, St.sys, h0, close_calls, closures, status_notifications]

theorem keeps_on_transient.map_res {st0 st : St} {res res1 : Option Int}
    (h : keeps_on_transient st0 st res)
    (hres : ∀ e : Errno, res = some (-(e.val : Int)) → res1 = some (-(e.val : Int))) :
    keeps_on_transient st0 st res1 := by
  rcases h with h | ⟨e, he, hh⟩
  · exact Or.inl h
  · refine Or.inr ⟨e, he, fun hsoft => ?_⟩
    obtain ⟨h1, h2, h3, h4, h5⟩ := hh hsoft
    exact ⟨h1, h2, h3, h4, hres e h5⟩

theorem do_recv_on_keeps (cfg : Config) (st : St) (sockfd length : Int) :
    keeps_on_transient st (do_recv_on cfg st sockfd length).1
      (some (do_recv_on cfg st sockfd length).2) := by
  unfold do_recv_on
  cases h0 : (st.env 0).ret with
  | ok v =>
    have hv : ¬ ((v : Int) < 0) := by omega
    by_cases hz : v = 0
    · exact Or.inl (by simp [St.sys, h0, hz, Call.transport])
    · exact Or.inl (by
        simp [St.sys, St.rsp_send, St.rsp_send_data, h0, hz, hv, Call.transport])
  | err e =>
    have := keeps_after_transfer_error cfg st (Call.recv sockfd length) e rfl h0
    simpa [St.sys, h0] using this

theorem do_recv_keeps (cfg : Config) (st : St) (length : Int) :
    keeps_on_transient st (do_recv cfg st length).1 (some (do_recv cfg st length).2) := by
  unfold do_recv
  split
  · split
    · exact do_recv_on_keeps cfg st _ length
    · exact Or.inl rfl
  · exact do_recv_on_keeps cfg st _ length

theorem do_recvfrom_keeps (cfg : Config) (st : St) (length : Int) :
    keeps_on_transient st (do_recvfrom cfg st length).1
      (some (do_recvfrom cfg st length).2) := by
  unfold do_recvfrom
  cases h0 : (st.env 0).ret with
  | ok v =>
    have hv : ¬ ((v : Int) < 0) := by omega
    by_cases hz : v = 0
    · exact Or.inl (by simp [St.sys, h0, hz, Call.transport])
    · exact Or.inl (by
        simp [St.sys, St.rsp_send, St.rsp_send_data, h0, hz, hv, Call.transport])
  | err e =>
    have := keeps_after_transfer_error cfg st (Call.recvfrom st.sock.fd length) e rfl h0
    simpa [St.sys, h0] using this

theorem send_loop_keeps (cfg : Config) (sockfd : Int) (data : List Char) :
    ∀ (fuel : Nat) (st : St) (ret : Int) (offset : Nat),
      keeps_on_transient st (send_loop cfg sockfd data fuel st ret offset).1
        ((send_loop cfg sockfd data fuel st ret offset).2.map Prod.fst) := by
  intro fuel
  induction fuel with
  | zero => intro st ret offset; exact Or.inl rfl
  | succ fuel ih =>
    intro st ret offset
    unfold send_loop
    by_cases hlt : offset < data.length
    · cases h0 : (st.env 0).ret with
      | ok v =>
        have hv : ¬ ((v : Int) < 0) := by omega
        have hsame : same_observations st
            (st.sys (Call.send sockfd (data.drop offset) (data.length - offset))).1 := by
          simp [same_observations, St.sys, h0, Call.transport, close_calls, closures,
            status_notifications]
        have := (ih (st.sys (Call.send sockfd (data.drop offset) (data.length - offset))).1
          (v : Int) ((offset + v) % 2 ^ 32)).of_same hsame
        simpa [St.sys, h0, hlt, hv] using this
      | err e =>
        have := keeps_after_transfer_error cfg st
          (Call.send sockfd (data.drop offset) (data.length - offset)) e rfl h0
        simpa [St.sys, h0, hlt] using this
    · exact Or.inl (by simp [hlt])

theorem xsend_is_no_notification (offset error : Int) :
    Rsp.xsend offset ≠ Rsp.xsocket_closed error ∧
    Rsp.xsend offset ≠ Rsp.xsocket_error error := by
  constructor <;> intro h <;> cases h

theorem xsendto_is_no_notification (offset error : Int) :
    Rsp.xsendto offset ≠ Rsp.xsocket_closed error ∧
    Rsp.xsendto offset ≠ Rsp.xsocket_error error := by
  constructor <;> intro h <;> cases h

theorem negative_result (r : Int) (e : Errno) (h : some r = some (-(e.val : Int))) :
    some (if r ≥ 0 then 0 else r) = some (-(e.val : Int)) := by
  have hr : r = -(e.val : Int) := Option.some.inj h
  have hneg : ¬ (r ≥ 0) := by
    have := e.cast_pos
    omega
  rw [if_neg hneg, hr]

theorem do_send_on_keeps (cfg : Config) (fuel : Nat) (st : St) (sockfd : Int)
    (data : List Char) :
    keeps_on_transient st (do_send_on cfg fuel st sockfd data).1
      (do_send_on cfg fuel st sockfd data).2 := by
  have hl := send_loop_keeps cfg sockfd data fuel st 0 0
  cases h : (send_loop cfg sockfd data fuel st 0 0).2 with
  | none =>
    simp only [do_send_on, h]
    simpa [h] using hl
  | some ro =>
    obtain ⟨r, o⟩ := ro
    simp only [do_send_on, h]
    rw [h] at hl
    exact (hl.map_res (negative_result r)).rsp_send _ (xsend_is_no_notification _)

theorem do_send_keeps (cfg : Config) (fuel : Nat) (st : St) (data : List Char) :
    keeps_on_transient st (do_send cfg fuel st data).1 (do_send cfg fuel st data).2 := by
  unfold do_send
  split
  · split
    · exact do_send_on_keeps cfg fuel st _ data
    · exact Or.inl rfl
  · exact do_send_on_keeps cfg fuel st _ data

theorem sendto_loop_keeps (cfg : Config) (data : List Char) (dest : sockaddr) :
    ∀ (fuel : Nat) (st : St) (ret : Int) (offset : Nat),
      keeps_on_transient st (sendto_loop cfg data dest fuel st ret offset).1
        ((sendto_loop cfg data dest fuel st ret offset).2.map Prod.fst) := by
  intro fuel
  induction fuel with
  | zero => intro st ret offset; exact Or.inl rfl
  | succ fuel ih =>
    intro st ret offset
    unfold sendto_loop
    by_cases hlt : offset < data.length
    · cases h0 : (st.env 0).ret with
      | ok v =>
        by_cases hv : (v : Int) ≤ 0
        · refine Or.inl ?_
          simp only [hlt, if_true, St.sys, h0, Ret.value_ok, hv]
          rw [transfer_error_no_failure]
          simp [Call.transport]
        · have hsame : same_observations st
              (st.sys (Call.sendto st.sock.fd (data.drop offset)
                (data.length - offset) dest)).1 := by
            simp [same_observations, St.sys, h0, Call.transport, close_calls, closures,
              status_notifications]
          have := (ih (st.sys (Call.sendto st.sock.fd (data.drop offset)
            (data.length - offset) dest)).1
            (v : Int) ((offset + v) % 2 ^ 32)).of_same hsame
          simpa [St.sys, h0, hlt, hv] using this
      | err e =>
        have := keeps_after_transfer_error cfg st
          (Call.sendto st.sock.fd (data.drop offset) (data.length - offset) dest) e rfl h0
        simpa [St.sys, h0, hlt] using this
    · exact Or.inl (by simp [hlt])

/-- The block on the security tag, seen from the transfer that follows it: it
makes no transport call, and when it does not return early the session and the
observations are the same. -/
theorem set_tls_hostname_same (cfg : Config) (st : St) (url : List Char) :
    transport_failures (set_tls_hostname cfg st url).1.trace = transport_failures st.trace ∧
    ((set_tls_hostname cfg st url).2 = none →
      same_observations st (set_tls_hostname cfg st url).1) := by
  have key : ∀ val : OptVal,
      transport_failures (close_and_fail cfg
        (st.sys (Call.setsockopt st.sock.fd SOL_TLS TLS_HOSTNAME val)).1).1.trace
        = transport_failures st.trace := by
    intro val
    rw [close_and_fail_no_failure]
    simp [St.sys, Call.transport]
  unfold set_tls_hostname
  by_cases hs : st.sock.sec_tag = INVALID_SEC_TAG
  · simp [hs, same_observations]
  · by_cases hv : st.sock.hostname_verify = 0
    · cases h0 : (st.env 0).ret with
      | ok v =>
        simp [hs, hv, St.sys, h0, Call.transport, same_observations, close_calls, closures,
          status_notifications]
      | err e =>
        have := key OptVal.null
        simp [hs, hv, St.sys, h0] at this ⊢
        exact this
    · cases h0 : (st.env 0).ret with
      | ok v =>
        simp [hs, hv, St.sys, h0, Call.transport, same_observations, close_calls, closures,
          status_notifications]
      | err e =>
        have := key (OptVal.str url)
        simp [hs, hv, St.sys, h0] at this ⊢
        exact this

theorem do_sendto_resolved_keeps (cfg : Config) (fuel : Nat) (st : St) (url : List Char)
    (port : Int) (data : List Char) (res : addrinfo) :
    keeps_on_transient st (do_sendto_resolved cfg fuel st url port data res).1
      (do_sendto_resolved cfg fuel st url port data res).2 := by
  obtain ⟨h1, h2⟩ := set_tls_hostname_same cfg st url
  cases hh : (set_tls_hostname cfg st url).2 with
  | some ret =>
    simp only [do_sendto_resolved, hh]
    exact Or.inl h1
  | none =>
    have hl := (sendto_loop_keeps cfg data (target res port) fuel
      (set_tls_hostname cfg st url).1 0 0).of_same (h2 hh)
    cases h : (sendto_loop cfg data (target res port) fuel
        (set_tls_hostname cfg st url).1 0 0).2 with
    | none =>
      simp only [do_sendto_resolved, hh, h]
      simpa [h] using hl
    | some ro =>
      obtain ⟨r, o⟩ := ro
      simp only [do_sendto_resolved, hh, h]
      rw [h] at hl
      exact (hl.map_res (negative_result r)).rsp_send _ (xsendto_is_no_notification _)

theorem do_sendto_keeps (cfg : Config) (fuel : Nat) (st : St) (url : List Char)
    (port : Int) (data : List Char) :
    keeps_on_transient st (do_sendto cfg fuel st url port data).1
      (do_sendto cfg fuel st url port data).2 := by
  have hsame : same_observations st (st.ext (Call.getaddrinfo url)).1 := by
    simp [same_observations, St.ext, Call.transport, close_calls, closures,
      status_notifications]
  simp only [do_sendto]
  split
  · exact Or.inl (by simp [St.ext, Call.transport])
  · split
    · exact Or.inl (by simp [St.ext, St.void, Call.transport])
    · exact (do_sendto_resolved_keeps cfg fuel (st.ext (Call.getaddrinfo url)).1 url port
        data _).of_same hsame

theorem Op.run_keeps (cfg : Config) (fuel : Nat) (st : St) (op : Op)
    (hop : op.transfer = true) :
    keeps_on_transient st (op.run cfg fuel st).1 (op.run cfg fuel st).2 := by
  cases op with
  | bind port => simp [Op.transfer] at hop
  | connect url port => simp [Op.transfer] at hop
  | listen => simp [Op.transfer] at hop
  | accept => simp [Op.transfer] at hop
  | send data => exact do_send_keeps cfg fuel st data
  | recv length => exact do_recv_keeps cfg st length
  | sendto url port data => exact do_sendto_keeps cfg fuel st url port data
  | recvfrom length => exact do_recvfrom_keeps cfg st length

/-- Claim C11: for each of send, recv, sendto and recvfrom, on any session (open
or not), with any arguments and any behaviour of the environment: if the
transfer call fails with `EAGAIN` or `ETIMEDOUT`, then the session after the
operation equals the session before it, no `close` was called, no closure
notification was sent, exactly one status notification `#XSOCKET: <-errno>`
with the negated error number was sent, and the operation returns the negated
error number. -/
theorem transient_failure_keeps_session (cfg : Config) (fuel : Nat) (s : Sock) (errno : Int)
    (env : Nat → Outcome) (op : Op) (e : Errno)
    (hop : op.transfer = true)
    (hfail : e ∈ transport_failures (op.run cfg fuel (St.start s errno env)).1.trace)
    (htransient : (e.val : Int) = EAGAIN ∨ (e.val : Int) = ETIMEDOUT) :
    (op.run cfg fuel (St.start s errno env)).1.sock = s ∧
    close_calls (op.run cfg fuel (St.start s errno env)).1.trace = [] ∧
    closures (op.run cfg fuel (St.start s errno env)).1.trace = [] ∧
    status_notifications (op.run cfg fuel (St.start s errno env)).1.trace
      = [-(e.val : Int)] ∧
    (op.run cfg fuel (St.start s errno env)).2 = some (-(e.val : Int)) := by
  rcases Op.run_keeps cfg fuel (St.start s errno env) op hop with h | ⟨e1, he1, hh⟩
  · rw [h] at hfail; simp [St.start] at hfail
  · rw [he1] at hfail
    have hee : e = e1 := by simpa [St.start] using hfail
    subst hee
    have hsoft : ¬ e.hard := by
      unfold Errno.hard
      rcases htransient with h | h <;> simp [h]
    obtain ⟨h1, h2, h3, h4, h5⟩ := hh hsoft
    exact ⟨h1, by simpa [St.start] using h2, by simpa [St.start] using h3,
      by simpa [St.start] using h4, h5⟩

/-- Witness of claim C11: `send` of four bytes on the open TCP client; the first
`send` call takes two bytes, the second fails with `EAGAIN`. -/
theorem transient_failure_keeps_session_witness :
    (Op.run cfg_modem_tls 5 (St.start tcp_client 0
        (env_of [Ret.ok 2, Ret.err errno_EAGAIN] (Ret.ok 0)))
      (Op.send ['P', 'I', 'N', 'G'])).1.sock = tcp_client ∧
    close_calls (Op.run cfg_modem_tls 5 (St.start tcp_client 0
        (env_of [Ret.ok 2, Ret.err errno_EAGAIN] (Ret.ok 0)))
      (Op.send ['P', 'I', 'N', 'G'])).1.trace = [] ∧
    closures (Op.run cfg_modem_tls 5 (St.start tcp_client 0
        (env_of [Ret.ok 2, Ret.err errno_EAGAIN] (Ret.ok 0)))
      (Op.send ['P', 'I', 'N', 'G'])).1.trace = [] ∧
    status_notifications (Op.run cfg_modem_tls 5 (St.start tcp_client 0
        (env_of [Ret.ok 2, Ret.err errno_EAGAIN] (Ret.ok 0)))
      (Op.send ['P', 'I', 'N', 'G'])).1.trace = [-11] ∧
    (Op.run cfg_modem_tls 5 (St.start tcp_client 0
        (env_of [Ret.ok 2, Ret.err errno_EAGAIN] (Ret.ok 0)))
      (Op.send ['P', 'I', 'N', 'G'])).2 = some (-11) :=
  transient_failure_keeps_session cfg_modem_tls 5 tcp_client 0
    (env_of [Ret.ok 2, Ret.err errno_EAGAIN] (Ret.ok 0)) (Op.send ['P', 'I', 'N', 'G'])
    errno_EAGAIN rfl (by decide) (Or.inl (by decide))

/-- The run of the witness of claim C11, in full: two `send` calls, the status
notification `#XSOCKET: -11` and the result notification `#XSEND: 2`. -/
theorem transient_failure_keeps_session_example :
    (Op.run cfg_modem_tls 5 (St.start tcp_client 0
        (env_of [Ret.ok 2, Ret.err errno_EAGAIN] (Ret.ok 0)))
      (Op.send ['P', 'I', 'N', 'G'])).1.trace =
      [Event.call (Call.send 3 ['P', 'I', 'N', 'G'] 4) (Ret.ok 2),
       Event.call (Call.send 3 ['N', 'G'] 2) (Ret.err errno_EAGAIN),
       Event.rsp (Rsp.xsocket_error (-11)),
       Event.rsp (Rsp.xsend 2)] := by
  decide

/-! ## From the handlers to the open operation -/

/-- In the CLOSED state, `AT#XSOCKET=<op>,<type>,<role>` with an open `<op>` is
`do_socket_open` on the session that holds `<type>`, `<role>` and the family of
`<op>`. -/
theorem handle_at_socket_open_eq (cfg : Config) (list : at_param_list) (st : St)
    (op type role : Int) (hfd : st.sock.fd = INVALID_SOCKET)
    (h1 : at_params_unsigned_short_get list 1 = .ok op)
    (hop : op = AT_SOCKET_OPEN_IPV4 ∨ op = AT_SOCKET_OPEN_IPV6)
    (h2 : at_params_unsigned_short_get list 2 = .ok type)
    (h3 : at_params_unsigned_short_get list 3 = .ok role) :
    handle_at_socket cfg .AT_CMD_TYPE_SET_COMMAND list st
      = open_session cfg false
          (st.setSock (fun s =>
            { s with
                type := type
                role := role
                family := if op = AT_SOCKET_OPEN_IPV4 then AF_INET else AF_INET6 }))
          0 := by
  have hgt : ¬ (st.sock.fd > 0) := by rw [hfd]; decide
  simp [handle_at_socket, open_session, h1, hop, h2, h3, St.setSock, hgt]

/-- In the CLOSED state, `AT#XSSOCKET=<op>,<type>,<role>,<sec_tag>` with an open
`<op>` and a role that is client or server is `do_secure_socket_open` on the
session that holds the parameters. -/
theorem handle_at_secure_socket_open_eq (cfg : Config) (list : at_param_list) (st : St)
    (op type role tag : Int)
    (h1 : at_params_unsigned_short_get list 1 = .ok op)
    (hop : op = AT_SOCKET_OPEN_IPV4 ∨ op = AT_SOCKET_OPEN_IPV6)
    (h2 : at_params_unsigned_short_get list 2 = .ok type)
    (h3 : at_params_unsigned_short_get list 3 = .ok role)
    (hrole : role = AT_SOCKET_ROLE_SERVER ∨ role = AT_SOCKET_ROLE_CLIENT)
    (h4 : at_params_unsigned_int_get list 4 = .ok tag)
    (hcount : at_params_valid_count_get list ≤ 5) :
    handle_at_secure_socket cfg .AT_CMD_TYPE_SET_COMMAND list st
      = open_session cfg true
          (st.setSock (fun s =>
            { s with
                type := type
                role := role
                sec_tag := int_of_uint32_store tag
                hostname_verify := 0
                family := if op = AT_SOCKET_OPEN_IPV4 then AF_INET else AF_INET6 }))
          (if role = AT_SOCKET_ROLE_SERVER then TLS_PEER_VERIFY_NONE
            else TLS_PEER_VERIFY_REQUIRED) := by
  have hne : ¬ (AT_SOCKET_ROLE_CLIENT = AT_SOCKET_ROLE_SERVER) := by decide
  have h5 : ¬ (at_params_valid_count_get list > 5) := by omega
  have h6 : ¬ (at_params_valid_count_get list > 6) := by omega
  rcases hrole with hr | hr <;> subst hr <;>
    simp [handle_at_secure_socket, handle_at_secure_socket_open, open_session,
      optional_unsigned_short, h1, hop, h2, h3, h4, h5, h6, hne, St.setSock]

/-! ## Setting an unsupported option -/

/-- Claim C21, evaluated: on every session and for every value,
`do_socketopt_set_int` of `SO_PRIORITY` and of `SO_TIMESTAMPING` sends
`#XSOCKETOPT: "not supported"`, makes no call and returns `-ENOTSUP`, so that
`AT#XSOCKETOPT=1,12,1` on the open TCP client returns -134; the query of
`SO_PRIORITY` sends the same response and returns 0. -/
theorem set_unsupported_option_fails :
    (∀ (s : Sock) (errno : Int) (env : Nat → Outcome) (value : Int),
      (do_socketopt_set_int (St.start s errno env) SO_PRIORITY value).2 = -ENOTSUP ∧
      (do_socketopt_set_int (St.start s errno env) SO_PRIORITY value).1.trace
        = [Event.rsp Rsp.xsocketopt_not_supported] ∧
      (do_socketopt_set_int (St.start s errno env) SO_TIMESTAMPING value).2 = -ENOTSUP ∧
      (do_socketopt_set_int (St.start s errno env) SO_TIMESTAMPING value).1.trace
        = [Event.rsp Rsp.xsocketopt_not_supported]) ∧
    (handle_at_socketopt .AT_CMD_TYPE_SET_COMMAND
        [.string [], .num_int 1, .num_int 12, .num_int 1]
        (St.start tcp_client 0 (env_ok 0))).2 = -134 ∧
    (handle_at_socketopt .AT_CMD_TYPE_SET_COMMAND
        [.string [], .num_int 1, .num_int 12, .num_int 1]
        (St.start tcp_client 0 (env_ok 0))).1.trace = [Event.rsp Rsp.xsocketopt_not_supported] ∧
    (do_socketopt_get (St.start tcp_client 0 (env_ok 0)) SO_PRIORITY).2 = 0 ∧
    (do_socketopt_get (St.start tcp_client 0 (env_ok 0)) SO_PRIORITY).1.trace
      = [Event.rsp Rsp.xsocketopt_not_supported] := by
  refine ⟨fun _ _ _ _ => ⟨rfl, rfl, rfl, rfl⟩, by decide, by decide, by decide, by decide⟩

/-! ## Send accounting -/

@[simp] theorem send_calls_nil : send_calls [] = [] := rfl
@[simp] theorem send_results_nil : send_results [] = [] := rfl
@[simp] theorem send_failed_nil : send_failed [] = false := rfl
@[simp] theorem send_acks_nil : send_acks [] = [] := rfl

@[simp] theorem send_calls_append (a b : List Event) :
    send_calls (a ++ b) = send_calls a ++ send_calls b := by
  simp [send_calls]

@[simp] theorem send_results_append (a b : List Event) :
    send_results (a ++ b) = send_results a ++ send_results b := by
  simp [send_results]

@[simp] theorem send_failed_append (a b : List Event) :
    send_failed (a ++ b) = (send_failed a || send_failed b) := by
  simp [send_failed]

@[simp] theorem send_acks_append (a b : List Event) :
    send_acks (a ++ b) = send_acks a ++ send_acks b := by
  simp [send_acks]

theorem send_calls_cons (ev : Event) (t : List Event) :
    send_calls (ev :: t) = send_calls [ev] ++ send_calls t := send_calls_append [ev] t

theorem send_results_cons (ev : Event) (t : List Event) :
    send_results (ev :: t) = send_results [ev] ++ send_results t := send_results_append [ev] t

theorem send_acks_cons (ev : Event) (t : List Event) :
    send_acks (ev :: t) = send_acks [ev] ++ send_acks t := send_acks_append [ev] t

theorem send_failed_cons (ev : Event) (t : List Event) :
    send_failed (ev :: t) = (send_failed [ev] || send_failed t) := send_failed_append [ev] t

theorem send_observations_teardown (new : List Event) (h : ∀ ev ∈ new, ev.teardown = true) :
    send_calls new = [] ∧ send_results new = [] ∧ send_acks new = [] := by
  induction new with
  | nil => exact ⟨rfl, rfl, rfl⟩
  | cons ev rest ih =>
    have hev := h ev (List.mem_cons_self _ _)
    obtain ⟨h1, h2, h3⟩ := ih (fun e he => h e (List.mem_cons_of_mem _ he))
    cases ev with
    | call c r =>
      cases c <;> simp [Event.teardown] at hev <;>
        simp [send_calls, send_results, send_acks] at h1 h2 h3 ⊢ <;> exact ⟨h1, h2, h3⟩
    | rsp line =>
      cases line <;> simp [Event.teardown] at hev <;>
        simp [send_calls, send_results, send_acks] at h1 h2 h3 ⊢ <;> exact ⟨h1, h2, h3⟩
    | data b => simp [Event.teardown] at hev

theorem send_loop_extends (cfg : Config) (sockfd : Int) (data : List Char) :
    ∀ (fuel : Nat) (st : St) (ret : Int) (offset : Nat),
      ∃ new, (send_loop cfg sockfd data fuel st ret offset).1.trace = st.trace ++ new := by
  intro fuel
  induction fuel with
  | zero => intro st ret offset; exact ⟨[], by simp [send_loop]⟩
  | succ fuel ih =>
    intro st ret offset
    unfold send_loop
    by_cases hlt : offset < data.length
    · simp only [if_pos hlt]
      split
      · obtain ⟨new, hn, -⟩ := transfer_error_new cfg
          (st.sys (Call.send sockfd (data.drop offset) (data.length - offset))).1
        exact ⟨Event.call (Call.send sockfd (data.drop offset) (data.length - offset))
          (st.env 0).ret :: new, by rw [hn]; simp [St.sys]⟩
      · obtain ⟨new, hn⟩ := ih
          (st.sys (Call.send sockfd (data.drop offset) (data.length - offset))).1
          (st.sys (Call.send sockfd (data.drop offset) (data.length - offset))).2.ret.value
          ((offset + (st.sys (Call.send sockfd (data.drop offset)
            (data.length - offset))).2.ret.value.toNat) % 2 ^ 32)
        exact ⟨Event.call (Call.send sockfd (data.drop offset) (data.length - offset))
          (st.env 0).ret :: new, by rw [hn]; simp [St.sys]⟩
    · simp only [if_neg hlt]
      exact ⟨[], by simp⟩


theorem send_loop_accounting (cfg : Config) (sockfd : Int) (data : List Char)
    (hlen : data.length < 2 ^ 32) :
    ∀ (fuel : Nat) (st : St) (ret : Int) (offset : Nat),
      offset ≤ data.length → data.length - offset < fuel → 0 ≤ ret →
      (∀ ev ∈ (send_loop cfg sockfd data fuel st ret offset).1.trace, ev.send_in_range = true) →
      ∃ new r k, (send_loop cfg sockfd data fuel st ret offset).2 = some (r, k) ∧
        (send_loop cfg sockfd data fuel st ret offset).1.trace = st.trace ++ new ∧
        send_acks new = [] ∧
        k = offset + (send_results new).sum ∧
        k ≤ data.length ∧
        (∀ i x, (send_calls new)[i]? = some x →
          x = (sockfd, data.drop (offset + ((send_results new).take i).sum),
                data.length - (offset + ((send_results new).take i).sum))) ∧
        (send_failed new = false → k = data.length ∧ 0 ≤ r) := by
  intro fuel
  induction fuel with
  | zero => intro st ret offset _ hf; omega
  | succ fuel ih =>
    intro st ret offset hoff hfuel hret hrange
    obtain ⟨ext, hext⟩ := send_loop_extends cfg sockfd data (fuel + 1) st ret offset
    unfold send_loop at hrange hext ⊢
    by_cases hlt : offset < data.length
    · simp only [if_pos hlt] at hrange hext ⊢
      cases h0 : (st.env 0).ret with
      | ok v =>
        have hv : ¬ ((v : Int) < 0) := by omega
        simp only [St.sys, h0, Ret.value, hv, if_false, Int.toNat_ofNat] at hrange hext ⊢
        obtain ⟨new, hn⟩ := send_loop_extends cfg sockfd data fuel
          { sock := st.sock
            errno := st.errno
            env := fun n => st.env (n + 1)
            trace := st.trace ++ [Event.call (Call.send sockfd (data.drop offset)
              (data.length - offset)) (Ret.ok v)] }
          (v : Int) ((offset + v) % 2 ^ 32)
        have hin := hrange (Event.call (Call.send sockfd (data.drop offset)
          (data.length - offset)) (Ret.ok v)) (by rw [hn]; simp)
        simp only [Event.send_in_range, decide_eq_true_eq] at hin
        have hmod : (offset + v) % 2 ^ 32 = offset + v := Nat.mod_eq_of_lt (by omega)
        rw [hmod] at hrange ⊢
        obtain ⟨new, r, k, h1, h2, h3, h4, h5, h6, h7⟩ := ih _ (v : Int) (offset + v)
          (by omega) (by omega) (by omega) hrange
        refine ⟨Event.call (Call.send sockfd (data.drop offset) (data.length - offset))
          (Ret.ok v) :: new, r, k, h1, by rw [h2]; simp, ?_, ?_, h5, ?_, ?_⟩
        · simpa [send_acks] using h3
        · rw [h4]; simp [send_results]; omega
        · intro i x hx
          cases i with
          | zero =>
            simp [send_calls] at hx
            simp [hx]
          | succ j =>
            have hx2 : (send_calls new)[j]? = some x := by simpa [send_calls] using hx
            rw [h6 j x hx2]
            simp [send_results, Nat.add_assoc]
        · intro hf
          apply h7
          simpa [send_failed] using hf
      | err e =>
        have hv : ((-1 : Int) < 0) := by omega
        simp only [St.sys, h0, Ret.value, hv, if_true] at hrange hext ⊢
        obtain ⟨new, hn, ht⟩ := transfer_error_new cfg
          { sock := st.sock
            errno := (e.val : Int)
            env := fun n => st.env (n + 1)
            trace := st.trace ++ [Event.call (Call.send sockfd (data.drop offset)
              (data.length - offset)) (Ret.err e)] }
        obtain ⟨t1, t2, t3⟩ := send_observations_teardown new ht
        refine ⟨Event.call (Call.send sockfd (data.drop offset) (data.length - offset))
          (Ret.err e) :: new, _, offset, rfl, by rw [hn]; simp, ?_, ?_, hoff, ?_, ?_⟩
        · rw [send_acks_cons, t3]; simp [send_acks]
        · rw [send_results_cons, t2]; simp [send_results]
        · intro i x hx
          cases i with
          | zero =>
            simp [send_calls] at hx
            simp [hx]
          | succ j =>
            rw [send_calls_cons, t1] at hx
            simp [send_calls] at hx
        · intro hf
          simp [send_failed] at hf
    · simp only [if_neg hlt]
      refine ⟨[], ret, offset, rfl, by simp, rfl, by simp, hoff, ?_, ?_⟩
      · intro i x hx; simp at hx
      · intro _; exact ⟨by omega, hret⟩


theorem do_send_on_running (cfg : Config) (fuel : Nat) (st : St) (sockfd : Int)
    (data : List Char) (h : (send_loop cfg sockfd data fuel st 0 0).2 = none) :
    do_send_on cfg fuel st sockfd data = ((send_loop cfg sockfd data fuel st 0 0).1, none) := by
  simp only [do_send_on, h]

theorem do_send_on_done (cfg : Config) (fuel : Nat) (st : St) (sockfd : Int)
    (data : List Char) (ret : Int) (offset : Nat)
    (h : (send_loop cfg sockfd data fuel st 0 0).2 = some (ret, offset)) :
    do_send_on cfg fuel st sockfd data
      = (((send_loop cfg sockfd data fuel st 0 0).1).rsp_send (Rsp.xsend (int_of_uint32 offset)),
         some (if ret ≥ 0 then 0 else ret)) := by
  simp only [do_send_on, h]

theorem do_send_on_trace_subset (cfg : Config) (fuel : Nat) (st : St) (sockfd : Int)
    (data : List Char) (ev : Event)
    (hev : ev ∈ (send_loop cfg sockfd data fuel st 0 0).1.trace) :
    ev ∈ (do_send_on cfg fuel st sockfd data).1.trace := by
  cases h : (send_loop cfg sockfd data fuel st 0 0).2 with
  | none => rw [do_send_on_running cfg fuel st sockfd data h]; exact hev
  | some p =>
    rw [do_send_on_done cfg fuel st sockfd data p.1 p.2 h]
    simp [St.rsp_send, hev]

theorem do_send_eq_on (cfg : Config) (fuel : Nat) (st : St) (data : List Char)
    (htarget : ¬ (st.sock.type = SOCK_STREAM ∧ st.sock.role = AT_SOCKET_ROLE_SERVER ∧
      st.sock.fd_peer = INVALID_SOCKET)) :
    do_send cfg fuel st data = do_send_on cfg fuel st (send_target st.sock) data := by
  unfold do_send send_target
  by_cases hs : st.sock.type = SOCK_STREAM ∧ st.sock.role = AT_SOCKET_ROLE_SERVER
  · have hp : st.sock.fd_peer ≠ INVALID_SOCKET := fun h => htarget ⟨hs.1, hs.2, h⟩
    rw [if_pos hs, if_pos hp, if_pos hs]
  · rw [if_neg hs, if_neg hs]


/-- Claim C24: when `do_send` has a target, the payload has the length `n` of
an `int`, and every successful `send` call of the run returned a count `r` with
`0 < r` not above the length it was given, then `do_send` returns; it sends
exactly one `#XSEND: k`, with `k` the sum of the successful results; the call
number `i` is made on the target with the buffer at offset `o` and the length
`n - o`, where `o` is the sum of the `i` results before it; `k ≤ n`; and if no
`send` call failed then `k = n` and `do_send` returns 0. -/
theorem send_accounting (cfg : Config) (fuel : Nat) (s : Sock) (errno : Int)
    (env : Nat → Outcome) (data : List Char)
    (htarget : ¬ (s.type = SOCK_STREAM ∧ s.role = AT_SOCKET_ROLE_SERVER ∧
      s.fd_peer = INVALID_SOCKET))
    (hlen : data.length < 2 ^ 31) (hfuel : data.length < fuel)
    (hrange : ∀ ev ∈ (do_send cfg fuel (St.start s errno env) data).1.trace,
      ev.send_in_range = true) :
    (∃ ret, (do_send cfg fuel (St.start s errno env) data).2 = some ret) ∧
    send_acks (do_send cfg fuel (St.start s errno env) data).1.trace
      = [((send_results (do_send cfg fuel (St.start s errno env) data).1.trace).sum : Int)] ∧
    (send_results (do_send cfg fuel (St.start s errno env) data).1.trace).sum ≤ data.length ∧
    (∀ i x, (send_calls (do_send cfg fuel (St.start s errno env) data).1.trace)[i]? = some x →
      x = (send_target s,
           data.drop ((send_results
             (do_send cfg fuel (St.start s errno env) data).1.trace).take i).sum,
           data.length - ((send_results
             (do_send cfg fuel (St.start s errno env) data).1.trace).take i).sum)) ∧
    (send_failed (do_send cfg fuel (St.start s errno env) data).1.trace = false →
      (send_results (do_send cfg fuel (St.start s errno env) data).1.trace).sum = data.length ∧
      (do_send cfg fuel (St.start s errno env) data).2 = some 0) := by
  have heq := do_send_eq_on cfg fuel (St.start s errno env) data htarget
  rw [heq] at hrange ⊢
  have hsock : (St.start s errno env).sock = s := rfl
  rw [hsock] at hrange ⊢
  obtain ⟨new, r, k, h1, h2, h3, h4, h5, h6, h7⟩ :=
    send_loop_accounting cfg (send_target s) data (by omega) fuel (St.start s errno env) 0 0
      (by omega) (by omega) (by omega)
      (fun ev hev => hrange ev (do_send_on_trace_subset cfg fuel _ _ data ev hev))
  rw [do_send_on_done cfg fuel _ _ data r k h1]
  have ht : (send_loop cfg (send_target s) data fuel (St.start s errno env) 0 0).1.trace = new := by
    rw [h2]; simp [St.start]
  have hk : k = (send_results new).sum := by omega
  have hint : int_of_uint32 k = (k : Int) := by
    unfold int_of_uint32
    rw [if_pos (by omega)]
  simp only [St.rsp_send, ht, send_acks_append, send_results_append, send_calls_append,
    send_failed_append, h3, List.nil_append]
  have e1 : send_acks [Event.rsp (Rsp.xsend (int_of_uint32 k))] = [(k : Int)] := by
    simp [send_acks, hint]
  have e2 : send_results [Event.rsp (Rsp.xsend (int_of_uint32 k))] = [] := rfl
  have e3 : send_calls [Event.rsp (Rsp.xsend (int_of_uint32 k))] = [] := rfl
  have e4 : send_failed [Event.rsp (Rsp.xsend (int_of_uint32 k))] = false := rfl
  rw [e1, e2, e3, e4]
  simp only [List.append_nil, Bool.or_false]
  refine ⟨⟨_, rfl⟩, by rw [hk], by omega, ?_, ?_⟩
  · intro i x hx
    have := h6 i x hx
    simpa using this
  · intro hf
    obtain ⟨hkn, hr⟩ := h7 hf
    refine ⟨by omega, ?_⟩
    rw [if_pos hr]

/-- Witness of claim C24: `PING` on the open TCP client, sent in two partial
writes of 1 and 3 bytes. -/
theorem send_accounting_witness :
    send_acks (do_send cfg_modem_tls 5
        (St.start tcp_client 0 (env_of [Ret.ok 1, Ret.ok 3] (Ret.ok 0)))
        ['P', 'I', 'N', 'G']).1.trace
      = [((send_results (do_send cfg_modem_tls 5
          (St.start tcp_client 0 (env_of [Ret.ok 1, Ret.ok 3] (Ret.ok 0)))
          ['P', 'I', 'N', 'G']).1.trace).sum : Int)] ∧
    (send_results (do_send cfg_modem_tls 5
        (St.start tcp_client 0 (env_of [Ret.ok 1, Ret.ok 3] (Ret.ok 0)))
        ['P', 'I', 'N', 'G']).1.trace).sum = 4 ∧
    (do_send cfg_modem_tls 5
        (St.start tcp_client 0 (env_of [Ret.ok 1, Ret.ok 3] (Ret.ok 0)))
        ['P', 'I', 'N', 'G']).2 = some 0 :=
  have h := send_accounting cfg_modem_tls 5 tcp_client 0
    (env_of [Ret.ok 1, Ret.ok 3] (Ret.ok 0)) ['P', 'I', 'N', 'G']
    (by decide) (by decide) (by decide) (by decide)
  ⟨h.2.1, (h.2.2.2.2 (by decide)).1, (h.2.2.2.2 (by decide)).2⟩

/-- Two runs of `do_send` of `PING` on the open TCP client, in full: two partial
writes of 1 and 3 bytes; and one write of 1 byte followed by `EAGAIN`, which
reports 1 byte sent and returns `-EAGAIN`. -/
theorem send_accounting_example :
    (do_send cfg_modem_tls 5
        (St.start tcp_client 0 (env_of [Ret.ok 1, Ret.ok 3] (Ret.ok 0)))
        ['P', 'I', 'N', 'G']).1.trace
      = [Event.call (Call.send 3 ['P', 'I', 'N', 'G'] 4) (Ret.ok 1),
         Event.call (Call.send 3 ['I', 'N', 'G'] 3) (Ret.ok 3),
         Event.rsp (Rsp.xsend 4)] ∧
    (do_send cfg_modem_tls 5
        (St.start tcp_client 0 (env_of [Ret.ok 1, Ret.err errno_EAGAIN] (Ret.ok 0)))
        ['P', 'I', 'N', 'G']).1.trace
      = [Event.call (Call.send 3 ['P', 'I', 'N', 'G'] 4) (Ret.ok 1),
         Event.call (Call.send 3 ['I', 'N', 'G'] 3) (Ret.err errno_EAGAIN),
         Event.rsp (Rsp.xsocket_error (-11)),
         Event.rsp (Rsp.xsend 1)] ∧
    (do_send cfg_modem_tls 5
        (St.start tcp_client 0 (env_of [Ret.ok 1, Ret.err errno_EAGAIN] (Ret.ok 0)))
        ['P', 'I', 'N', 'G']).2 = some (-11) := by
  decide

/-! ## The scenario open, connect, send, close -/

theorem send_loop_chunks (cfg : Config) (sockfd : Int) (data : List Char)
    (hlen : data.length < 2 ^ 32) :
    ∀ (chunks : List Nat) (fuel : Nat) (st : St) (ret : Int) (offset : Nat),
      (∀ i < chunks.length, (st.env i).ret = Ret.ok (chunks.getD i 0)) →
      (∀ c ∈ chunks, 0 < c) → offset + chunks.sum = data.length → chunks.length < fuel →
      0 ≤ ret →
      ∃ new r, 0 ≤ r ∧
        (send_loop cfg sockfd data fuel st ret offset).2 = some (r, data.length) ∧
        (send_loop cfg sockfd data fuel st ret offset).1.trace = st.trace ++ new ∧
        responses new = [] ∧
        (send_loop cfg sockfd data fuel st ret offset).1.sock = st.sock ∧
        ∀ n, (send_loop cfg sockfd data fuel st ret offset).1.env n
          = st.env (n + chunks.length) := by
  intro chunks
  induction chunks with
  | nil =>
    intro fuel st ret offset _ _ hsum hfuel hret
    cases fuel with
    | zero => simp at hfuel
    | succ f =>
      have hlt : ¬ (offset < data.length) := by simp at hsum; omega
      have hoff : offset = data.length := by simpa using hsum
      refine ⟨[], ret, hret, ?_, ?_, rfl, ?_, ?_⟩ <;> simp [send_loop, hlt, hoff]
  | cons c cs ih =>
    intro fuel st ret offset henv hpos hsum hfuel hret
    cases fuel with
    | zero => simp at hfuel
    | succ f =>
      have hc : 0 < c := hpos c (List.mem_cons_self _ _)
      have hs : offset + c + cs.sum = data.length := by simpa [Nat.add_assoc] using hsum
      have hlt : offset < data.length := by omega
      have h0 : (st.env 0).ret = Ret.ok c := by simpa using henv 0 (by simp)
      have hv : ¬ ((c : Int) < 0) := by omega
      have hmod : (offset + c) % 2 ^ 32 = offset + c := Nat.mod_eq_of_lt (by omega)
      obtain ⟨new, r, hr, h1, h2, h3, h4, h5⟩ := ih f
        (st.sys (Call.send sockfd (data.drop offset) (data.length - offset))).1 (c : Int)
        (offset + c)
        (by
          intro i hi
          have := henv (i + 1) (by simpa using hi)
          simpa [St.sys] using this)
        (fun x hx => hpos x (List.mem_cons_of_mem _ hx)) hs (by simpa using hfuel) (by omega)
      refine ⟨Event.call (Call.send sockfd (data.drop offset) (data.length - offset))
        (Ret.ok c) :: new, r, hr, ?_, ?_, ?_, ?_, ?_⟩
      · simp only [send_loop, if_pos hlt]
        simp only [St.sys, h0, Ret.value, hv, if_false, Int.toNat_ofNat, hmod] at h1 ⊢
        exact h1
      · simp only [send_loop, if_pos hlt]
        simp only [St.sys, h0, Ret.value, hv, if_false, Int.toNat_ofNat, hmod] at h2 ⊢
        rw [h2]; simp
      · simpa [responses] using h3
      · simp only [send_loop, if_pos hlt]
        simp only [St.sys, h0, Ret.value, hv, if_false, Int.toNat_ofNat, hmod] at h4 ⊢
        exact h4
      · intro n
        simp only [send_loop, if_pos hlt]
        simp only [St.sys, h0, Ret.value, hv, if_false, Int.toNat_ofNat, hmod] at h5 ⊢
        rw [h5 n]
        simp [Nat.add_assoc, Nat.add_comm 1]


theorem scenario_open (cfg : Config) (st : St) (fd : Nat)
    (hfd : st.sock.fd = INVALID_SOCKET) (h0 : (st.env 0).ret = Ret.ok fd) :
    (handle_at_socket cfg .AT_CMD_TYPE_SET_COMMAND
        [.string [], .num_int AT_SOCKET_OPEN_IPV4, .num_int SOCK_STREAM,
          .num_int AT_SOCKET_ROLE_CLIENT] st).2 = 0 ∧
    (handle_at_socket cfg .AT_CMD_TYPE_SET_COMMAND
        [.string [], .num_int AT_SOCKET_OPEN_IPV4, .num_int SOCK_STREAM,
          .num_int AT_SOCKET_ROLE_CLIENT] st).1.sock
      = { st.sock with
            type := SOCK_STREAM, role := AT_SOCKET_ROLE_CLIENT, family := AF_INET, fd := fd } ∧
    (handle_at_socket cfg .AT_CMD_TYPE_SET_COMMAND
        [.string [], .num_int AT_SOCKET_OPEN_IPV4, .num_int SOCK_STREAM,
          .num_int AT_SOCKET_ROLE_CLIENT] st).1.trace
      = st.trace ++ [Event.call (Call.socket AF_INET SOCK_STREAM IPPROTO_TCP) (Ret.ok fd),
          Event.rsp (Rsp.xsocket_open fd SOCK_STREAM AT_SOCKET_ROLE_CLIENT IPPROTO_TCP)] ∧
    ∀ n, (handle_at_socket cfg .AT_CMD_TYPE_SET_COMMAND
        [.string [], .num_int AT_SOCKET_OPEN_IPV4, .num_int SOCK_STREAM,
          .num_int AT_SOCKET_ROLE_CLIENT] st).1.env n = st.env (n + 1) := by
  have hneg : ¬ ((fd : Int) < 0) := by omega
  rw [handle_at_socket_open_eq cfg
    [.string [], .num_int AT_SOCKET_OPEN_IPV4, .num_int SOCK_STREAM,
      .num_int AT_SOCKET_ROLE_CLIENT] st AT_SOCKET_OPEN_IPV4 SOCK_STREAM AT_SOCKET_ROLE_CLIENT
    hfd rfl (Or.inl rfl) rfl rfl]
  simp [open_session, St.setSock, hfd, do_socket_open, St.socket, St.sys,
    h0, Ret.value, do_socket_open_created, hneg, St.rsp_send]


theorem scenario_connect (cfg : Config) (st : St) (host : List Char) (port : Int)
    (res : addrinfo) (rest : List addrinfo) (v1 v2 : Nat)
    (hfd : 0 ≤ st.sock.fd) (hrole : st.sock.role = AT_SOCKET_ROLE_CLIENT)
    (hsec : st.sock.sec_tag = INVALID_SEC_TAG) (hfam : st.sock.family = AF_INET)
    (hhost : host.length < TCPIP_MAX_URL) (hport : 0 ≤ port ∧ port ≤ 65535)
    (h0 : (st.env 0).ret = Ret.ok v1) (h0a : (st.env 0).addrs = res :: rest)
    (hres : res.ai_family = AF_INET) (h1 : (st.env 1).ret = Ret.ok v2) :
    (handle_at_connect cfg .AT_CMD_TYPE_SET_COMMAND
        [.string [], .string host, .num_int port] st).2 = 0 ∧
    (handle_at_connect cfg .AT_CMD_TYPE_SET_COMMAND
        [.string [], .string host, .num_int port] st).1.sock = st.sock ∧
    (handle_at_connect cfg .AT_CMD_TYPE_SET_COMMAND
        [.string [], .string host, .num_int port] st).1.trace
      = st.trace ++ [Event.call (Call.getaddrinfo host) (Ret.ok v1),
          Event.call (Call.connect st.sock.fd (target res port)) (Ret.ok v2),
          Event.rsp Rsp.xconnect,
          Event.call Call.freeaddrinfo (Ret.ok 0)] ∧
    ∀ n, (handle_at_connect cfg .AT_CMD_TYPE_SET_COMMAND
        [.string [], .string host, .num_int port] st).1.env n = st.env (n + 2) := by
  have hneg : ¬ (st.sock.fd < 0) := by omega
  have hp : ¬ (port < 0 ∨ port > 65535) := by omega
  have hmis : ¬ family_mismatch st.sock res := by
    have hne : ¬ (AF_INET = AF_INET6) := by decide
    simp [family_mismatch, hfam, hres, hne]
  simp [handle_at_connect, hneg, hrole, util_string_get, hhost, at_params_unsigned_short_get,
    hp, do_connect, St.ext, h0, h0a, Ret.code, hmis, do_connect_resolved, set_tls_hostname, hsec,
    St.sys, h1, Ret.status, St.rsp_send, St.void]

theorem scenario_send (cfg : Config) (fuel : Nat) (st : St) (data : List Char)
    (chunks : List Nat)
    (hrole : st.sock.role = AT_SOCKET_ROLE_CLIENT)
    (hdata : data.length < NET_IPV4_MTU)
    (henv : ∀ i < chunks.length, (st.env i).ret = Ret.ok (chunks.getD i 0))
    (hpos : ∀ c ∈ chunks, 0 < c) (hsum : chunks.sum = data.length)
    (hfuel : chunks.length < fuel) :
    (handle_at_send cfg fuel .AT_CMD_TYPE_SET_COMMAND [.string [], .string data] st).2 = some 0 ∧
    (handle_at_send cfg fuel .AT_CMD_TYPE_SET_COMMAND [.string [], .string data] st).1.sock
      = st.sock ∧
    responses (handle_at_send cfg fuel .AT_CMD_TYPE_SET_COMMAND
        [.string [], .string data] st).1.trace
      = responses st.trace ++ [Rsp.xsend data.length] ∧
    ∀ n, (handle_at_send cfg fuel .AT_CMD_TYPE_SET_COMMAND [.string [], .string data] st).1.env n
      = st.env (n + chunks.length) := by
  have hmtu : data.length < 576 := hdata
  obtain ⟨new, r, hr, h1, h2, h3, h4, h5⟩ := send_loop_chunks cfg st.sock.fd data (by omega)
    chunks fuel st 0 0 henv hpos (by omega) hfuel (by omega)
  have hne : ¬ (AT_SOCKET_ROLE_CLIENT = AT_SOCKET_ROLE_SERVER) := by decide
  have hint : int_of_uint32 data.length = (data.length : Int) := by
    unfold int_of_uint32
    rw [if_pos (by omega)]
  have hsend : handle_at_send cfg fuel .AT_CMD_TYPE_SET_COMMAND [.string [], .string data] st
      = (((send_loop cfg st.sock.fd data fuel st 0 0).1).rsp_send
          (Rsp.xsend (int_of_uint32 data.length)), some (if r ≥ 0 then 0 else r)) := by
    simp only [handle_at_send, util_string_get, List.get?, if_pos hdata, do_send, hrole, hne,
      and_false, if_false, do_send_on, h1]
  rw [hsend, if_pos hr, hint]
  refine ⟨rfl, ?_, ?_, ?_⟩
  · simpa [St.rsp_send] using h4
  · simp [St.rsp_send, h2, h3]
  · intro n; simpa [St.rsp_send] using h5 n

theorem scenario_close (cfg : Config) (st : St) (v : Nat)
    (hfd : 0 ≤ st.sock.fd) (hpeer : st.sock.fd_peer = INVALID_SOCKET)
    (hsec : st.sock.sec_tag = INVALID_SEC_TAG) (h0 : (st.env 0).ret = Ret.ok v) :
    (handle_at_socket cfg .AT_CMD_TYPE_SET_COMMAND
        [.string [], .num_int AT_SOCKET_CLOSE] st).2 = 0 ∧
    (handle_at_socket cfg .AT_CMD_TYPE_SET_COMMAND
        [.string [], .num_int AT_SOCKET_CLOSE] st).1.sock.closed ∧
    (handle_at_socket cfg .AT_CMD_TYPE_SET_COMMAND
        [.string [], .num_int AT_SOCKET_CLOSE] st).1.trace
      = st.trace ++ [Event.call (Call.close st.sock.fd) (Ret.ok v),
          Event.rsp (Rsp.xsocket_closed 0)] := by
  have hneg : ¬ (st.sock.fd < 0) := by omega
  have hinv : ¬ (st.sock.fd = INVALID_SOCKET) := by
    intro h; rw [h] at hfd; revert hfd; decide
  have e1 : at_params_unsigned_short_get [.string [], .num_int AT_SOCKET_CLOSE] 1
      = .ok AT_SOCKET_CLOSE := rfl
  have hop : ¬ (AT_SOCKET_CLOSE = AT_SOCKET_OPEN_IPV4 ∨ AT_SOCKET_CLOSE = AT_SOCKET_OPEN_IPV6) := by
    decide
  simp only [handle_at_socket, e1, if_neg hop, if_true, if_neg hneg]
  simp [do_socket_close, hinv, hsec, do_socket_close_fds, hpeer, St.sys, h0, Ret.status,
    St.setSock, St.rsp_send, slm_at_tcpip_init, Sock.closed]



/-- Claim C22: from the state after start-up, when `socket` returns the
descriptor `fd`, the lookup succeeds with a first address of family `AF_INET`,
`connect` succeeds, the `send` calls accept the 4 bytes of `PING` in the
partial writes `chunks` (each positive, 4 in total) and `close` succeeds, the
commands `AT#XSOCKET=1,1,0`, `AT#XCONNECT=<host>,<port>`, `AT#XSEND="PING"`,
`AT#XSOCKET=0` send exactly the responses `#XSOCKET: fd,1,0,6`, `#XCONNECT: 1`,
`#XSEND: 4`, `#XSOCKET: 0,"closed"` in this order, every command returns 0, and
the session has the CLOSED value at the end. -/
theorem scenario_responses (cfg : Config) (fuel : Nat) (env : Nat → Outcome)
    (host : List Char) (port : Int) (fd v1 v2 v3 : Nat) (res : addrinfo) (rest : List addrinfo)
    (chunks : List Nat)
    (hhost : host.length < TCPIP_MAX_URL) (hport : 0 ≤ port ∧ port ≤ 65535)
    (hsocket : (env 0).ret = Ret.ok fd)
    (hlookup : (env 1).ret = Ret.ok v1) (haddrs : (env 1).addrs = res :: rest)
    (hres : res.ai_family = AF_INET)
    (hconnect : (env 2).ret = Ret.ok v2)
    (hsend : ∀ i < chunks.length, (env (3 + i)).ret = Ret.ok (chunks.getD i 0))
    (hpos : ∀ c ∈ chunks, 0 < c) (hsum : chunks.sum = 4)
    (hclose : (env (3 + chunks.length)).ret = Ret.ok v3)
    (hfuel : chunks.length < fuel) :
    responses (run cfg fuel (scenario host port) (St.initial env)).trace
      = [Rsp.xsocket_open fd SOCK_STREAM AT_SOCKET_ROLE_CLIENT IPPROTO_TCP,
         Rsp.xconnect, Rsp.xsend 4, Rsp.xsocket_closed 0] ∧
    run_codes cfg fuel (scenario host port) (St.initial env)
      = [some 0, some 0, some 0, some 0] ∧
    (run cfg fuel (scenario host port) (St.initial env)).sock.closed := by
  obtain ⟨a1, a2, a3, a4⟩ := scenario_open cfg (St.initial env) fd rfl hsocket
  simp only [scenario, Command.set, run, run_codes, exec]
  generalize handle_at_socket cfg .AT_CMD_TYPE_SET_COMMAND
    [.string [], .num_int AT_SOCKET_OPEN_IPV4, .num_int SOCK_STREAM,
      .num_int AT_SOCKET_ROLE_CLIENT] (St.initial env) = A at a1 a2 a3 a4 ⊢
  have hA0 : (A.1.env 0).ret = Ret.ok v1 := by rw [a4]; exact hlookup
  have hA0a : (A.1.env 0).addrs = res :: rest := by rw [a4]; exact haddrs
  have hA1 : (A.1.env 1).ret = Ret.ok v2 := by rw [a4]; exact hconnect
  obtain ⟨b1, b2, b3, b4⟩ := scenario_connect cfg A.1 host port res rest v1 v2
    (by rw [a2]; simp) (by rw [a2]) (by rw [a2]; rfl) (by rw [a2]) hhost hport hA0 hA0a hres hA1
  generalize handle_at_connect cfg .AT_CMD_TYPE_SET_COMMAND
    [.string [], .string host, .num_int port] A.1 = B at b1 b2 b3 b4 ⊢
  obtain ⟨c1, c2, c3, c4⟩ := scenario_send cfg fuel B.1 ['P', 'I', 'N', 'G'] chunks
    (by rw [b2, a2]) (by decide)
    (by
      intro i hi
      rw [b4, a4]
      have := hsend i hi
      rw [show i + 2 + 1 = 3 + i by omega]
      exact this)
    hpos hsum hfuel
  generalize handle_at_send cfg fuel .AT_CMD_TYPE_SET_COMMAND
    [.string [], .string ['P', 'I', 'N', 'G']] B.1 = C at c1 c2 c3 c4 ⊢
  obtain ⟨d1, d2, d3⟩ := scenario_close cfg C.1 v3
    (by rw [c2, b2, a2]; simp) (by rw [c2, b2, a2]; rfl) (by rw [c2, b2, a2]; rfl)
    (by
      rw [c4, b4, a4]
      rw [show 0 + chunks.length + 2 + 1 = 3 + chunks.length by omega]
      exact hclose)
  generalize handle_at_socket cfg .AT_CMD_TYPE_SET_COMMAND
    [.string [], .num_int AT_SOCKET_CLOSE] C.1 = D at d1 d2 d3 ⊢
  simp only [a1, b1, c1, d1]
  refine ⟨?_, trivial, d2⟩
  rw [d3, responses_append, c3, b3, responses_append, a3]
  simp [responses, St.initial]

/-- Witness of claim C22: descriptor 3, the host `h` resolved to `10.0.0.1`,
port 1000, and `PING` accepted in two partial writes of 1 and 3 bytes. -/
theorem scenario_responses_witness :
    responses (run cfg_modem_tls 5 (scenario ['h'] 1000)
        (St.initial (env_list [Outcome.of (Ret.ok 3), Outcome.resolved [host_v4],
          Outcome.of (Ret.ok 0), Outcome.of (Ret.ok 1), Outcome.of (Ret.ok 3)]
          (Ret.ok 0)))).trace
      = [Rsp.xsocket_open 3 SOCK_STREAM AT_SOCKET_ROLE_CLIENT IPPROTO_TCP,
         Rsp.xconnect, Rsp.xsend 4, Rsp.xsocket_closed 0] ∧
    run_codes cfg_modem_tls 5 (scenario ['h'] 1000)
        (St.initial (env_list [Outcome.of (Ret.ok 3), Outcome.resolved [host_v4],
          Outcome.of (Ret.ok 0), Outcome.of (Ret.ok 1), Outcome.of (Ret.ok 3)]
          (Ret.ok 0)))
      = [some 0, some 0, some 0, some 0] ∧
    (run cfg_modem_tls 5 (scenario ['h'] 1000)
        (St.initial (env_list [Outcome.of (Ret.ok 3), Outcome.resolved [host_v4],
          Outcome.of (Ret.ok 0), Outcome.of (Ret.ok 1), Outcome.of (Ret.ok 3)]
          (Ret.ok 0)))).sock.closed :=
  scenario_responses cfg_modem_tls 5
    (env_list [Outcome.of (Ret.ok 3), Outcome.resolved [host_v4],
      Outcome.of (Ret.ok 0), Outcome.of (Ret.ok 1), Outcome.of (Ret.ok 3)] (Ret.ok 0))
    ['h'] 1000 3 0 0 0 host_v4 [] [1, 3]
    (by decide) (by decide) rfl rfl rfl rfl rfl (by decide) (by decide) (by decide) rfl
    (by decide)

/-- The run of the witness of claim C22, in full. -/
theorem scenario_responses_example :
    (run cfg_modem_tls 5 (scenario ['h'] 1000)
        (St.initial (env_list [Outcome.of (Ret.ok 3), Outcome.resolved [host_v4],
          Outcome.of (Ret.ok 0), Outcome.of (Ret.ok 1), Outcome.of (Ret.ok 3)]
          (Ret.ok 0)))).trace
      = [Event.call (Call.socket AF_INET SOCK_STREAM IPPROTO_TCP) (Ret.ok 3),
         Event.rsp (Rsp.xsocket_open 3 SOCK_STREAM AT_SOCKET_ROLE_CLIENT IPPROTO_TCP),
         Event.call (Call.getaddrinfo ['h']) (Ret.ok 0),
         Event.call (Call.connect 3 (target host_v4 1000)) (Ret.ok 0),
         Event.rsp Rsp.xconnect,
         Event.call Call.freeaddrinfo (Ret.ok 0),
         Event.call (Call.send 3 ['P', 'I', 'N', 'G'] 4) (Ret.ok 1),
         Event.call (Call.send 3 ['I', 'N', 'G'] 3) (Ret.ok 3),
         Event.rsp (Rsp.xsend 4),
         Event.call (Call.close 3) (Ret.ok 0),
         Event.rsp (Rsp.xsocket_closed 0)] := by
  decide

/-! ## Termination of the send loop -/

theorem send_loop_zero_forever (cfg : Config) (sockfd : Int) (data : List Char)
    (hdata : 0 < data.length) (fuel : Nat) :
    ∀ (st : St) (ret : Int), (∀ n, (st.env n).ret = Ret.ok 0) →
      (send_loop cfg sockfd data fuel st ret 0).2 = none ∧
      (send_loop cfg sockfd data fuel st ret 0).1.trace
        = st.trace ++ List.replicate fuel
            (Event.call (Call.send sockfd data data.length) (Ret.ok 0)) := by
  induction fuel with
  | zero => intro st ret _; simp [send_loop]
  | succ n ih =>
    intro st ret henv
    have h0 := henv 0
    have hshift : ∀ k, (((st.sys (Call.send sockfd data data.length)).1).env k).ret = Ret.ok 0 := by
      intro k; simpa [St.sys] using henv (k + 1)
    have := ih (st.sys (Call.send sockfd data data.length)).1 0 hshift
    simp only [send_loop, hdata, if_true, List.drop_zero, Nat.sub_zero]
    simp only [St.sys, h0, Ret.value] at this ⊢
    simp [this, List.replicate_succ]


/-- Claim C27, evaluated: when every `send` call returns 0, `do_send` of `PING`
on the open TCP client has not returned after `fuel` evaluations of the loop
condition, for every `fuel`: its trace is `fuel` times the same call
`send(3, "PING", 4)`.  In the same situation `do_sendto` leaves its loop after
the first `sendto`. -/
theorem send_zero_never_returns (fuel : Nat) :
    (do_send cfg_modem_tls fuel (St.start tcp_client 0 (env_ok 0)) ['P', 'I', 'N', 'G']).2 = none ∧
    (do_send cfg_modem_tls fuel (St.start tcp_client 0 (env_ok 0)) ['P', 'I', 'N', 'G']).1.trace
      = List.replicate fuel (Event.call (Call.send 3 ['P', 'I', 'N', 'G'] 4) (Ret.ok 0)) ∧
    (do_sendto cfg_modem_tls 5
        (St.start udp_client 0 (env_list [Outcome.resolved [host_v4]] (Ret.ok 0)))
        ['h'] 1000 ['P', 'I', 'N', 'G']).2 = some 0 ∧
    calls (do_sendto cfg_modem_tls 5
        (St.start udp_client 0 (env_list [Outcome.resolved [host_v4]] (Ret.ok 0)))
        ['h'] 1000 ['P', 'I', 'N', 'G']).1.trace
      = [Call.getaddrinfo ['h'], Call.sendto 3 ['P', 'I', 'N', 'G'] 4 (target host_v4 1000),
         Call.close 3] := by
  have h := send_loop_zero_forever cfg_modem_tls 3 ['P', 'I', 'N', 'G'] (by decide) fuel
    (St.start tcp_client 0 (env_ok 0)) 0 (fun _ => rfl)
  have hs : ¬ (tcp_client.type = SOCK_STREAM ∧ tcp_client.role = AT_SOCKET_ROLE_SERVER) := by
    decide
  have hd : do_send cfg_modem_tls fuel (St.start tcp_client 0 (env_ok 0)) ['P', 'I', 'N', 'G']
      = ((send_loop cfg_modem_tls 3 ['P', 'I', 'N', 'G'] fuel
          (St.start tcp_client 0 (env_ok 0)) 0 0).1, none) := by
    rw [← do_send_on_running cfg_modem_tls fuel _ 3 _ h.1]
    simp only [do_send, St.start, if_neg hs]
    rfl
  rw [hd]
  refine ⟨rfl, ?_, by decide, by decide⟩
  rw [h.2]
  simp [St.start]

/-! ## The address check `util_check_for_ipv4` -/

theorem util_check_for_ipv4_loop_iff (address : List Char) :
    ∀ (count index : Nat),
      util_check_for_ipv4_loop address count index = true ↔
        ∀ i, index ≤ i → i < index + count → dot_or_digit (address.getD i (Char.ofNat 0)) = true := by
  intro count
  induction count with
  | zero => intro index; simp [util_check_for_ipv4_loop]; intro i h1 h2; omega
  | succ n ih =>
    intro index
    unfold util_check_for_ipv4_loop
    by_cases h : dot_or_digit (address.getD index (Char.ofNat 0)) = true
    · rw [if_pos h, ih (index + 1)]
      constructor
      · intro hall i h1 h2
        by_cases hi : i = index
        · rw [hi]; exact h
        · exact hall i (by omega) (by omega)
      · intro hall i h1 h2
        exact hall i (by omega) (by omega)
    · rw [if_neg h]
      constructor
      · intro hf; cases hf
      · intro hall
        exact absurd (hall index (le_refl _) (by omega)) h

theorem dot_fields_mem (s : List Char) :
    ∀ c ∈ s, c = '.' ∨ ∃ f ∈ dot_fields s, c ∈ f := by
  induction s with
  | nil => intro c hc; cases hc
  | cons a cs ih =>
    intro c hc
    rcases List.mem_cons.1 hc with h | h
    · subst h
      by_cases hd : c = '.'
      · exact Or.inl hd
      · right
        unfold dot_fields
        rw [if_neg hd]
        cases dot_fields cs with
        | nil => exact ⟨[c], by simp, by simp⟩
        | cons f fs => exact ⟨c :: f, by simp, by simp⟩
    · rcases ih c h with hdot | ⟨f, hf, hcf⟩
      · exact Or.inl hdot
      · right
        unfold dot_fields
        by_cases hd : a = '.'
        · rw [if_pos hd]
          exact ⟨f, List.mem_cons_of_mem _ hf, hcf⟩
        · rw [if_neg hd]
          cases hdf : dot_fields cs with
          | nil => rw [hdf] at hf; cases hf
          | cons g gs =>
            rw [hdf] at hf
            rcases List.mem_cons.1 hf with hfg | hfg
            · exact ⟨a :: g, by simp, by rw [← hfg]; exact List.mem_cons_of_mem _ hcf⟩
            · exact ⟨f, by simp [hfg], hcf⟩

theorem is_ipv4_chars (s : List Char) (h : is_ipv4 s = true) :
    ∀ c ∈ s, dot_or_digit c = true := by
  intro c hc
  simp only [is_ipv4, Bool.and_eq_true, List.all_eq_true] at h
  rcases dot_fields_mem s c hc with hd | ⟨f, hf, hcf⟩
  · simp [dot_or_digit, hd]
  · have := h.2 f hf
    simp only [ipv4_field, Bool.and_eq_true, List.all_eq_true] at this
    have hdig := this.1.2 c hcf
    simp only [dot_or_digit, Bool.or_eq_true]
    exact Or.inr (by simp only [Bool.and_eq_true]; exact hdig)


/-- What `util_check_for_ipv4(address, length)` computes: it returns true if and
only if each of the first `length` characters of `address` (`length` taken as a
`u8_t`) is a dot or a decimal digit; so it returns true when these characters
form an IPv4 address, and false when one of them is any other character. -/
theorem check_for_ipv4_characters (address : List Char) (length : Nat) :
    (util_check_for_ipv4 address length = true ↔
      ∀ i < length % 256, dot_or_digit (address.getD i (Char.ofNat 0)) = true) ∧
    (length < 256 → length ≤ address.length → is_ipv4 (address.take length) = true →
      util_check_for_ipv4 address length = true) ∧
    (length < 256 → (∃ c ∈ address.take length, dot_or_digit c = false) →
      util_check_for_ipv4 address length = false) := by
  have hiff : util_check_for_ipv4 address length = true ↔
      ∀ i < length % 256, dot_or_digit (address.getD i (Char.ofNat 0)) = true := by
    unfold util_check_for_ipv4
    rw [util_check_for_ipv4_loop_iff address (length % 256) 0]
    constructor
    · intro h i hi; exact h i (Nat.zero_le _) (by omega)
    · intro h i _ hi; exact h i (by omega)
  refine ⟨hiff, ?_, ?_⟩
  · intro h8 hlen hip
    rw [hiff, Nat.mod_eq_of_lt h8]
    intro i hi
    have hmem : address.getD i (Char.ofNat 0) ∈ address.take length := by
      have hi2 : i < address.length := by omega
      rw [List.getD_eq_getElem _ _ hi2]
      rw [List.mem_take_iff_getElem]
      exact ⟨i, by simp; omega, rfl⟩
    exact is_ipv4_chars _ hip _ hmem
  · rintro h8 ⟨c, hc, hbad⟩
    cases hres : util_check_for_ipv4 address length with
    | false => rfl
    | true =>
      exfalso
      rw [hiff, Nat.mod_eq_of_lt h8] at hres
      rw [List.mem_take_iff_getElem] at hc
      obtain ⟨i, hi, hci⟩ := hc
      have hi2 : i < length ∧ i < address.length := by simpa using hi
      have := hres i hi2.1
      rw [List.getD_eq_getElem _ _ hi2.2, hci, hbad] at this
      cases this

/-- The address `10.0.0.1`, of 8 characters, is taken for an address; the
hostname `a.io` is not. -/
theorem check_for_ipv4_examples :
    util_check_for_ipv4 ['1', '0', '.', '0', '.', '0', '.', '1'] 8 = true ∧
    is_ipv4 ['1', '0', '.', '0', '.', '0', '.', '1'] = true ∧
    util_check_for_ipv4 ['a', '.', 'i', 'o'] 4 = false := by
  decide

/-- Claim C23, evaluated: `util_check_for_ipv4` returns true for `999.1.1.1`
(a field above 255), for `1.2` (two fields), for `1.2.3.4.5` (five fields) and
for `...`, none of which is an IPv4 address (dotted decimal, four numeric
fields, each in 0..255). -/
theorem check_for_ipv4_not_an_address :
    util_check_for_ipv4 ['9', '9', '9', '.', '1', '.', '1', '.', '1'] 9 = true ∧
    is_ipv4 (['9', '9', '9', '.', '1', '.', '1', '.', '1'].take 9) = false ∧
    util_check_for_ipv4 ['1', '.', '2'] 3 = true ∧ is_ipv4 (['1', '.', '2'].take 3) = false ∧
    util_check_for_ipv4 ['1', '.', '2', '.', '3', '.', '4', '.', '5'] 9 = true ∧
    is_ipv4 (['1', '.', '2', '.', '3', '.', '4', '.', '5'].take 9) = false ∧
    util_check_for_ipv4 ['.', '.', '.'] 3 = true ∧ is_ipv4 (['.', '.', '.'].take 3) = false := by
  decide

/-! ## The hostname option on connect -/

/-- Claim C25, evaluated: `do_connect` on the TLS client with security tag 7
and `hostname_verify == 0` calls `setsockopt(3, SOL_TLS, TLS_HOSTNAME, NULL, 0)`
before `connect`; and when that call fails with `EIO` the session is closed
and `do_connect` returns -5 without any `connect`. -/
theorem clear_hostname_attempted :
    calls (do_connect cfg_modem_tls
        (St.start tls_client 0 (env_list [Outcome.resolved [host_v4]] (Ret.ok 0)))
        ['h'] 443).1.trace
      = [Call.getaddrinfo ['h'],
         Call.setsockopt 3 SOL_TLS TLS_HOSTNAME OptVal.null,
         Call.connect 3 (target host_v4 443),
         Call.freeaddrinfo] ∧
    tls_client.sec_tag ≠ INVALID_SEC_TAG ∧ tls_client.hostname_verify = 0 ∧
    calls (do_connect cfg_modem_tls
        (St.start tls_client 0
          (env_list [Outcome.resolved [host_v4], Outcome.of (Ret.err errno_EIO)] (Ret.ok 0)))
        ['h'] 443).1.trace
      = [Call.getaddrinfo ['h'],
         Call.setsockopt 3 SOL_TLS TLS_HOSTNAME OptVal.null,
         Call.close 3] ∧
    (do_connect cfg_modem_tls
        (St.start tls_client 0
          (env_list [Outcome.resolved [host_v4], Outcome.of (Ret.err errno_EIO)] (Ret.ok 0)))
        ['h'] 443).2 = -5 := by
  decide

/-! ## The sender of a datagram -/

/-- Claim C26, evaluated: a datagram `PONG` from `10.0.0.1`, port 1000, has
`sin_port == htons(1000) == 59395`; `do_recvfrom` sends the payload and then
`#XRECVFROM: 4,"10.0.0.1:59395"`, where `ntohs` of the field is 1000; and
`do_sendto` to port 1000 stores `htons(1000)` in the target. -/
theorem recvfrom_port_not_converted :
    htons 1000 = 59395 ∧ ntohs 59395 = 1000 ∧
    (do_recvfrom cfg_modem_tls
        (St.start udp_client 0
          (env_list [Outcome.datagram ['P', 'O', 'N', 'G']
            ⟨AF_INET, ['1', '0', '.', '0', '.', '0', '.', '1'], htons 1000⟩] (Ret.ok 0)))
        576).1.trace
      = [Event.call (Call.recvfrom 3 576) (Ret.ok 4),
         Event.data ['P', 'O', 'N', 'G'],
         Event.rsp (Rsp.xrecvfrom 4 ['1', '0', '.', '0', '.', '0', '.', '1'] 59395)] ∧
    (do_recvfrom cfg_modem_tls
        (St.start udp_client 0
          (env_list [Outcome.datagram ['P', 'O', 'N', 'G']
            ⟨AF_INET, ['1', '0', '.', '0', '.', '0', '.', '1'], htons 1000⟩] (Ret.ok 0)))
        576).2 = 0 ∧
    calls (do_sendto cfg_modem_tls 5
        (St.start udp_client 0 (env_list [Outcome.resolved [host_v4]] (Ret.ok 4)))
        ['h'] 1000 ['P', 'I', 'N', 'G']).1.trace
      = [Call.getaddrinfo ['h'],
         Call.sendto 3 ['P', 'I', 'N', 'G'] 4
           ⟨AF_INET, ['1', '0', '.', '0', '.', '0', '.', '1'], 59395⟩] := by
  decide

/-! ## Accepted connections -/

/-- Claim C28, evaluated: in the sequence open server, listen, accept, accept,
close, with `accept` returning the descriptors 4 and 5, the calls of `close` are
on 5 and 3: descriptor 4 is never closed, every command returns 0 and the
session ends CLOSED.  When the second `accept` fails instead, the only `close`
is on 3. -/
theorem second_accept_leaks_peer :
    accepted (run cfg_modem_tls 1 accept_twice
        (St.initial (env_list [Outcome.of (Ret.ok 3), Outcome.of (Ret.ok 0),
          Outcome.accepted 4, Outcome.accepted 5] (Ret.ok 0)))).trace = [4, 5] ∧
    close_calls (run cfg_modem_tls 1 accept_twice
        (St.initial (env_list [Outcome.of (Ret.ok 3), Outcome.of (Ret.ok 0),
          Outcome.accepted 4, Outcome.accepted 5] (Ret.ok 0)))).trace = [5, 3] ∧
    run_codes cfg_modem_tls 1 accept_twice
        (St.initial (env_list [Outcome.of (Ret.ok 3), Outcome.of (Ret.ok 0),
          Outcome.accepted 4, Outcome.accepted 5] (Ret.ok 0)))
      = [some 0, some 0, some 0, some 0, some 0] ∧
    (run cfg_modem_tls 1 accept_twice
        (St.initial (env_list [Outcome.of (Ret.ok 3), Outcome.of (Ret.ok 0),
          Outcome.accepted 4, Outcome.accepted 5] (Ret.ok 0)))).sock.closed ∧
    accepted (run cfg_modem_tls 1 accept_twice
        (St.initial (env_list [Outcome.of (Ret.ok 3), Outcome.of (Ret.ok 0),
          Outcome.accepted 4, Outcome.of (Ret.err errno_ECONNRESET)] (Ret.ok 0)))).trace = [4] ∧
    close_calls (run cfg_modem_tls 1 accept_twice
        (St.initial (env_list [Outcome.of (Ret.ok 3), Outcome.of (Ret.ok 0),
          Outcome.accepted 4, Outcome.of (Ret.err errno_ECONNRESET)] (Ret.ok 0)))).trace = [3] ∧
    (run cfg_modem_tls 1 accept_twice
        (St.initial (env_list [Outcome.of (Ret.ok 3), Outcome.of (Ret.ok 0),
          Outcome.accepted 4, Outcome.of (Ret.err errno_ECONNRESET)] (Ret.ok 0)))).sock.closed := by
  decide

/-! ## The address list of `AT#XGETADDRINFO` -/

/-- Claim C29, evaluated: for a lookup that returns `10.0.0.1` and `10.0.0.2`,
`AT#XGETADDRINFO="h"` answers `#XGETADDRINFO: "10.0.0.1 10.0.0.1"` and
returns 0. -/
theorem getaddrinfo_repeats_first :
    (handle_at_getaddrinfo .AT_CMD_TYPE_SET_COMMAND [.string [], .string ['h']]
        (St.start closed_session 0
          (env_list [Outcome.resolved [host_v4, host_v4_second]] (Ret.ok 0)))).1.trace
      = [Event.call (Call.getaddrinfo ['h']) (Ret.ok 0),
         Event.rsp (Rsp.xgetaddrinfo
           ['1', '0', '.', '0', '.', '0', '.', '1', ' ', '1', '0', '.', '0', '.', '0', '.', '1']),
         Event.call Call.freeaddrinfo (Ret.ok 0)] ∧
    (handle_at_getaddrinfo .AT_CMD_TYPE_SET_COMMAND [.string [], .string ['h']]
        (St.start closed_session 0
          (env_list [Outcome.resolved [host_v4, host_v4_second]] (Ret.ok 0)))).2 = 0 ∧
    host_v4_second.ai_addr.addr = ['1', '0', '.', '0', '.', '0', '.', '2'] := by
  decide

/-! ## Unknown operation codes -/

/-- Every `AT#XSOCKET` SET command whose `<op>` is read and is none of close,
open-IPv4, open-IPv6 returns 0 and leaves the state as it is. -/
theorem handle_at_socket_unknown_op (cfg : Config) (list : at_param_list) (st : St) (op : Int)
    (h1 : at_params_unsigned_short_get list 1 = .ok op)
    (hop : op ≠ AT_SOCKET_CLOSE ∧ op ≠ AT_SOCKET_OPEN_IPV4 ∧ op ≠ AT_SOCKET_OPEN_IPV6) :
    handle_at_socket cfg .AT_CMD_TYPE_SET_COMMAND list st = (st, 0) ∧
    handle_at_secure_socket cfg .AT_CMD_TYPE_SET_COMMAND list st = (st, 0) := by
  simp [handle_at_socket, handle_at_secure_socket, h1, hop.1, hop.2.1, hop.2.2]

/-- Every `AT#XSOCKETOPT` SET command on an open session whose `<op>` and
`<name>` are read and whose `<op>` is neither get nor set returns 0 and leaves
the state as it is. -/
theorem handle_at_socketopt_unknown_op (list : at_param_list) (st : St) (op name : Int)
    (hfd : 0 ≤ st.sock.fd)
    (h1 : at_params_unsigned_short_get list 1 = .ok op)
    (h2 : at_params_unsigned_short_get list 2 = .ok name)
    (hop : op ≠ AT_SOCKETOPT_GET ∧ op ≠ AT_SOCKETOPT_SET) :
    handle_at_socketopt .AT_CMD_TYPE_SET_COMMAND list st = (st, 0) := by
  have hneg : ¬ (st.sock.fd < 0) := by omega
  simp [handle_at_socketopt, hneg, h1, h2, hop.1, hop.2]

/-- Claim C30, evaluated: `AT#XSOCKET=7` and `AT#XSSOCKET=7` in the CLOSED
state, and `AT#XSOCKETOPT=5,2` on the open TCP client, return 0 with no call;
a command of unknown type, and a SET command without `<op>`, return
`-EINVAL`. -/
theorem unknown_op_accepted :
    (handle_at_socket cfg_modem_tls .AT_CMD_TYPE_SET_COMMAND [.string [], .num_int 7]
        (St.start closed_session 0 (env_ok 3))).2 = 0 ∧
    (handle_at_socket cfg_modem_tls .AT_CMD_TYPE_SET_COMMAND [.string [], .num_int 7]
        (St.start closed_session 0 (env_ok 3))).1.trace = [] ∧
    (handle_at_secure_socket cfg_modem_tls .AT_CMD_TYPE_SET_COMMAND [.string [], .num_int 7]
        (St.start closed_session 0 (env_ok 3))).2 = 0 ∧
    (handle_at_secure_socket cfg_modem_tls .AT_CMD_TYPE_SET_COMMAND [.string [], .num_int 7]
        (St.start closed_session 0 (env_ok 3))).1.trace = [] ∧
    (handle_at_socketopt .AT_CMD_TYPE_SET_COMMAND [.string [], .num_int 5, .num_int 2]
        (St.start tcp_client 0 (env_ok 0))).2 = 0 ∧
    (handle_at_socketopt .AT_CMD_TYPE_SET_COMMAND [.string [], .num_int 5, .num_int 2]
        (St.start tcp_client 0 (env_ok 0))).1.trace = [] ∧
    (handle_at_socket cfg_modem_tls .AT_CMD_TYPE_UNKNOWN [.string [], .num_int 7]
        (St.start closed_session 0 (env_ok 3))).2 = -EINVAL ∧
    (handle_at_socket cfg_modem_tls .AT_CMD_TYPE_SET_COMMAND [.string []]
        (St.start closed_session 0 (env_ok 3))).2 = -EINVAL := by
  decide

/-! ## The peer verification level that is written -/

theorem do_secure_socket_open_writes (cfg : Config) (st : St) (pv : Int) (v : Nat)
    (ht : st.trace = []) (hfd : st.sock.fd = INVALID_SOCKET)
    (htype : st.sock.type = SOCK_STREAM ∨ st.sock.type = SOCK_DGRAM)
    (hsocket : (st.env 0).ret = Ret.ok v)
    (hsetup : ∀ n, 0 < n → n < (if cfg.CONFIG_SLM_NATIVE_TLS then 3 else 2) →
      ∃ w, (st.env n).ret = Ret.ok w) :
    peer_verify_writes (do_secure_socket_open cfg st pv).1.trace = [((v : Int), OptVal.int pv)] := by
  have hv : ¬ ((v : Int) < 0) := by omega
  have hne : ¬ (SOCK_DGRAM = SOCK_STREAM) := by decide
  have hne2 : ¬ (TLS_SEC_TAG_LIST = TLS_PEER_VERIFY) := by decide
  cases hN : cfg.CONFIG_SLM_NATIVE_TLS with
  | false =>
    obtain ⟨w1, h1⟩ := hsetup 1 (by omega) (by simp [hN])
    rcases htype with hty | hty <;> cases h2 : (st.env 2).ret <;> cases h3 : (st.env 3).ret <;>
      simp [do_secure_socket_open, do_secure_socket_created, do_secure_socket_attach,
        secure_error_exit, St.socket, St.sys, St.ext, St.setSock, St.rsp_send, hfd, hty, hne,
        hsocket, h1, h2, h3, hN, hv, ht, Ret.value, Ret.status, Ret.code, peer_verify_writes, hne2]
  | true =>
    obtain ⟨w1, h1⟩ := hsetup 1 (by omega) (by simp [hN])
    obtain ⟨w2, h2⟩ := hsetup 2 (by omega) (by simp [hN])
    rcases htype with hty | hty <;> cases h3 : (st.env 3).ret <;> cases h4 : (st.env 4).ret <;>
      simp [do_secure_socket_open, do_secure_socket_created, do_secure_socket_attach,
        secure_error_exit, St.socket, St.sys, St.ext, St.setSock, St.rsp_send, hfd, hty, hne,
        hsocket, h1, h2, h3, h4, hN, hv, ht, Ret.value, Ret.status, Ret.code, peer_verify_writes,
        hne2]


theorem handle_at_secure_socket_parsed (cfg : Config) (list : at_param_list) (st : St)
    (op type role tag pv hv : Int)
    (h1 : at_params_unsigned_short_get list 1 = .ok op)
    (hop : op = AT_SOCKET_OPEN_IPV4 ∨ op = AT_SOCKET_OPEN_IPV6)
    (h2 : at_params_unsigned_short_get list 2 = .ok type)
    (h3 : at_params_unsigned_short_get list 3 = .ok role)
    (hrole : role = AT_SOCKET_ROLE_SERVER ∨ role = AT_SOCKET_ROLE_CLIENT)
    (h4 : at_params_unsigned_int_get list 4 = .ok tag)
    (h5 : optional_unsigned_short list 5 5
      (if role = AT_SOCKET_ROLE_SERVER then TLS_PEER_VERIFY_NONE else TLS_PEER_VERIFY_REQUIRED)
      = .ok pv)
    (h6 : optional_unsigned_short list 6 6 0 = .ok hv) :
    handle_at_secure_socket cfg .AT_CMD_TYPE_SET_COMMAND list st
      = do_secure_socket_open cfg
          (st.setSock (fun s =>
            { s with
                type := type
                role := role
                sec_tag := int_of_uint32_store tag
                hostname_verify := hv
                family := if op = AT_SOCKET_OPEN_IPV4 then AF_INET else AF_INET6 }))
          pv := by
  have hne : ¬ (AT_SOCKET_ROLE_CLIENT = AT_SOCKET_ROLE_SERVER) := by decide
  rcases hrole with hr | hr <;> subst hr <;>
    simp [hne] at h5 <;>
    simp [handle_at_secure_socket, handle_at_secure_socket_open, h1, hop, h2, h3, h4, h5, h6,
      hne, St.setSock]

theorem peer_verify_written (cfg : Config) (list : at_param_list) (s : Sock) (errno : Int)
    (env : Nat → Outcome) (op type role tag : Int) (v : Nat) (given : Option Int)
    (hfd : s.fd = INVALID_SOCKET)
    (h1 : at_params_unsigned_short_get list 1 = .ok op)
    (hop : op = AT_SOCKET_OPEN_IPV4 ∨ op = AT_SOCKET_OPEN_IPV6)
    (h2 : at_params_unsigned_short_get list 2 = .ok type)
    (htype : type = SOCK_STREAM ∨ type = SOCK_DGRAM)
    (h3 : at_params_unsigned_short_get list 3 = .ok role)
    (hrole : role = AT_SOCKET_ROLE_SERVER ∨ role = AT_SOCKET_ROLE_CLIENT)
    (h4 : at_params_unsigned_int_get list 4 = .ok tag)
    (h5 : (at_params_valid_count_get list ≤ 5 ∧ given = none) ∨
      (at_params_valid_count_get list > 5 ∧ ∃ pv, given = some pv ∧
        at_params_unsigned_short_get list 5 = .ok pv))
    (h6 : at_params_valid_count_get list > 6 →
      ∃ hv, at_params_unsigned_short_get list 6 = .ok hv)
    (hsocket : (env 0).ret = Ret.ok v)
    (hsetup : ∀ n, 0 < n → n < (if cfg.CONFIG_SLM_NATIVE_TLS then 3 else 2) →
      ∃ w, (env n).ret = Ret.ok w) :
    peer_verify_writes (handle_at_secure_socket cfg .AT_CMD_TYPE_SET_COMMAND list
        (St.start s errno env)).1.trace
      = [((v : Int), OptVal.int (spec_peer_verify role given))] := by
  have hpv : optional_unsigned_short list 5 5
      (if role = AT_SOCKET_ROLE_SERVER then TLS_PEER_VERIFY_NONE else TLS_PEER_VERIFY_REQUIRED)
      = .ok (spec_peer_verify role given) := by
    rcases h5 with ⟨hc, hg⟩ | ⟨hc, pv, hg, hp⟩
    · have : ¬ (at_params_valid_count_get list > 5) := by omega
      simp [optional_unsigned_short, this, hg, spec_peer_verify]
    · simp [optional_unsigned_short, hc, hg, hp, spec_peer_verify]
  have hhv : ∃ hv, optional_unsigned_short list 6 6 0 = .ok hv := by
    by_cases hc : at_params_valid_count_get list > 6
    · obtain ⟨hv, h⟩ := h6 hc
      exact ⟨hv, by simp [optional_unsigned_short, hc, h]⟩
    · exact ⟨0, by simp [optional_unsigned_short, hc]⟩
  obtain ⟨hv, hhv⟩ := hhv
  rw [handle_at_secure_socket_parsed cfg list _ op type role tag _ hv h1 hop h2 h3 hrole h4
    hpv hhv]
  exact do_secure_socket_open_writes cfg _ _ v rfl hfd htype hsocket hsetup

/-- Claim C16: for every `AT#XSSOCKET` SET command, (1) a value written to the
option `TLS_PEER_VERIFY` is the given `<peer_verify>` when the command has that
parameter, `TLS_PEER_VERIFY_NONE` when it has none and the role is server, and
`TLS_PEER_VERIFY_REQUIRED` when it has none and the role is client; (2) when the
command is an open in the CLOSED state with a type of stream or datagram and a
role of client or server, `socket` returns the descriptor `v` and the calls
before the write succeed, then the option is written exactly once, on `v`, with
the level of the specification: the given `<peer_verify>`, or else none for a
server and required for a client; (3) an open whose role is neither client nor
server returns `-EINVAL` without any call. -/
theorem peer_verify_default (cfg : Config) (list : at_param_list) (s : Sock) (errno : Int)
    (env : Nat → Outcome) :
    (∀ fd val r, Event.call (Call.setsockopt fd SOL_TLS TLS_PEER_VERIFY val) r
        ∈ (handle_at_secure_socket cfg .AT_CMD_TYPE_SET_COMMAND list
            (St.start s errno env)).1.trace →
      ∃ role, at_params_unsigned_short_get list 3 = .ok role ∧
        (at_params_valid_count_get list > 5 →
          ∃ pv, at_params_unsigned_short_get list 5 = .ok pv ∧ val = OptVal.int pv) ∧
        (¬ at_params_valid_count_get list > 5 →
          (role = AT_SOCKET_ROLE_SERVER ∧ val = OptVal.int TLS_PEER_VERIFY_NONE) ∨
          (role = AT_SOCKET_ROLE_CLIENT ∧ val = OptVal.int TLS_PEER_VERIFY_REQUIRED))) ∧
    (∀ (op type role tag : Int) (v : Nat) (given : Option Int),
      s.fd = INVALID_SOCKET →
      at_params_unsigned_short_get list 1 = .ok op →
      (op = AT_SOCKET_OPEN_IPV4 ∨ op = AT_SOCKET_OPEN_IPV6) →
      at_params_unsigned_short_get list 2 = .ok type →
      (type = SOCK_STREAM ∨ type = SOCK_DGRAM) →
      at_params_unsigned_short_get list 3 = .ok role →
      (role = AT_SOCKET_ROLE_SERVER ∨ role = AT_SOCKET_ROLE_CLIENT) →
      at_params_unsigned_int_get list 4 = .ok tag →
      ((at_params_valid_count_get list ≤ 5 ∧ given = none) ∨
        (at_params_valid_count_get list > 5 ∧ ∃ pv, given = some pv ∧
          at_params_unsigned_short_get list 5 = .ok pv)) →
      (at_params_valid_count_get list > 6 →
        ∃ hv, at_params_unsigned_short_get list 6 = .ok hv) →
      (env 0).ret = Ret.ok v →
      (∀ n, 0 < n → n < (if cfg.CONFIG_SLM_NATIVE_TLS then 3 else 2) →
        ∃ w, (env n).ret = Ret.ok w) →
      peer_verify_writes (handle_at_secure_socket cfg .AT_CMD_TYPE_SET_COMMAND list
          (St.start s errno env)).1.trace
        = [((v : Int), OptVal.int (spec_peer_verify role given))]) ∧
    (∀ op type role, at_params_unsigned_short_get list 1 = .ok op →
      (op = AT_SOCKET_OPEN_IPV4 ∨ op = AT_SOCKET_OPEN_IPV6) →
      at_params_unsigned_short_get list 2 = .ok type →
      at_params_unsigned_short_get list 3 = .ok role →
      role ≠ AT_SOCKET_ROLE_SERVER → role ≠ AT_SOCKET_ROLE_CLIENT →
      (handle_at_secure_socket cfg .AT_CMD_TYPE_SET_COMMAND list (St.start s errno env)).2
        = -EINVAL ∧
      (handle_at_secure_socket cfg .AT_CMD_TYPE_SET_COMMAND list
        (St.start s errno env)).1.trace = []) := by
  have hp := peer_verify_default_parts cfg list s errno env
  exact ⟨hp.1,
    fun op type role tag v given hfd h1 hop h2 htype h3 hrole h4 h5 h6 hsocket hsetup =>
      peer_verify_written cfg list s errno env op type role tag v given hfd h1 hop h2 htype h3
        hrole h4 h5 h6 hsocket hsetup,
    hp.2⟩

/-- Witness of claim C16: in the CLOSED state, every call succeeding with
descriptor 3, `AT#XSSOCKET=1,1,1,42` (server) writes `TLS_PEER_VERIFY_NONE`,
`AT#XSSOCKET=1,1,0,42` (client) writes `TLS_PEER_VERIFY_REQUIRED` and
`AT#XSSOCKET=1,1,0,42,1` writes the given level 1; `AT#XSSOCKET=1,1,5,42` has a
role that is neither client nor server. -/
theorem peer_verify_default_witness :
    peer_verify_writes (handle_at_secure_socket cfg_modem_tls .AT_CMD_TYPE_SET_COMMAND
        [.string [], .num_int 1, .num_int 1, .num_int 1, .num_int 42]
        (St.start closed_session 0 (env_ok 3))).1.trace
      = [(3, OptVal.int TLS_PEER_VERIFY_NONE)] ∧
    peer_verify_writes (handle_at_secure_socket cfg_modem_tls .AT_CMD_TYPE_SET_COMMAND
        [.string [], .num_int 1, .num_int 1, .num_int 0, .num_int 42]
        (St.start closed_session 0 (env_ok 3))).1.trace
      = [(3, OptVal.int TLS_PEER_VERIFY_REQUIRED)] ∧
    peer_verify_writes (handle_at_secure_socket cfg_native_tls .AT_CMD_TYPE_SET_COMMAND
        [.string [], .num_int 1, .num_int 1, .num_int 0, .num_int 42, .num_int 1]
        (St.start closed_session 0 (env_ok 3))).1.trace
      = [(3, OptVal.int 1)] ∧
    (handle_at_secure_socket cfg_modem_tls .AT_CMD_TYPE_SET_COMMAND
        [.string [], .num_int 1, .num_int 1, .num_int 5, .num_int 42]
        (St.start closed_session 0 (env_ok 3))).2 = -EINVAL ∧
    (handle_at_secure_socket cfg_modem_tls .AT_CMD_TYPE_SET_COMMAND
        [.string [], .num_int 1, .num_int 1, .num_int 5, .num_int 42]
        (St.start closed_session 0 (env_ok 3))).1.trace = [] :=
  ⟨(peer_verify_default cfg_modem_tls
      [.string [], .num_int 1, .num_int 1, .num_int 1, .num_int 42]
      closed_session 0 (env_ok 3)).2.1 1 1 1 42 3 none rfl rfl (Or.inl rfl) rfl (Or.inl rfl) rfl
      (Or.inl rfl) rfl (Or.inl ⟨by decide, rfl⟩) (fun h => absurd h (by decide)) rfl
      (fun _ _ _ => ⟨3, rfl⟩),
   (peer_verify_default cfg_modem_tls
      [.string [], .num_int 1, .num_int 1, .num_int 0, .num_int 42]
      closed_session 0 (env_ok 3)).2.1 1 1 0 42 3 none rfl rfl (Or.inl rfl) rfl (Or.inl rfl) rfl
      (Or.inr rfl) rfl (Or.inl ⟨by decide, rfl⟩) (fun h => absurd h (by decide)) rfl
      (fun _ _ _ => ⟨3, rfl⟩),
   (peer_verify_default cfg_native_tls
      [.string [], .num_int 1, .num_int 1, .num_int 0, .num_int 42, .num_int 1]
      closed_session 0 (env_ok 3)).2.1 1 1 0 42 3 (some 1) rfl rfl (Or.inl rfl) rfl (Or.inl rfl)
      rfl (Or.inr rfl) rfl (Or.inr ⟨by decide, 1, rfl, rfl⟩) (fun h => absurd h (by decide)) rfl
      (fun _ _ _ => ⟨3, rfl⟩),
   (peer_verify_default cfg_modem_tls
      [.string [], .num_int 1, .num_int 1, .num_int 5, .num_int 42]
      closed_session 0 (env_ok 3)).2.2 1 1 5 rfl (Or.inl rfl) rfl rfl (by decide) (by decide)⟩

/-! ## The target of `connect` and `sendto` -/

theorem target_eq_spec (res : addrinfo) (port : Int) : target res port = spec_target res port :=
  rfl

theorem sendto_loop_extends (cfg : Config) (data : List Char) (dest : sockaddr) :
    ∀ (fuel : Nat) (st : St) (ret : Int) (offset : Nat),
      ∃ new, (sendto_loop cfg data dest fuel st ret offset).1.trace = st.trace ++ new := by
  intro fuel
  induction fuel with
  | zero => intro st ret offset; exact ⟨[], by simp [sendto_loop]⟩
  | succ fuel ih =>
    intro st ret offset
    unfold sendto_loop
    by_cases hlt : offset < data.length
    · simp only [if_pos hlt]
      split
      · obtain ⟨new, hn, -⟩ := transfer_error_new cfg
          (st.sys (Call.sendto st.sock.fd (data.drop offset) (data.length - offset) dest)).1
        exact ⟨Event.call (Call.sendto st.sock.fd (data.drop offset) (data.length - offset) dest)
          (st.env 0).ret :: new, by rw [hn]; simp [St.sys]⟩
      · obtain ⟨new, hn⟩ := ih
          (st.sys (Call.sendto st.sock.fd (data.drop offset) (data.length - offset) dest)).1
          (st.sys (Call.sendto st.sock.fd (data.drop offset)
            (data.length - offset) dest)).2.ret.value
          ((offset + (st.sys (Call.sendto st.sock.fd (data.drop offset)
            (data.length - offset) dest)).2.ret.value.toNat) % 2 ^ 32)
        exact ⟨Event.call (Call.sendto st.sock.fd (data.drop offset) (data.length - offset) dest)
          (st.env 0).ret :: new, by rw [hn]; simp [St.sys]⟩
    · simp only [if_neg hlt]
      exact ⟨[], by simp⟩

theorem sendto_loop_first (cfg : Config) (data : List Char) (dest : sockaddr) (fuel : Nat)
    (st : St) (ret : Int) (hdata : data ≠ []) (hfuel : 0 < fuel) :
    ∃ new, (sendto_loop cfg data dest fuel st ret 0).1.trace
      = st.trace ++ Event.call (Call.sendto st.sock.fd data data.length dest) (st.env 0).ret
          :: new := by
  cases fuel with
  | zero => omega
  | succ f =>
    have hlt : 0 < data.length := List.length_pos.mpr hdata
    unfold sendto_loop
    simp only [if_pos hlt, List.drop_zero, Nat.sub_zero]
    split
    · obtain ⟨new, hn, -⟩ := transfer_error_new cfg
        (st.sys (Call.sendto st.sock.fd data data.length dest)).1
      exact ⟨new, by rw [hn]; simp [St.sys]⟩
    · obtain ⟨new, hn⟩ := sendto_loop_extends cfg data dest f
        (st.sys (Call.sendto st.sock.fd data data.length dest)).1
        (st.sys (Call.sendto st.sock.fd data data.length dest)).2.ret.value
        ((0 + (st.sys (Call.sendto st.sock.fd data data.length dest)).2.ret.value.toNat)
          % 2 ^ 32)
      exact ⟨new, by rw [hn]; simp [St.sys]⟩

theorem do_sendto_resolved_first (cfg : Config) (fuel : Nat) (st : St) (url : List Char)
    (port : Int) (data : List Char) (res : addrinfo) (hdata : data ≠ []) (hfuel : 0 < fuel)
    (hs : (set_tls_hostname cfg st url).2 = none) :
    ∃ new, (do_sendto_resolved cfg fuel st url port data res).1.trace
      = (set_tls_hostname cfg st url).1.trace ++
          Event.call (Call.sendto (set_tls_hostname cfg st url).1.sock.fd data data.length
            (spec_target res port)) ((set_tls_hostname cfg st url).1.env 0).ret :: new := by
  obtain ⟨new, hn⟩ := sendto_loop_first cfg data (target res port) fuel
    (set_tls_hostname cfg st url).1 0 hdata hfuel
  rw [target_eq_spec] at hn
  cases h : (sendto_loop cfg data (target res port) fuel (set_tls_hostname cfg st url).1 0 0).2 with
  | none =>
    simp only [do_sendto_resolved, hs, h]
    exact ⟨new, hn⟩
  | some ro =>
    simp only [do_sendto_resolved, hs, h, St.rsp_send]
    rw [target_eq_spec] at *
    exact ⟨new ++ [Event.rsp (Rsp.xsendto (int_of_uint32 ro.2))], by rw [hn]; simp⟩


theorem calls_take_two (c1 c2 : Call) (r1 r2 : Ret) (new : List Event) :
    (calls (Event.call c1 r1 :: Event.call c2 r2 :: new)).take 2 = [c1, c2] := by
  simp [calls]

theorem calls_take_three (c1 c2 c3 : Call) (r1 r2 r3 : Ret) (new : List Event) :
    (calls (Event.call c1 r1 :: Event.call c2 r2 :: Event.call c3 r3 :: new)).take 3
      = [c1, c2, c3] := by
  simp [calls]

theorem do_connect_resolved_first (cfg : Config) (st : St) (url : List Char) (port : Int)
    (res : addrinfo) (hs : (set_tls_hostname cfg st url).2 = none) :
    ∃ new, (do_connect_resolved cfg st url port res).1.trace
      = (set_tls_hostname cfg st url).1.trace ++
          Event.call (Call.connect (set_tls_hostname cfg st url).1.sock.fd
            (spec_target res port)) ((set_tls_hostname cfg st url).1.env 0).ret :: new := by
  simp only [do_connect_resolved, hs]
  split
  · obtain ⟨new, hn, -⟩ := do_socket_close_new cfg
      ((set_tls_hostname cfg st url).1.sys
        (Call.connect (set_tls_hostname cfg st url).1.sock.fd (target res port))).1
      (-((set_tls_hostname cfg st url).1.sys
        (Call.connect (set_tls_hostname cfg st url).1.sock.fd (target res port))).1.errno)
    refine ⟨new, ?_⟩
    simp only [close_and_fail]
    rw [hn]
    simp [St.sys, target_eq_spec]
  · exact ⟨[Event.rsp Rsp.xconnect, Event.call Call.freeaddrinfo (Ret.ok 0)],
      by simp [St.sys, St.rsp_send, St.void, target_eq_spec]⟩

theorem set_tls_hostname_plain (cfg : Config) (st : St) (url : List Char)
    (hsec : st.sock.sec_tag = INVALID_SEC_TAG) :
    set_tls_hostname cfg st url = (st, none) := by
  simp [set_tls_hostname, hsec]

theorem set_tls_hostname_ok (cfg : Config) (st : St) (url : List Char) (w : Nat)
    (hsec : st.sock.sec_tag ≠ INVALID_SEC_TAG) (h0 : (st.env 0).ret = Ret.ok w) :
    (set_tls_hostname cfg st url).2 = none ∧
    (set_tls_hostname cfg st url).1.trace
      = st.trace ++ [Event.call (Call.setsockopt st.sock.fd SOL_TLS TLS_HOSTNAME
          (if st.sock.hostname_verify ≠ 0 then OptVal.str url else OptVal.null)) (Ret.ok w)] ∧
    (set_tls_hostname cfg st url).1.sock = st.sock ∧
    ∀ n, (set_tls_hostname cfg st url).1.env n = st.env (n + 1) := by
  by_cases hv : st.sock.hostname_verify = 0 <;>
    simp [set_tls_hostname, hsec, hv, St.sys, h0, Ret.status]

theorem first_address_is_target (cfg : Config) (fuel : Nat) (s : Sock) (errno : Int)
    (env : Nat → Outcome) (url : List Char) (port : Int) (data : List Char)
    (res : addrinfo) (rest : List addrinfo) (v : Nat)
    (hfam : s.family = AF_INET ∨ s.family = AF_INET6)
    (hret : (env 0).ret = Ret.ok v) (haddrs : (env 0).addrs = res :: rest)
    (hsame : res.ai_family = s.family) :
    (s.sec_tag = INVALID_SEC_TAG →
      (calls (do_connect cfg (St.start s errno env) url port).1.trace).take 2
        = [Call.getaddrinfo url, Call.connect s.fd (spec_target res port)]) ∧
    (s.sec_tag ≠ INVALID_SEC_TAG → ∀ w, (env 1).ret = Ret.ok w →
      (calls (do_connect cfg (St.start s errno env) url port).1.trace).take 3
        = [Call.getaddrinfo url,
           Call.setsockopt s.fd SOL_TLS TLS_HOSTNAME
             (if s.hostname_verify ≠ 0 then OptVal.str url else OptVal.null),
           Call.connect s.fd (spec_target res port)]) ∧
    (data ≠ [] → 0 < fuel → s.sec_tag = INVALID_SEC_TAG →
      (calls (do_sendto cfg fuel (St.start s errno env) url port data).1.trace).take 2
        = [Call.getaddrinfo url, Call.sendto s.fd data data.length (spec_target res port)]) ∧
    (data ≠ [] → 0 < fuel → s.sec_tag ≠ INVALID_SEC_TAG → ∀ w, (env 1).ret = Ret.ok w →
      (calls (do_sendto cfg fuel (St.start s errno env) url port data).1.trace).take 3
        = [Call.getaddrinfo url,
           Call.setsockopt s.fd SOL_TLS TLS_HOSTNAME
             (if s.hostname_verify ≠ 0 then OptVal.str url else OptVal.null),
           Call.sendto s.fd data data.length (spec_target res port)]) := by
  have hne : ¬ (AF_INET6 = AF_INET) := by decide
  have hne2 : ¬ (AF_INET = AF_INET6) := by decide
  have hok : ¬ family_mismatch s res := by
    unfold family_mismatch
    rcases hfam with h | h
    · simp [h, hsame, hne2]
    · simp [h, hsame, hne]
  have hc : do_connect cfg (St.start s errno env) url port
      = do_connect_resolved cfg ((St.start s errno env).ext (Call.getaddrinfo url)).1
          url port res := by
    simp [do_connect, St.ext, St.start, hret, haddrs, hok]
  have hs : do_sendto cfg fuel (St.start s errno env) url port data
      = do_sendto_resolved cfg fuel ((St.start s errno env).ext (Call.getaddrinfo url)).1
          url port data res := by
    simp [do_sendto, St.ext, St.start, hret, haddrs, hok]
  have hg : ((St.start s errno env).ext (Call.getaddrinfo url)).1.trace
      = [Event.call (Call.getaddrinfo url) (Ret.ok v)] := by
    simp [St.ext, St.start, hret]
  have hgs : ((St.start s errno env).ext (Call.getaddrinfo url)).1.sock = s := rfl
  have hge : ∀ n, ((St.start s errno env).ext (Call.getaddrinfo url)).1.env n = env (n + 1) :=
    fun _ => rfl
  refine ⟨fun hsec => ?_, fun hsec w h1 => ?_, fun hdata hfuel hsec => ?_,
    fun hdata hfuel hsec w h1 => ?_⟩
  · have hp := set_tls_hostname_plain cfg
      ((St.start s errno env).ext (Call.getaddrinfo url)).1 url (by rw [hgs]; exact hsec)
    obtain ⟨new, hn⟩ := do_connect_resolved_first cfg
      ((St.start s errno env).ext (Call.getaddrinfo url)).1 url port res (by rw [hp])
    rw [hc, hn, hp]
    simp only [hg, hgs, List.singleton_append]
    exact calls_take_two _ _ _ _ _
  · obtain ⟨k1, k2, k3, k4⟩ := set_tls_hostname_ok cfg
      ((St.start s errno env).ext (Call.getaddrinfo url)).1 url w (by rw [hgs]; exact hsec)
      (by rw [hge]; exact h1)
    obtain ⟨new, hn⟩ := do_connect_resolved_first cfg
      ((St.start s errno env).ext (Call.getaddrinfo url)).1 url port res k1
    rw [hc, hn, k2, k3]
    simp only [hg, hgs, List.singleton_append, List.cons_append, List.nil_append]
    exact calls_take_three _ _ _ _ _ _ _
  · have hp := set_tls_hostname_plain cfg
      ((St.start s errno env).ext (Call.getaddrinfo url)).1 url (by rw [hgs]; exact hsec)
    obtain ⟨new, hn⟩ := do_sendto_resolved_first cfg fuel
      ((St.start s errno env).ext (Call.getaddrinfo url)).1 url port data res hdata hfuel
      (by rw [hp])
    rw [hs, hn, hp]
    simp only [hg, hgs, List.singleton_append]
    exact calls_take_two _ _ _ _ _
  · obtain ⟨k1, k2, k3, k4⟩ := set_tls_hostname_ok cfg
      ((St.start s errno env).ext (Call.getaddrinfo url)).1 url w (by rw [hgs]; exact hsec)
      (by rw [hge]; exact h1)
    obtain ⟨new, hn⟩ := do_sendto_resolved_first cfg fuel
      ((St.start s errno env).ext (Call.getaddrinfo url)).1 url port data res hdata hfuel k1
    rw [hs, hn, k2, k3]
    simp only [hg, hgs, List.singleton_append, List.cons_append, List.nil_append]
    exact calls_take_three _ _ _ _ _ _ _

/-- Claim C17: on a session whose family is `AF_INET` or `AF_INET6`, after a
successful lookup whose first address `res` has another family, `do_connect`
and `do_sendto` return `-EINVAL`, make no call but `getaddrinfo` and
`freeaddrinfo` (no `connect`, `sendto` or `setsockopt`), send no response and
leave the session unchanged.  When the families agree, every `connect` and
`sendto` call has the target of the specification, the address of `res` with
the port in network byte order; and the call is made: `do_connect` calls
`connect` on that target right after the lookup (on a secured session after the
`TLS_HOSTNAME` option, when setting it succeeds), and `do_sendto` with a
payload does the same with `sendto`. -/
theorem address_family_check (cfg : Config) (fuel : Nat) (s : Sock) (errno : Int)
    (env : Nat → Outcome) (url : List Char) (port : Int) (data : List Char)
    (res : addrinfo) (rest : List addrinfo) (v : Nat)
    (hfam : s.family = AF_INET ∨ s.family = AF_INET6)
    (hret : (env 0).ret = Ret.ok v) (haddrs : (env 0).addrs = res :: rest) :
    (res.ai_family ≠ s.family →
      (do_connect cfg (St.start s errno env) url port).2 = -EINVAL ∧
      (do_connect cfg (St.start s errno env) url port).1.trace
        = [Event.call (Call.getaddrinfo url) (Ret.ok v),
           Event.call Call.freeaddrinfo (Ret.ok 0)] ∧
      (do_connect cfg (St.start s errno env) url port).1.sock = s ∧
      (do_sendto cfg fuel (St.start s errno env) url port data).2 = some (-EINVAL) ∧
      (do_sendto cfg fuel (St.start s errno env) url port data).1.trace
        = [Event.call (Call.getaddrinfo url) (Ret.ok v),
           Event.call Call.freeaddrinfo (Ret.ok 0)] ∧
      (do_sendto cfg fuel (St.start s errno env) url port data).1.sock = s) ∧
    (res.ai_family = s.family →
      (∀ ev ∈ (do_connect cfg (St.start s errno env) url port).1.trace,
        ev.targets (spec_target res port)) ∧
      (∀ ev ∈ (do_sendto cfg fuel (St.start s errno env) url port data).1.trace,
        ev.targets (spec_target res port)) ∧
      (s.sec_tag = INVALID_SEC_TAG →
        (calls (do_connect cfg (St.start s errno env) url port).1.trace).take 2
          = [Call.getaddrinfo url, Call.connect s.fd (spec_target res port)]) ∧
      (s.sec_tag ≠ INVALID_SEC_TAG → ∀ w, (env 1).ret = Ret.ok w →
        (calls (do_connect cfg (St.start s errno env) url port).1.trace).take 3
          = [Call.getaddrinfo url,
             Call.setsockopt s.fd SOL_TLS TLS_HOSTNAME
               (if s.hostname_verify ≠ 0 then OptVal.str url else OptVal.null),
             Call.connect s.fd (spec_target res port)]) ∧
      (data ≠ [] → 0 < fuel → s.sec_tag = INVALID_SEC_TAG →
        (calls (do_sendto cfg fuel (St.start s errno env) url port data).1.trace).take 2
          = [Call.getaddrinfo url,
             Call.sendto s.fd data data.length (spec_target res port)]) ∧
      (data ≠ [] → 0 < fuel → s.sec_tag ≠ INVALID_SEC_TAG → ∀ w, (env 1).ret = Ret.ok w →
        (calls (do_sendto cfg fuel (St.start s errno env) url port data).1.trace).take 3
          = [Call.getaddrinfo url,
             Call.setsockopt s.fd SOL_TLS TLS_HOSTNAME
               (if s.hostname_verify ≠ 0 then OptVal.str url else OptVal.null),
             Call.sendto s.fd data data.length (spec_target res port)])) := by
  have hp := address_family_check_parts cfg fuel s errno env url port data res rest v hfam hret
    haddrs
  refine ⟨hp.1, fun hsame => ?_⟩
  obtain ⟨a, b, -⟩ := hp.2 hsame
  obtain ⟨c1, c2, c3, c4⟩ := first_address_is_target cfg fuel s errno env url port data res rest
    v hfam hret haddrs hsame
  rw [target_eq_spec] at a b
  exact ⟨a, b, c1, c2, c3, c4⟩

/-- Witness of claim C17: on the TCP client of family `AF_INET`, a lookup whose
first address is of family `AF_INET6` ends `do_connect` with `-EINVAL` after
`getaddrinfo` and `freeaddrinfo`; a lookup that returns `10.0.0.1` and
`10.0.0.2` makes `do_connect` to port 1000 call `connect` on `10.0.0.1` with the
port field 59395, and `do_sendto` on the UDP client call `sendto` on the same
target; the TLS client sets the hostname option first. -/
theorem address_family_check_witness :
    ((do_connect cfg_modem_tls
        (St.start tcp_client 0 (env_list [Outcome.resolved [host_v6]] (Ret.ok 0)))
        ['h'] 1000).2 = -EINVAL ∧
      (do_connect cfg_modem_tls
        (St.start tcp_client 0 (env_list [Outcome.resolved [host_v6]] (Ret.ok 0)))
        ['h'] 1000).1.trace
        = [Event.call (Call.getaddrinfo ['h']) (Ret.ok 0),
           Event.call Call.freeaddrinfo (Ret.ok 0)]) ∧
    (calls (do_connect cfg_modem_tls
        (St.start tcp_client 0
          (env_list [Outcome.resolved [host_v4, host_v4_second]] (Ret.ok 0)))
        ['h'] 1000).1.trace).take 2
      = [Call.getaddrinfo ['h'],
         Call.connect 3 ⟨AF_INET, ['1', '0', '.', '0', '.', '0', '.', '1'], 59395⟩] ∧
    (calls (do_sendto cfg_modem_tls 5
        (St.start udp_client 0
          (env_list [Outcome.resolved [host_v4, host_v4_second]] (Ret.ok 4)))
        ['h'] 1000 ['P', 'I', 'N', 'G']).1.trace).take 2
      = [Call.getaddrinfo ['h'],
         Call.sendto 3 ['P', 'I', 'N', 'G'] 4
           ⟨AF_INET, ['1', '0', '.', '0', '.', '0', '.', '1'], 59395⟩] ∧
    (calls (do_connect cfg_modem_tls
        (St.start tls_client 0
          (env_list [Outcome.resolved [host_v4, host_v4_second]] (Ret.ok 0)))
        ['h'] 1000).1.trace).take 3
      = [Call.getaddrinfo ['h'],
         Call.setsockopt 3 SOL_TLS TLS_HOSTNAME OptVal.null,
         Call.connect 3 ⟨AF_INET, ['1', '0', '.', '0', '.', '0', '.', '1'], 59395⟩] :=
  ⟨⟨((address_family_check cfg_modem_tls 5 tcp_client 0
        (env_list [Outcome.resolved [host_v6]] (Ret.ok 0)) ['h'] 1000 ['P', 'I', 'N', 'G']
        host_v6 [] 0 (Or.inl rfl) rfl rfl).1 (by decide)).1,
     ((address_family_check cfg_modem_tls 5 tcp_client 0
        (env_list [Outcome.resolved [host_v6]] (Ret.ok 0)) ['h'] 1000 ['P', 'I', 'N', 'G']
        host_v6 [] 0 (Or.inl rfl) rfl rfl).1 (by decide)).2.1⟩,
   ((address_family_check cfg_modem_tls 5 tcp_client 0
      (env_list [Outcome.resolved [host_v4, host_v4_second]] (Ret.ok 0)) ['h'] 1000
      ['P', 'I', 'N', 'G'] host_v4 [host_v4_second] 0 (Or.inl rfl) rfl rfl).2 rfl).2.2.1 rfl,
   ((address_family_check cfg_modem_tls 5 udp_client 0
      (env_list [Outcome.resolved [host_v4, host_v4_second]] (Ret.ok 4)) ['h'] 1000
      ['P', 'I', 'N', 'G'] host_v4 [host_v4_second] 0 (Or.inl rfl) rfl rfl).2 rfl).2.2.2.2.1
      (by decide) (by decide) rfl,
   ((address_family_check cfg_modem_tls 5 tls_client 0
      (env_list [Outcome.resolved [host_v4, host_v4_second]] (Ret.ok 0)) ['h'] 1000
      ['P', 'I', 'N', 'G'] host_v4 [host_v4_second] 0 (Or.inl rfl) rfl rfl).2 rfl).2.2.2.1
      (by decide) 0 rfl⟩

/-! ## A lookup with addresses of both families -/

/-- The response of `AT#XGETADDRINFO="h"` for a lookup that returns `10.0.0.1`
and `::1`: the second element prints the bytes of the first address read as an
IPv6 address, the text `as_inet6` of the environment, not `::1`. -/
theorem getaddrinfo_mixed_families (as_inet6 : List Char) :
    responses (handle_at_getaddrinfo .AT_CMD_TYPE_SET_COMMAND [.string [], .string ['h']]
        (St.start closed_session 0
          (fun _ => { Outcome.resolved [host_v4, host_v6] with as_inet6 := as_inet6 }))).1.trace
      = [Rsp.xgetaddrinfo (['1', '0', '.', '0', '.', '0', '.', '1', ' '] ++ as_inet6)] := by
  simp [handle_at_getaddrinfo, util_string_get, TCPIP_MAX_URL, St.ext, St.start, St.rsp_send,
    St.void, Outcome.resolved, Ret.code, getaddrinfo_text, host_v4, host_v6, responses, AF_INET,
    AF_INET6]

end Slm
